import Mathlib

/-! JOS system calls, scheduler and user-level fork: a shallow embedding.

The embedding covers kern/syscall.c, the `sched_yield` of kern/sched.c, the
trap path of kern/trap.c (`trap`, `trap_dispatch`, `handle_syscall`,
`page_fault_handler`), lib/fork.c (`fork`, `duppage`, `pgfault`) and the
`ipc_send` and `ipc_recv` of lib/ipc.c.

Machine words are natural numbers (a `uint32_t` is a `Nat` below `2 ^ 32`),
kernel return codes are integers (`0` or a negated error number), and the
kernel's global data (`envs`, `curenv`, the page tables and the free lists)
is an explicit state record `KState` threaded through every call.  Console
output (`cprintf`) is not part of the state and is left out.
-/

namespace JOS

/-! ## Constants of the absent headers -/

/-- Modelled from the spec: `PGSIZE` of inc/mmu.h (absent), the x86 page size. -/
def PGSIZE : Nat := 4096

/-- Modelled from the spec: `UTOP` of inc/memlayout.h (absent), the page-aligned
top of the user-mappable region. -/
def UTOP : Nat := 0xeec00000

/-- Modelled from the spec: `PTE_P` of inc/mmu.h (absent), the PRESENT bit. -/
def PTE_P : Nat := 0x001

/-- Modelled from the spec: `PTE_W` of inc/mmu.h (absent), the WRITE bit. -/
def PTE_W : Nat := 0x002

/-- Modelled from the spec: `PTE_U` of inc/mmu.h (absent), the USER bit. -/
def PTE_U : Nat := 0x004

/-- Modelled from the spec: `PTE_AVAIL` of inc/mmu.h (absent), the bits left to
software (one of them encodes COW at user level). -/
def PTE_AVAIL : Nat := 0xE00

/-- Modelled from the spec: `PTE_SYSCALL` of inc/mmu.h (absent), the mask of the
permission bits a system call may carry: USER, PRESENT, WRITE, AVAIL. -/
def PTE_SYSCALL : Nat := PTE_AVAIL ||| PTE_P ||| PTE_W ||| PTE_U

/-- Modelled from the spec: `LOG2NENV`/`NENV` of inc/env.h (absent), the size of
the environment table, a power of two. -/
def NENV : Nat := 1024

/-- Modelled from the spec: `ENVX` of inc/env.h (absent),
`index = id & (NENV-1)`. -/
def ENVX (envid : Nat) : Nat := envid &&& (NENV - 1)

/-- Modelled from the spec: the status values of inc/env.h (absent). -/
def ENV_FREE : Nat := 0

/-- Modelled from the spec: the status values of inc/env.h (absent). -/
def ENV_DYING : Nat := 1

/-- Modelled from the spec: the status values of inc/env.h (absent). -/
def ENV_RUNNABLE : Nat := 2

/-- Modelled from the spec: the status values of inc/env.h (absent). -/
def ENV_RUNNING : Nat := 3

/-- Modelled from the spec: the status values of inc/env.h (absent). -/
def ENV_NOT_RUNNABLE : Nat := 4

/-- Modelled from the spec: error number BadEnv of inc/error.h (absent). -/
def E_BAD_ENV : Int := 2

/-- Modelled from the spec: error number Inval of inc/error.h (absent). -/
def E_INVAL : Int := 3

/-- Modelled from the spec: error number NoMem of inc/error.h (absent). -/
def E_NO_MEM : Int := 4

/-- Modelled from the spec: error number NoFreeEnv of inc/error.h (absent). -/
def E_NO_FREE_ENV : Int := 5

/-- Modelled from the spec: error number IpcNotRecv of inc/error.h (absent). -/
def E_IPC_NOT_RECV : Int := 7

/-! ## Data model -/

/-- Modelled from the spec: `struct PushRegs` of inc/trap.h (absent), the eight
general registers in their fixed order. -/
structure PushRegs where
  reg_edi : Nat
  reg_esi : Nat
  reg_ebp : Nat
  reg_oesp : Nat
  reg_ebx : Nat
  reg_edx : Nat
  reg_ecx : Nat
  reg_eax : Nat
deriving DecidableEq, Repr

/-- Modelled from the spec: `struct Trapframe` of inc/trap.h (absent): general
registers, segment selectors, trap number, error code, `eip`, `cs`, `eflags`,
`esp`, `ss`. -/
structure Trapframe where
  tf_regs : PushRegs
  tf_es : Nat
  tf_ds : Nat
  tf_trapno : Nat
  tf_err : Nat
  tf_eip : Nat
  tf_cs : Nat
  tf_eflags : Nat
  tf_esp : Nat
  tf_ss : Nat
deriving DecidableEq, Repr

/-- Modelled from the spec: `struct Env` of inc/env.h (absent), the environment
record.  `env_pgdir` names the page directory of the environment. -/
structure Env where
  env_tf : Trapframe
  env_id : Nat
  env_parent_id : Nat
  env_type : Nat
  env_status : Nat
  env_pgdir : Nat
  env_pgfault_upcall : Nat
  env_ipc_recving : Nat
  env_ipc_dstva : Nat
  env_ipc_value : Nat
  env_ipc_from : Nat
  env_ipc_perm : Nat
deriving DecidableEq, Repr

/-- A page-table entry: the physical frame and the permission bits. -/
structure PTE where
  frame : Nat
  perm : Nat
deriving DecidableEq, Repr

/-- The kernel's global data.  `envs` is the environment table indexed by slot,
`curenv` the slot of the environment that made the system call, `pgdirs d n`
the entry of page directory `d` for virtual page number `n`, `pp_ref` the
reference count of each physical frame, and `pt_nomem d n` tells whether the
memory manager has no memory for the page table that covers page `n` of
directory `d`. -/
structure KState where
  envs : Nat → Env
  env_free_list : List Nat
  curenv : Nat
  page_free_list : List Nat
  pp_ref : Nat → Nat
  pgdirs : Nat → Nat → Option PTE
  pt_nomem : Nat → Nat → Bool

/-! ## Collaborators: environment lookup and the memory manager -/

/-- Modelled from the spec: `envid2env` of kern/env.c (absent).  Id 0 is the
caller's own record, ignoring the permission check; a non-zero id indexes the
table, the slot must be non-FREE and its stored id must match exactly, else
BadEnv; with `checkperm` the target must be the caller or a direct child of the
caller, else BadEnv.  The result is the slot of the record. -/
def envid2env (s : KState) (envid : Nat) (checkperm : Bool) : Except Int Nat :=
  if envid = 0 then .ok s.curenv
  else if (s.envs (ENVX envid)).env_status = ENV_FREE ∨ (s.envs (ENVX envid)).env_id ≠ envid then
    .error (-E_BAD_ENV)
  else if checkperm = true ∧ ENVX envid ≠ s.curenv ∧
      (s.envs (ENVX envid)).env_parent_id ≠ (s.envs s.curenv).env_id then
    .error (-E_BAD_ENV)
  else .ok (ENVX envid)

/-- Modelled from the spec: `PGNUM` of inc/mmu.h (absent), the page number of an
address. -/
def PGNUM (va : Nat) : Nat := va / PGSIZE

/-- Modelled from the spec: `page_alloc` of kern/pmap.c (absent): take a fresh
frame off the free list, or fail when there is none. -/
def page_alloc (s : KState) : Option (Nat × KState) :=
  match s.page_free_list with
  | [] => none
  | pp :: rest => some (pp, { s with page_free_list := rest })

/-- Modelled from the spec: `page_free` of kern/pmap.c (absent): give a frame
back to the free list. -/
def page_free (s : KState) (pp : Nat) : KState :=
  { s with page_free_list := pp :: s.page_free_list }

/-- Modelled from the spec: `page_decref` of kern/pmap.c (absent): drop one
reference to a frame and free the frame with its last reference. -/
def page_decref (s : KState) (pp : Nat) : KState :=
  if s.pp_ref pp = 1 then
    page_free { s with pp_ref := Function.update s.pp_ref pp 0 } pp
  else { s with pp_ref := Function.update s.pp_ref pp (s.pp_ref pp - 1) }

/-- Modelled from the spec: `page_lookup` of kern/pmap.c (absent): the entry
(frame and permissions) backing `va` in a page directory, if any. -/
def page_lookup (s : KState) (pgdir va : Nat) : Option PTE :=
  s.pgdirs pgdir (PGNUM va)

/-- Modelled from the spec: `page_remove` of kern/pmap.c (absent): silent success
if no mapping; remove otherwise, dropping the reference to the frame. -/
def page_remove (s : KState) (pgdir va : Nat) : KState :=
  match page_lookup s pgdir va with
  | none => s
  | some pte =>
    page_decref
      { s with pgdirs := Function.update s.pgdirs pgdir
                 (Function.update (s.pgdirs pgdir) (PGNUM va) none) }
      pte.frame

/-- Modelled from the spec: `page_insert` of kern/pmap.c (absent): insert a
frame at `va` with the requested perm.  It fails with NoMem, changing nothing,
when there is no memory for the intermediate page table; otherwise the frame
gains a reference, a page already mapped at `va` is removed, and the entry is
written. -/
def page_insert (s : KState) (pgdir pp va perm : Nat) : Int × KState :=
  if s.pt_nomem pgdir (PGNUM va) = true then (-E_NO_MEM, s)
  else
    let s1 := { s with pp_ref := Function.update s.pp_ref pp (s.pp_ref pp + 1) }
    let s2 := page_remove s1 pgdir va
    (0, { s2 with pgdirs := Function.update s2.pgdirs pgdir
                    (Function.update (s2.pgdirs pgdir) (PGNUM va) (some ⟨pp, perm⟩)) })

/-- Apply `f` to the record in slot `i` of the environment table: a write
through a `struct Env *`. -/
def modifyEnv (s : KState) (i : Nat) (f : Env → Env) : KState :=
  { s with envs := Function.update s.envs i (f (s.envs i)) }

/-- Modelled from the spec: `env_alloc` of kern/env.c (absent).  It fails with
NoFreeEnv when the free list is empty and with NoMem when no frame is left for
the page directory, changing nothing.  Otherwise it takes the first slot off the
free list (LIFO) and turns FREE into NOT_RUNNABLE, assigning a fresh id (low bits
the slot, high bits the next generation of that slot), the creator as parent id
and a fresh page directory with no user mapping.  The result is the slot. -/
def env_alloc (s : KState) (parent_id : Nat) : Except Int (Nat × KState) :=
  match s.env_free_list with
  | [] => .error (-E_NO_FREE_ENV)
  | e :: rest =>
    match page_alloc s with
    | none => .error (-E_NO_MEM)
    | some (p, s1) =>
      .ok (e,
        { s1 with
          env_free_list := rest
          pp_ref := Function.update s1.pp_ref p (s1.pp_ref p + 1)
          pgdirs := Function.update s1.pgdirs p (fun _ => none)
          envs := Function.update s1.envs e
            { s1.envs e with
              env_id := ((s1.envs e).env_id / NENV + 1) * NENV + e
              env_parent_id := parent_id
              env_status := ENV_NOT_RUNNABLE
              env_pgdir := p } })

/-! ## kern/syscall.c -/

/-- The `sys_exofork` of kern/syscall.c.  The four writes through `newEnv` are
done in the order of the source, each reading `curenv` as it then is. -/
def sys_exofork (s : KState) : Int × KState :=
  match env_alloc s (s.envs s.curenv).env_id with
  | .error ret => (ret, s)
  | .ok (newEnv, s1) =>
    let s2 := modifyEnv s1 newEnv (fun e => { e with env_status := ENV_NOT_RUNNABLE })
    let s3 := modifyEnv s2 newEnv (fun e => { e with env_tf := (s2.envs s2.curenv).env_tf })
    let s4 := modifyEnv s3 newEnv
      (fun e => { e with env_tf := { e.env_tf with tf_regs := { e.env_tf.tf_regs with reg_eax := 0 } } })
    let s5 := modifyEnv s4 newEnv
      (fun e => { e with env_tf := { e.env_tf with tf_eip := (s4.envs s4.curenv).env_tf.tf_eip } })
    (((s5.envs newEnv).env_id : Int), s5)

/-- The `sys_env_set_status` of kern/syscall.c. -/
def sys_env_set_status (s : KState) (envid status : Nat) : Int × KState :=
  if status ≠ ENV_RUNNABLE ∧ status ≠ ENV_NOT_RUNNABLE then (-E_INVAL, s)
  else
    match envid2env s envid true with
    | .error ret => (ret, s)
    | .ok env => (0, modifyEnv s env (fun e => { e with env_status := status }))


/-- The `check_user_page_perm` of kern/syscall.c: `perm` is a 32-bit word, and
`~PTE_SYSCALL` is the 32-bit complement of the mask. -/
def check_user_page_perm (perm : Nat) : Int :=
  if perm &&& PTE_U = 0 ∨ perm &&& PTE_P = 0 then -E_INVAL
  else if perm &&& (0xFFFFFFFF ^^^ PTE_SYSCALL) ≠ 0 then -E_INVAL
  else 0

/-- The `check_va_bound_round` of kern/syscall.c. -/
def check_va_bound_round (va : Nat) : Int :=
  if va > UTOP ∨ va % PGSIZE ≠ 0 then -E_INVAL else 0

/-- The `sys_page_alloc` of kern/syscall.c. -/
def sys_page_alloc (s : KState) (envid va perm : Nat) : Int × KState :=
  match envid2env s envid true with
  | .error r => (r, s)
  | .ok env =>
    if check_va_bound_round va < 0 then (check_va_bound_round va, s)
    else if check_user_page_perm perm < 0 then (check_user_page_perm perm, s)
    else
      match page_alloc s with
      | none => (-E_NO_MEM, s)
      | some (phypage, s1) =>
        let r := page_insert s1 (s1.envs env).env_pgdir phypage va perm
        if r.1 < 0 then (r.1, page_free r.2 phypage) else (0, r.2)

/-- The `sys_page_map` of kern/syscall.c. -/
def sys_page_map (s : KState) (srcenvid srcva dstenvid dstva perm : Nat) : Int × KState :=
  match envid2env s srcenvid true with
  | .error r => (r, s)
  | .ok srcenv =>
    match envid2env s dstenvid true with
    | .error r => (r, s)
    | .ok dstenv =>
      if check_va_bound_round srcva < 0 then (check_va_bound_round srcva, s)
      else if check_va_bound_round dstva < 0 then (check_va_bound_round dstva, s)
      else if check_user_page_perm perm < 0 then (check_user_page_perm perm, s)
      else
        match page_lookup s (s.envs srcenv).env_pgdir srcva with
        | none => (-E_INVAL, s)
        | some srcpte =>
          if perm &&& PTE_W ≠ 0 ∧ srcpte.perm &&& PTE_W = 0 then (-E_INVAL, s)
          else
            let r := page_insert s (s.envs dstenv).env_pgdir srcpte.frame dstva perm
            if r.1 < 0 then r else (0, r.2)

/-- The `sys_page_unmap` of kern/syscall.c. -/
def sys_page_unmap (s : KState) (envid va : Nat) : Int × KState :=
  match envid2env s envid true with
  | .error r => (r, s)
  | .ok env =>
    if check_va_bound_round va < 0 then (check_va_bound_round va, s)
    else (0, page_remove s (s.envs env).env_pgdir va)

/-- The writes of `sys_ipc_try_send` to the receiver once every check has passed
(kern/syscall.c, lines 482-496): `perm` is the permission recorded, 0 when no
page is sent. -/
def ipc_deliver (s : KState) (dstenv value perm : Nat) : KState :=
  let s1 := modifyEnv s dstenv (fun e => { e with env_ipc_perm := perm })
  let s2 := modifyEnv s1 dstenv (fun e => { e with env_ipc_from := (s1.envs s1.curenv).env_id })
  let s3 := modifyEnv s2 dstenv (fun e => { e with env_ipc_value := value })
  let s4 := modifyEnv s3 dstenv (fun e => { e with env_status := ENV_RUNNABLE })
  let s5 := modifyEnv s4 dstenv (fun e => { e with env_ipc_recving := 0 })
  modifyEnv s5 dstenv
    (fun e => { e with env_tf := { e.env_tf with tf_regs := { e.env_tf.tf_regs with reg_eax := 0 } } })

/-- The permission `sys_ipc_try_send` works with after its two tests on the
addresses (kern/syscall.c, lines 443-450): 0 when the receiver wants no page or
the sender sends none. -/
def ipc_send_perm (s : KState) (dstenv srcva perm : Nat) : Nat :=
  let perm1 := if (s.envs dstenv).env_ipc_dstva ≥ UTOP then 0 else perm
  if srcva ≥ UTOP then 0 else perm1

/-- The `sys_ipc_try_send` of kern/syscall.c. -/
def sys_ipc_try_send (s : KState) (envid value srcva perm : Nat) : Int × KState :=
  match envid2env s envid false with
  | .error ret => (ret, s)
  | .ok dstenv =>
    if (s.envs dstenv).env_ipc_recving = 0 then (-E_IPC_NOT_RECV, s)
    else if ipc_send_perm s dstenv srcva perm ≠ 0 then
      let perm2 := ipc_send_perm s dstenv srcva perm ||| PTE_P
      if srcva % PGSIZE ≠ 0 then (-E_INVAL, s)
      else if check_user_page_perm perm2 < 0 then (check_user_page_perm perm2, s)
      else
        match page_lookup s (s.envs s.curenv).env_pgdir srcva with
        | none => (-E_INVAL, s)
        | some srcpte =>
          if perm2 &&& PTE_W = PTE_W ∧ srcpte.perm &&& PTE_W ≠ PTE_W then (-E_INVAL, s)
          else
            let r := page_insert s (s.envs dstenv).env_pgdir srcpte.frame
              (s.envs dstenv).env_ipc_dstva perm2
            if r.1 < 0 then r else (0, ipc_deliver r.2 dstenv value perm2)
    else (0, ipc_deliver s dstenv value 0)

/-- The `sys_ipc_recv` of kern/syscall.c up to its call of `sched_yield`: the
first component is `some r` when the call returns `r` and `none` when it enters
the scheduler, which does not return; the second is the state at that point. -/
def sys_ipc_recv (s : KState) (dstva : Nat) : Option Int × KState :=
  if dstva < UTOP then
    let s1 := modifyEnv s s.curenv (fun e => { e with env_ipc_dstva := dstva })
    if dstva % PGSIZE ≠ 0 then (some (-E_INVAL), s1)
    else
      let s2 := modifyEnv s1 s1.curenv (fun e => { e with env_status := ENV_NOT_RUNNABLE })
      (none, modifyEnv s2 s2.curenv (fun e => { e with env_ipc_recving := 1 }))
  else
    let s1 := modifyEnv s s.curenv (fun e => { e with env_ipc_dstva := UTOP })
    let s2 := modifyEnv s1 s1.curenv (fun e => { e with env_status := ENV_NOT_RUNNABLE })
    (none, modifyEnv s2 s2.curenv (fun e => { e with env_ipc_recving := 1 }))

/-! ## kern/sched.c -/

/-- What `sched_yield` ends in.  It does not return: it passes the environment
of a slot to `env_run`, or it calls `sched_halt`. -/
inductive SchedAction where
  | env_run (e : Nat)
  | sched_halt
deriving DecidableEq, Repr

/-- The search loop of `sched_yield` (kern/sched.c, lines 75-80) with `n`
iterations left, at `offset`: the slot `realIndex` of the first environment it
finds ENV_RUNNABLE and passes to `env_run`, if any. -/
def sched_yield_loop (envs : Nat → Env) (curenvIndex : Nat) : Nat → Nat → Option Nat
  | 0, _ => none
  | n + 1, offset =>
    if (envs ((curenvIndex + offset) % NENV)).env_status = ENV_RUNNABLE then
      some ((curenvIndex + offset) % NENV)
    else sched_yield_loop envs curenvIndex n (offset + 1)

/-- The `sched_yield` of kern/sched.c on the environment table `envs`; `curenv`
is the slot of the CPU's current environment, `none` when `curenv` is NULL. -/
def sched_yield (envs : Nat → Env) (curenv : Option Nat) : SchedAction :=
  match sched_yield_loop envs
      (match curenv with
       | some c => ENVX (envs c).env_id
       | none => 0) NENV 0 with
  | some e => .env_run e
  | none =>
    match curenv with
    | some c => if (envs c).env_status = ENV_RUNNING then .env_run c else .sched_halt
    | none => .sched_halt

/-! ## kern/syscall.c: the remaining calls and the dispatcher -/

/-- Outcome of a kernel path that may enter the scheduler instead of returning:
`ret val s` when it returns `val` in state `s`, `yield curenv s` when it has
called `sched_yield` in state `s` with the CPU's `curenv` as given (`none` for
NULL); `sched_yield` does not return. -/
inductive KResult (α : Type) where
  | ret (val : α) (s : KState)
  | yield (curenv : Option Nat) (s : KState)

/-- Modelled from the spec: `env_free` of kern/env.c (absent): the slot becomes
FREE, which goes with `env_id == 0`, and is put back at the head of the free
list.  The spec says nothing of the release of the address space, which is left
to the memory manager and not modelled. -/
def env_free (s : KState) (e : Nat) : KState :=
  { modifyEnv s e (fun r => { r with env_status := ENV_FREE, env_id := 0 }) with
    env_free_list := e :: s.env_free_list }

/-- Modelled from the spec: `env_destroy` of kern/env.c (absent).  The current
environment is marked DYING and the CPU yields, the next entry to the kernel
finishing the teardown; another environment that is RUNNING (on another CPU)
becomes DYING; any other environment is freed immediately. -/
def env_destroy (s : KState) (e : Nat) : KResult Unit :=
  if e = s.curenv then
    .yield (some s.curenv) (modifyEnv s e (fun r => { r with env_status := ENV_DYING }))
  else if (s.envs e).env_status = ENV_RUNNING then
    .ret () (modifyEnv s e (fun r => { r with env_status := ENV_DYING }))
  else .ret () (env_free s e)

/-- Modelled from the spec: `user_mem_check` of kern/pmap.c (absent): the range
`[va, va+len)` may be accessed by the environment with permission `perm` when
every page it touches is mapped in the environment's address space with all
the bits of `perm | PTE_P`. -/
def user_mem_check (s : KState) (env va len perm : Nat) : Bool :=
  (List.range (PGNUM (va + len + PGSIZE - 1) - PGNUM va)).all fun k =>
    match s.pgdirs (s.envs env).env_pgdir (PGNUM va + k) with
    | none => false
    | some pte => pte.perm &&& (perm ||| PTE_P) = perm ||| PTE_P

/-- Modelled from the spec: `user_mem_assert` of kern/pmap.c (absent): assert
that the range may be accessed by the user with `perm`, that is with the
permissions `perm | PTE_U` (and PTE_P, which `user_mem_check` adds); destroy the
environment when the check fails. -/
def user_mem_assert (s : KState) (env va len perm : Nat) : KResult Unit :=
  if user_mem_check s env va len (perm ||| PTE_U) = true then .ret () s else env_destroy s env

/-- The `sys_cputs` of kern/syscall.c; the characters printed are not part of
the state. -/
def sys_cputs (s : KState) (str len : Nat) : KResult Unit :=
  user_mem_assert s s.curenv str len (PTE_U ||| PTE_P)

/-- Modelled from the spec: `cons_getc` of kern/console.c (absent): a
non-blocking character fetch, 0 if none; `input` holds the characters waiting
on the console. -/
def cons_getc (input : List Nat) : Nat × List Nat :=
  match input with
  | [] => (0, [])
  | c :: rest => (c, rest)

/-- The `sys_cgetc` of kern/syscall.c. -/
def sys_cgetc (input : List Nat) : Int × List Nat :=
  (((cons_getc input).1 : Int), (cons_getc input).2)

/-- The `sys_getenvid` of kern/syscall.c. -/
def sys_getenvid (s : KState) : Int :=
  ((s.envs s.curenv).env_id : Int)

/-- The `sys_env_destroy` of kern/syscall.c. -/
def sys_env_destroy (s : KState) (envid : Nat) : KResult Int :=
  match envid2env s envid true with
  | .error r => .ret r s
  | .ok e =>
    match env_destroy s e with
    | .ret _ s1 => .ret 0 s1
    | .yield c s1 => .yield c s1

/-- The `sys_yield` of kern/syscall.c. -/
def sys_yield (s : KState) : KResult Unit :=
  .yield (some s.curenv) s

/-- The `sys_env_set_pgfault_upcall` of kern/syscall.c. -/
def sys_env_set_pgfault_upcall (s : KState) (envid func : Nat) : Int × KState :=
  match envid2env s envid true with
  | .error ret => (ret, s)
  | .ok env => (0, modifyEnv s env (fun e => { e with env_pgfault_upcall := func }))

/-- System call number of inc/syscall.h. -/
def SYS_cputs : Nat := 0

/-- System call number of inc/syscall.h. -/
def SYS_cgetc : Nat := 1

/-- System call number of inc/syscall.h. -/
def SYS_getenvid : Nat := 2

/-- System call number of inc/syscall.h. -/
def SYS_env_destroy : Nat := 3

/-- System call number of inc/syscall.h. -/
def SYS_page_alloc : Nat := 4

/-- System call number of inc/syscall.h. -/
def SYS_page_map : Nat := 5

/-- System call number of inc/syscall.h. -/
def SYS_page_unmap : Nat := 6

/-- System call number of inc/syscall.h. -/
def SYS_exofork : Nat := 7

/-- System call number of inc/syscall.h. -/
def SYS_env_set_status : Nat := 8

/-- System call number of inc/syscall.h. -/
def SYS_env_set_pgfault_upcall : Nat := 9

/-- System call number of inc/syscall.h. -/
def SYS_yield : Nat := 10

/-- System call number of inc/syscall.h. -/
def SYS_ipc_try_send : Nat := 11

/-- System call number of inc/syscall.h. -/
def SYS_ipc_recv : Nat := 12

/-- The count of system calls of inc/syscall.h. -/
def NSYSCALLS : Nat := 13

/-- A result pair of a call that always returns, as a `KResult`. -/
def KResult.ofPair (r : Int × KState) : KResult Int :=
  .ret r.1 r.2

/-- The `syscall` of kern/syscall.c, case by case in the order of the source;
the arguments are 32-bit words. -/
def syscall (s : KState) (syscallno a1 a2 a3 a4 a5 : Nat) : KResult Int :=
  if syscallno = SYS_cputs then
    match sys_cputs s a1 a2 with
    | .ret _ s1 => .ret 0 s1
    | .yield c s1 => .yield c s1
  else if syscallno = SYS_getenvid then .ret (sys_getenvid s) s
  else if syscallno = SYS_env_destroy then sys_env_destroy s a1
  else if syscallno = SYS_yield then .yield (some s.curenv) s
  else if syscallno = SYS_exofork then KResult.ofPair (sys_exofork s)
  else if syscallno = SYS_env_set_status then KResult.ofPair (sys_env_set_status s a1 a2)
  else if syscallno = SYS_page_alloc then KResult.ofPair (sys_page_alloc s a1 a2 a3)
  else if syscallno = SYS_page_map then KResult.ofPair (sys_page_map s a1 a2 a3 a4 a5)
  else if syscallno = SYS_page_unmap then KResult.ofPair (sys_page_unmap s a1 a2)
  else if syscallno = SYS_env_set_pgfault_upcall then
    KResult.ofPair (sys_env_set_pgfault_upcall s a1 a2)
  else if syscallno = SYS_ipc_try_send then KResult.ofPair (sys_ipc_try_send s a1 a2 a3 a4)
  else if syscallno = SYS_ipc_recv then
    match sys_ipc_recv s a1 with
    | (some r, s1) => .ret r s1
    | (none, s1) => .yield (some s1.curenv) s1
  else .ret (-E_INVAL) s

/-! ## kern/trap.c: the system-call trap -/

/-- Where the trap frame handed to a trap handler lives: `trap` passes the frame
on the kernel stack for a trap taken in kernel mode, and `&curenv->env_tf` for
a trap from user mode. -/
inductive TrapframePtr where
  | on_stack (tf : Trapframe)
  | in_curenv

/-- The frame a `TrapframePtr` points to. -/
def TrapframePtr.deref (s : KState) : TrapframePtr → Trapframe
  | .on_stack tf => tf
  | .in_curenv => (s.envs s.curenv).env_tf

/-- A trap frame with `reg_eax` replaced. -/
def Trapframe.set_eax (tf : Trapframe) (v : Nat) : Trapframe :=
  { tf with tf_regs := { tf.tf_regs with reg_eax := v } }

/-- The 32-bit word that stores an `int32_t`. -/
def word_of_int (r : Int) : Nat :=
  (r % 2 ^ 32).toNat

/-- The `handle_syscall` of kern/trap.c: when `syscall` returns, its result is
stored in `reg_eax` of the frame `tf` points to; `tf` was taken before the call. -/
def handle_syscall (s : KState) (tf : TrapframePtr) : KResult TrapframePtr :=
  match syscall s (tf.deref s).tf_regs.reg_eax (tf.deref s).tf_regs.reg_edx
      (tf.deref s).tf_regs.reg_ecx (tf.deref s).tf_regs.reg_ebx
      (tf.deref s).tf_regs.reg_edi (tf.deref s).tf_regs.reg_esi with
  | .yield c s1 => .yield c s1
  | .ret r s1 =>
    match tf with
    | .on_stack f => .ret (.on_stack (f.set_eax (word_of_int r))) s1
    | .in_curenv =>
      .ret .in_curenv (modifyEnv s1 s.curenv (fun e => { e with env_tf := e.env_tf.set_eax (word_of_int r) }))

/-! ## lib/fork.c

The user library runs in the calling environment; its system-call stubs
(lib/syscall.c, absent) trap into the kernel functions above, which return to
the caller. -/

/-- Modelled from the spec: `USTACKTOP` of inc/memlayout.h (absent), the top of
the normal user stack, below UTOP. -/
def USTACKTOP : Nat := 0xeebfe000

/-- Modelled from the spec: `UXSTACKTOP` of inc/memlayout.h (absent), the top
of the one-page user exception stack. -/
def UXSTACKTOP : Nat := 0xeec00000

/-- Modelled from the spec: `PTE_COW` of inc/lib.h (absent), the AVAIL bit that
encodes copy-on-write at user level. -/
def PTE_COW : Nat := 0x800

/-- Modelled from the spec: `PTXSHIFT` of inc/mmu.h (absent), the shift from a
page number to its address. -/
def PTXSHIFT : Nat := 12

/-- Modelled from the spec: `PTE_PERM` of inc/mmu.h (absent), the permission
bits of a page-table entry, its low 12 bits. -/
def PTE_PERM (pte : Nat) : Nat := pte &&& 0xFFF

/-- Outcome of a user-library routine: it returns `r`, or it panics. -/
inductive UResult where
  | ret (r : Int) (s : KState)
  | panic (s : KState)

/-- The `getpte` of lib/fork.c.  `uvpd` and `uvpt` are the read-only windows on
the caller's own page directory and page tables: the entry of a mapped page is
the address of its frame with the permission bits in the low 12 bits, and the
result is 0 where the directory or the table holds no entry. -/
def getpte (s : KState) (addr : Nat) : Nat :=
  match page_lookup s (s.envs s.curenv).env_pgdir addr with
  | none => 0
  | some pte => pte.frame * PGSIZE + pte.perm % PGSIZE

/-- The `duppage` of lib/fork.c; `thisenv->env_id` is the id in the caller's
record. -/
def duppage (s : KState) (envid pn : Nat) : UResult :=
  if (pn * 2 ^ PTXSHIFT) % 2 ^ 32 ≥ UTOP then .panic s
  else if getpte s ((pn * 2 ^ PTXSHIFT) % 2 ^ 32) = 0 then .ret 0 s
  else if PTE_PERM (getpte s ((pn * 2 ^ PTXSHIFT) % 2 ^ 32)) &&& PTE_U = 0 ∨
      PTE_PERM (getpte s ((pn * 2 ^ PTXSHIFT) % 2 ^ 32)) &&& PTE_P = 0 then .ret (-E_INVAL) s
  else if PTE_PERM (getpte s ((pn * 2 ^ PTXSHIFT) % 2 ^ 32)) &&& PTE_W ≠ 0 ∨
      PTE_PERM (getpte s ((pn * 2 ^ PTXSHIFT) % 2 ^ 32)) &&& PTE_COW ≠ 0 then
    let r1 := sys_page_map s (s.envs s.curenv).env_id ((pn * 2 ^ PTXSHIFT) % 2 ^ 32)
      envid ((pn * 2 ^ PTXSHIFT) % 2 ^ 32) (PTE_COW ||| PTE_U ||| PTE_P)
    if r1.1 < 0 then .ret r1.1 r1.2
    else
      let r2 := sys_page_map r1.2 (r1.2.envs r1.2.curenv).env_id
        ((pn * 2 ^ PTXSHIFT) % 2 ^ 32) (r1.2.envs r1.2.curenv).env_id
        ((pn * 2 ^ PTXSHIFT) % 2 ^ 32) (PTE_COW ||| PTE_U ||| PTE_P)
      if r2.1 < 0 then .ret r2.1 r2.2 else .ret 0 r2.2
  else
    let r1 := sys_page_map s (s.envs s.curenv).env_id ((pn * 2 ^ PTXSHIFT) % 2 ^ 32)
      envid ((pn * 2 ^ PTXSHIFT) % 2 ^ 32) (PTE_U ||| PTE_P)
    if r1.1 < 0 then .ret r1.1 r1.2 else .ret 0 r1.2

/-- The state in which a user-library routine ends. -/
def UResult.state : UResult → KState
  | .ret _ s => s
  | .panic s => s

/-- Modelled from the spec: `FEC_WR` of inc/mmu.h (absent), the bit of a
page-fault error code that tells a write from a read; `print_trapframe` of
kern/trap.c decodes the same bit as `tf_err & 2`. -/
def FEC_WR : Nat := 2

/-- Modelled from the spec: `PFTEMP` of inc/memlayout.h (absent), the scratch
virtual address of the user page-fault handler, the last page below UTEXT. -/
def PFTEMP : Nat := 0x7ff000

/-- Modelled from the spec: `ROUNDDOWN` of inc/types.h (absent): the nearest
multiple of `n` not above `a`. -/
def ROUNDDOWN (a n : Nat) : Nat := a - a % n

/-- Modelled from the spec: `struct UTrapframe` of inc/trap.h (absent), the
record pushed onto the user exception stack to deliver a page fault: the pushed
general registers, the fault `va`, the error code, `eip`, `eflags`, `esp`. -/
structure UTrapframe where
  utf_regs : PushRegs
  utf_fault_va : Nat
  utf_err : Nat
  utf_eip : Nat
  utf_eflags : Nat
  utf_esp : Nat
  deriving DecidableEq, Repr

/-- A call a user-library routine makes, with its arguments: a system call, or
the library's `memmove`. -/
inductive UCall where
  | sys_page_alloc (envid va perm : Nat)
  | sys_page_map (srcenvid srcva dstenvid dstva perm : Nat)
  | sys_page_unmap (envid va : Nat)
  | memmove (dst src n : Nat)
  | sys_ipc_try_send (envid value srcva perm : Nat)
  | sys_ipc_recv (dstva : Nat)
  | sys_yield
  deriving DecidableEq, Repr

/-- How far a user-library routine got: it returned, it panicked, or it is
still in its loop when the count of iterations looked at is used up. -/
inductive UStatus where
  | returned
  | panicked
  | running
  deriving DecidableEq, Repr

/-- A run of a user-library routine: how it ended, the kernel state it ended
in, and the calls it made, in order. -/
structure URun where
  status : UStatus
  s : KState
  calls : List UCall

/-- Modelled from the spec: `memmove` of lib/string.c (absent), for a copy of
`n <= PGSIZE` bytes between two page-aligned addresses of the caller.  The
contents of physical memory are `mem frame offset`; the bytes go from the frame
mapped at `src` to the frame mapped at `dst`. -/
def memmove (s : KState) (mem : Nat → Nat → Nat) (dst src n : Nat) : Nat → Nat → Nat :=
  match page_lookup s (s.envs s.curenv).env_pgdir dst,
      page_lookup s (s.envs s.curenv).env_pgdir src with
  | some d, some e =>
    Function.update mem d.frame (fun off => if off < n then mem e.frame off else mem d.frame off)
  | _, _ => mem

/-- The `pgfault` of lib/fork.c: the run, and the contents of physical memory
it leaves. -/
def pgfault (s : KState) (mem : Nat → Nat → Nat) (utf : UTrapframe) :
    URun × (Nat → Nat → Nat) :=
  if utf.utf_err &&& FEC_WR = 0 then (⟨.panicked, s, []⟩, mem)
  else if getpte s utf.utf_fault_va = 0 then (⟨.panicked, s, []⟩, mem)
  else if PTE_PERM (getpte s utf.utf_fault_va) &&& PTE_COW = 0 then (⟨.panicked, s, []⟩, mem)
  else
    let perm := PTE_P ||| PTE_U ||| PTE_W
    let r1 := sys_page_alloc s 0 PFTEMP perm
    if r1.1 < 0 then (⟨.panicked, r1.2, [.sys_page_alloc 0 PFTEMP perm]⟩, mem)
    else
      let addr := ROUNDDOWN utf.utf_fault_va 4096
      let mem1 := memmove r1.2 mem PFTEMP addr PGSIZE
      let r2 := sys_page_map r1.2 0 PFTEMP 0 addr perm
      if r2.1 < 0 then
        (⟨.panicked, r2.2,
          [.sys_page_alloc 0 PFTEMP perm, .memmove PFTEMP addr PGSIZE,
           .sys_page_map 0 PFTEMP 0 addr perm]⟩, mem1)
      else
        let r3 := sys_page_unmap r2.2 0 PFTEMP
        (⟨if r3.1 < 0 then .panicked else .returned, r3.2,
          [.sys_page_alloc 0 PFTEMP perm, .memmove PFTEMP addr PGSIZE,
           .sys_page_map 0 PFTEMP 0 addr perm, .sys_page_unmap 0 PFTEMP]⟩, mem1)

/-! ## lib/ipc.c -/

/-- The loop of `ipc_send` (lib/ipc.c, lines 78-88), followed for at most the
given number of iterations. -/
def ipc_send_loop (to_env val pg perm : Nat) : Nat → KState → URun
  | 0, s => ⟨.running, s, []⟩
  | n + 1, s =>
    let r := sys_ipc_try_send s to_env val pg perm
    if r.1 < 0 then
      if r.1 ≠ -E_IPC_NOT_RECV then ⟨.panicked, r.2, [.sys_ipc_try_send to_env val pg perm]⟩
      else
        ⟨(ipc_send_loop to_env val pg perm n r.2).status,
         (ipc_send_loop to_env val pg perm n r.2).s,
         .sys_ipc_try_send to_env val pg perm :: (ipc_send_loop to_env val pg perm n r.2).calls⟩
    else ⟨.returned, r.2, [.sys_ipc_try_send to_env val pg perm]⟩

/-- The `ipc_send` of lib/ipc.c, its loop followed for at most `fuel`
iterations; NULL is the address 0. -/
def ipc_send (s : KState) (to_env val pg perm fuel : Nat) : URun :=
  ipc_send_loop to_env val pg (if pg = 0 then 0 else perm ||| PTE_P) fuel s

/-- What `ipc_recv` hands back: the value returned (`none` while the caller is
suspended in `sys_ipc_recv`), what it stores through `from_env_store` and
`perm_store` when they are non-null, the state, and the calls made. -/
structure IpcRecvRun where
  ret : Option Int
  from_env_store : Nat
  perm_store : Nat
  s : KState
  calls : List UCall

/-- The `ipc_recv` of lib/ipc.c up to the outcome of its system call; NULL is
the address 0. -/
def ipc_recv (s : KState) (pg : Nat) : IpcRecvRun :=
  let pg1 := if pg = 0 then UTOP else pg
  match sys_ipc_recv s pg1 with
  | (some ret, s1) =>
    if ret < 0 then ⟨some ret, 0, 0, s1, [.sys_ipc_recv pg1]⟩
    else
      ⟨some (s1.envs s1.curenv).env_ipc_value, (s1.envs s1.curenv).env_ipc_from,
       (s1.envs s1.curenv).env_ipc_perm, s1, [.sys_ipc_recv pg1]⟩
  | (none, s1) => ⟨none, 0, 0, s1, [.sys_ipc_recv pg1]⟩

/-! ## kern/trap.c: dispatch -/

/-- Modelled from the spec: `T_DIVIDE` of inc/trap.h (absent), the vector of the
divide error; the vectors are the indices of the names in `trapname`. -/
def T_DIVIDE : Nat := 0

/-- Modelled from the spec: `T_DEBUG` of inc/trap.h (absent). -/
def T_DEBUG : Nat := 1

/-- Modelled from the spec: `T_BRKPT` of inc/trap.h (absent). -/
def T_BRKPT : Nat := 3

/-- Modelled from the spec: `T_ILLOP` of inc/trap.h (absent), illegal opcode. -/
def T_ILLOP : Nat := 6

/-- Modelled from the spec: `T_GPFLT` of inc/trap.h (absent), general
protection fault. -/
def T_GPFLT : Nat := 13

/-- Modelled from the spec: `T_PGFLT` of inc/trap.h (absent), page fault. -/
def T_PGFLT : Nat := 14

/-- Modelled from the spec: `T_SYSCALL` of inc/trap.h (absent), the system-call
vector. -/
def T_SYSCALL : Nat := 48

/-- Modelled from the spec: `IRQ_OFFSET` of inc/trap.h (absent): the 16 IRQ
vectors follow the 32 architectural ones. -/
def IRQ_OFFSET : Nat := 32

/-- Modelled from the spec: `IRQ_TIMER` of inc/trap.h (absent). -/
def IRQ_TIMER : Nat := 0

/-- Modelled from the spec: `IRQ_SPURIOUS` of inc/trap.h (absent). -/
def IRQ_SPURIOUS : Nat := 7

/-- Modelled from the spec: `GD_KT` of inc/memlayout.h (absent), the selector of
the kernel text segment, the `tf_cs` of a trap taken in kernel mode; its
privilege level, the low two bits, is 0. -/
def GD_KT : Nat := 0x08

/-- Modelled from the spec: `sizeof(struct UTrapframe)`, 13 words of 4 bytes
with no padding. -/
def sizeof_UTrapframe : Nat := 52

/-- Outcome of a trap handler: it returns to its caller; the kernel panics; it
has called `sched_yield` with the CPU's `curenv` as given (`none` for NULL); it
has called `env_run(e)`; it has written the UTrapframe `frame` at the user
address `utf` and called `env_run(curenv)`; or it is still in the loop of
`print_backtrace` when the count of iterations looked at is used up.  The state
is the one at that point; `sched_yield` and `env_run` do not return. -/
inductive TrapResult where
  | ret (s : KState)
  | panic (s : KState)
  | yield (curenv : Option Nat) (s : KState)
  | env_run (e : Nat) (s : KState)
  | upcall (utf : Nat) (frame : UTrapframe) (s : KState)
  | running (s : KState)

/-- A call of `env_destroy` or `user_mem_assert` followed by `return`. -/
def TrapResult.ofK : KResult Unit → TrapResult
  | .ret _ s => .ret s
  | .yield c s => .yield c s

/-- The `page_fault_exit` of kern/trap.c; what is printed is not part of the
state. -/
def page_fault_exit (s : KState) : TrapResult :=
  TrapResult.ofK (env_destroy s s.curenv)

/-- The address `page_fault_handler` gives the UTrapframe for the trap-time stack
pointer `esp` (kern/trap.c, lines 548-555), in 32-bit arithmetic. -/
def utf_address (esp : Nat) : Nat :=
  if esp < UXSTACKTOP ∧ esp ≥ UXSTACKTOP - PGSIZE then
    (esp + 2 ^ 32 - sizeof_UTrapframe - 4) % 2 ^ 32
  else UXSTACKTOP - sizeof_UTrapframe

/-- The `page_fault_handler` of kern/trap.c; `fault_va` is what `rcr2()`
reads. -/
def page_fault_handler (s : KState) (tf : TrapframePtr) (fault_va : Nat) : TrapResult :=
  if (tf.deref s).tf_cs &&& 3 ≠ 3 then .panic s
  else if (s.envs s.curenv).env_pgfault_upcall = 0 then page_fault_exit s
  else if (tf.deref s).tf_esp > USTACKTOP ∧ (tf.deref s).tf_esp ≤ UXSTACKTOP - PGSIZE then
    page_fault_exit s
  else
    let utf := utf_address (tf.deref s).tf_esp
    match user_mem_assert s s.curenv utf sizeof_UTrapframe PTE_W with
    | .yield c s1 => .yield c s1
    | .ret _ s1 =>
      let frame : UTrapframe :=
        { utf_fault_va := fault_va
          utf_err := (tf.deref s1).tf_err
          utf_regs := (tf.deref s1).tf_regs
          utf_eip := (tf.deref s1).tf_eip
          utf_eflags := (tf.deref s1).tf_eflags
          utf_esp := (tf.deref s1).tf_esp }
      match tf with
      | .on_stack _ => .upcall utf frame s1
      | .in_curenv =>
        .upcall utf frame
          (modifyEnv s1 s1.curenv (fun e =>
            { e with env_tf := { e.env_tf with
                tf_eip := (s1.envs s1.curenv).env_pgfault_upcall, tf_esp := utf } }))

/-- A read of a 32-bit word by the kernel at the virtual address `va`, in the
address space of the current environment: `none` when the read faults.  Below
UTOP the page of `va` must be mapped in the page table of the current
environment; `mem va` is the word stored there, `none` where nothing is mapped
(above UTOP the kernel's own mappings, which are not part of the state, decide
alone). -/
def kernel_read (s : KState) (mem : Nat → Option Nat) (va : Nat) : Option Nat :=
  if va < UTOP ∧ page_lookup s (s.envs s.curenv).env_pgdir va = none then none else mem va

/-- The loop of `print_backtrace` (kern/monitor.c, lines 76-101), followed for
at most the given number of iterations, with `ebp` and `eip` as they are at the
top of the loop.  `debuginfo_eip` is the function of the absent kern/kdebug.c,
whose result `print_curtrace` returns: non-zero ends the walk.  A read that
faults is a page fault in kernel mode, on which the kernel panics. -/
def print_backtrace_loop (s : KState) (mem : Nat → Option Nat) (debuginfo_eip : Nat → Int) :
    Nat → Nat → Nat → TrapResult
  | 0, _, _ => .running s
  | n + 1, ebp, eip =>
    if debuginfo_eip eip ≠ 0 then .ret s
    else
      match kernel_read s mem ebp with
      | none => .panic s
      | some ebp1 =>
        match kernel_read s mem ((ebp1 + 4) % 2 ^ 32) with
        | none => .panic s
        | some eip1 => print_backtrace_loop s mem debuginfo_eip n ebp1 eip1

/-- The `print_backtrace` of kern/monitor.c: it reads the return address at
`ebp + 4` and walks the chain of saved frame pointers, with no check that the
addresses, which come from the registers of the trapped code, are mapped. -/
def print_backtrace (s : KState) (mem : Nat → Option Nat) (debuginfo_eip : Nat → Int)
    (fuel ebp : Nat) : TrapResult :=
  match kernel_read s mem ((ebp + 4) % 2 ^ 32) with
  | none => .panic s
  | some eip => print_backtrace_loop s mem debuginfo_eip fuel ebp eip

/-- The `debug_breakpoint_handler` of kern/trap.c. -/
def debug_breakpoint_handler (s : KState) (tf : TrapframePtr) (mem : Nat → Option Nat)
    (debuginfo_eip : Nat → Int) (fuel : Nat) : TrapResult :=
  print_backtrace s mem debuginfo_eip fuel (tf.deref s).tf_regs.reg_ebp

/-- The `irq_dispatch` of kern/trap.c; its one call, in `trap_dispatch`, is
commented out. -/
def irq_dispatch (s : KState) (tf : TrapframePtr) (irqno : Nat) : TrapResult :=
  if irqno = IRQ_TIMER then .ret s
  else if irqno = IRQ_SPURIOUS then .ret s
  else if (tf.deref s).tf_cs = GD_KT then .panic s
  else TrapResult.ofK (env_destroy s s.curenv)

/-- The `trap_dispatch` of kern/trap.c; `cr2` is the faulting address the
processor holds, `mem`, `debuginfo_eip` and `fuel` are what the backtrace of
the debugger hook reads, calls and is followed for. -/
def trap_dispatch (s : KState) (tf : TrapframePtr) (cr2 : Nat) (mem : Nat → Option Nat)
    (debuginfo_eip : Nat → Int) (fuel : Nat) : TrapResult :=
  if (tf.deref s).tf_trapno = T_DIVIDE then TrapResult.ofK (env_destroy s s.curenv)
  else if (tf.deref s).tf_trapno = T_DEBUG then
    debug_breakpoint_handler s tf mem debuginfo_eip fuel
  else if (tf.deref s).tf_trapno = T_BRKPT then
    debug_breakpoint_handler s tf mem debuginfo_eip fuel
  else if (tf.deref s).tf_trapno = T_PGFLT then page_fault_handler s tf cr2
  else if (tf.deref s).tf_trapno = T_SYSCALL then
    match handle_syscall s tf with
    | .ret _ s1 => .ret s1
    | .yield c s1 => .yield c s1
  else if (tf.deref s).tf_trapno = IRQ_OFFSET + IRQ_TIMER then .yield (some s.curenv) s
  else if (tf.deref s).tf_cs = GD_KT then .panic s
  else TrapResult.ofK (env_destroy s s.curenv)

/-- The end of `trap` (kern/trap.c, lines 449-452): resume `curenv` if there is
one and it is ENV_RUNNING, else enter the scheduler. -/
def trap_return (curenv : Option Nat) (s : KState) : TrapResult :=
  match curenv with
  | some e => if (s.envs e).env_status = ENV_RUNNING then .env_run e s else .yield (some e) s
  | none => .yield none s

/-- The `trap` of kern/trap.c from the test of the mode on; `tf` is the frame on
the kernel stack.  A dispatch that does not return ends the trap. -/
def trap (s : KState) (tf : Trapframe) (cr2 : Nat) (mem : Nat → Option Nat)
    (debuginfo_eip : Nat → Int) (fuel : Nat) : TrapResult :=
  if tf.tf_cs &&& 3 = 3 then
    if (s.envs s.curenv).env_status = ENV_DYING then .yield none (env_free s s.curenv)
    else
      match trap_dispatch (modifyEnv s s.curenv (fun e => { e with env_tf := tf }))
          .in_curenv cr2 mem debuginfo_eip fuel with
      | .ret s1 => trap_return (some s1.curenv) s1
      | r => r
  else
    match trap_dispatch s (.on_stack tf) cr2 mem debuginfo_eip fuel with
    | .ret s1 => trap_return (some s1.curenv) s1
    | r => r

/-- A cleared trap frame. -/
def tf0 : Trapframe :=
  { tf_regs := ⟨0, 0, 0, 0, 0, 0, 0, 0⟩, tf_es := 0, tf_ds := 0, tf_trapno := 0, tf_err := 0,
    tf_eip := 0, tf_cs := 0, tf_eflags := 0, tf_esp := 0, tf_ss := 0 }

/-- A FREE slot. -/
def envFree : Env :=
  { env_tf := tf0, env_id := 0, env_parent_id := 0, env_type := 0, env_status := ENV_FREE,
    env_pgdir := 0, env_pgfault_upcall := 0, env_ipc_recving := 0, env_ipc_dstva := 0,
    env_ipc_value := 0, env_ipc_from := 0, env_ipc_perm := 0 }

/-- The running caller of the concrete state. -/
def envParent : Env :=
  { envFree with
    env_tf := { tf0 with tf_regs := ⟨1, 2, 3, 4, 5, 6, 7, 8⟩, tf_eip := 0x800020, tf_esp := 0xeebfd000 }
    env_id := 0x1000, env_status := ENV_RUNNING, env_pgdir := 100 }

/-- The child of the concrete state, waiting for a message. -/
def envChild : Env :=
  { envFree with
    env_id := 0x1001, env_parent_id := 0x1000, env_status := ENV_NOT_RUNNABLE, env_pgdir := 101,
    env_ipc_recving := 1, env_ipc_dstva := 0x3000 }

/-- The concrete kernel state. -/
def demoState : KState :=
  { envs := fun i => if i = 0 then envParent else if i = 1 then envChild else envFree
    env_free_list := [2, 3]
    curenv := 0
    page_free_list := [20, 21]
    pp_ref := fun pp => if pp = 7 ∨ pp = 8 ∨ pp = 100 ∨ pp = 101 then 1 else 0
    pgdirs := fun d n =>
      if d = 100 ∧ n = 1 then some ⟨7, PTE_P ||| PTE_U⟩
      else if d = 100 ∧ n = 2 then some ⟨8, PTE_P ||| PTE_U ||| PTE_W⟩
      else none
    pt_nomem := fun _ _ => false }

/-- The concrete state after the caller has made its child, and then itself,
ENV_RUNNABLE with `sys_env_set_status`. -/
def demoRunnable : KState :=
  (sys_env_set_status (sys_env_set_status demoState 0x1001 ENV_RUNNABLE).2 0 ENV_RUNNABLE).2

/-- The concrete state after a fork that shared page 3: the caller and its child
both map it copy-on-write on frame 9. -/
def demoCow : KState :=
  { demoState with
    pp_ref := fun pp => if pp = 9 then 2 else demoState.pp_ref pp
    pgdirs := fun d n =>
      if (d = 100 ∨ d = 101) ∧ n = 3 then some ⟨9, PTE_P ||| PTE_U ||| PTE_COW⟩
      else demoState.pgdirs d n }

/-- The concrete state with the caller's scratch page, the page of PFTEMP,
mapped copy-on-write on frame 9. -/
def demoScratchCow : KState :=
  { demoState with
    pp_ref := fun pp => if pp = 9 then 1 else demoState.pp_ref pp
    pgdirs := fun d n =>
      if d = 100 ∧ n = 0x7ff then some ⟨9, PTE_P ||| PTE_U ||| PTE_COW⟩
      else demoState.pgdirs d n }

/-- Contents of physical memory for the concrete states: every byte of frame
`f` at offset `off` holds `f + off`. -/
def demoMem : Nat → Nat → Nat := fun f off => f + off

/-- A write fault (error code user, write, protection) at 0x3004. -/
def utfWrite : UTrapframe :=
  { utf_regs := ⟨1, 2, 3, 4, 5, 6, 7, 8⟩, utf_fault_va := 0x3004, utf_err := 7,
    utf_eip := 0x800020, utf_eflags := 0, utf_esp := 0xeebfd000 }

/-- The frame of a page fault taken in user mode, on a write at 0x3004, with
the stack pointer on the normal user stack. -/
def tfFault : Trapframe :=
  { tf0 with
    tf_regs := ⟨1, 2, 3, 4, 5, 6, 7, 8⟩, tf_es := 0x23, tf_ds := 0x23, tf_trapno := T_PGFLT,
    tf_err := 7, tf_eip := 0x800020, tf_cs := 0x1b, tf_eflags := 0x202, tf_esp := 0xeebfd000,
    tf_ss := 0x23 }

/-- The concrete state with a page-fault upcall at 0x800100 for the caller, its
exception stack mapped writable on frame 10, and `tfFault` as its saved frame. -/
def demoFault : KState :=
  { demoState with
    envs := fun i =>
      if i = 0 then { envParent with env_tf := tfFault, env_pgfault_upcall := 0x800100 }
      else demoState.envs i
    pp_ref := fun pp => if pp = 10 then 1 else demoState.pp_ref pp
    pgdirs := fun d n =>
      if d = 100 ∧ n = 0xeebff then some ⟨10, PTE_P ||| PTE_U ||| PTE_W⟩
      else demoState.pgdirs d n }

/-! ## Helper lemmas -/

theorem land_eq_zero_iff (a b : Nat) :
    a &&& b = 0 ↔ ∀ i, ¬ (a.testBit i = true ∧ b.testBit i = true) := by
  constructor
  · intro h i hi
    have h1 : (a &&& b).testBit i = true := by
      rw [Nat.testBit_and, hi.1, hi.2]; rfl
    rw [h, Nat.zero_testBit] at h1
    exact Bool.false_ne_true h1
  · intro h
    apply Nat.eq_of_testBit_eq
    intro i
    rw [Nat.testBit_and, Nat.zero_testBit]
    cases ha : a.testBit i
    · rfl
    · cases hb : b.testBit i
      · rfl
      · exact absurd ⟨ha, hb⟩ (h i)

theorem testBit_of_lt_word {perm i : Nat} (h : perm < 2 ^ 32) (hi : perm.testBit i = true) : i < 32 := by
  by_contra hge
  have hle : 2 ^ 32 ≤ 2 ^ i := Nat.pow_le_pow_right (by decide) (Nat.le_of_not_lt hge)
  have := Nat.testBit_lt_two_pow (Nat.lt_of_lt_of_le h hle)
  rw [this] at hi
  exact Bool.false_ne_true hi

theorem land_bit_ne_zero_iff (perm k : Nat) :
    perm &&& 2 ^ k ≠ 0 ↔ ∀ i, (2 ^ k).testBit i = true → perm.testBit i = true := by
  rw [Ne, land_eq_zero_iff]
  constructor
  · intro h i hi
    rw [Nat.testBit_two_pow] at hi
    have hk : k = i := of_decide_eq_true hi
    subst hk
    by_contra hp
    apply h
    intro j hj
    rw [Nat.testBit_two_pow] at hj
    have hkj : k = j := of_decide_eq_true hj.2
    subst hkj
    exact hp hj.1
  · intro h hall
    exact hall k ⟨h k Nat.testBit_two_pow_self, Nat.testBit_two_pow_self⟩

theorem land_compl_eq_zero_iff (perm m : Nat) (h : perm < 2 ^ 32) :
    perm &&& (0xFFFFFFFF ^^^ m) = 0 ↔ ∀ i, perm.testBit i = true → m.testBit i = true := by
  rw [land_eq_zero_iff]
  have hff : (0xFFFFFFFF : Nat) = 2 ^ 32 - 1 := by decide
  constructor
  · intro hall i hi
    have hlt := testBit_of_lt_word h hi
    by_contra hm
    apply hall i
    refine ⟨hi, ?_⟩
    rw [Nat.testBit_xor, hff, Nat.testBit_two_pow_sub_one]
    have hm2 : m.testBit i = false := by simpa using hm
    simp [hlt, hm2]
  · intro hall i hi
    have hm := hall i hi.1
    have h2 := hi.2
    rw [Nat.testBit_xor, hff, Nat.testBit_two_pow_sub_one, hm] at h2
    have hlt := testBit_of_lt_word h hi.1
    simp [hlt] at h2

theorem check_va_bound_round_pass {va : Nat} (h1 : va ≤ UTOP) (h2 : va % PGSIZE = 0) :
    check_va_bound_round va = 0 := by
  unfold check_va_bound_round
  rw [if_neg]
  intro h
  rcases h with h | h
  · exact absurd h1 (Nat.not_le_of_gt h)
  · exact h h2

theorem check_va_bound_round_unaligned {va : Nat} (h : va % PGSIZE ≠ 0) :
    check_va_bound_round va = -E_INVAL := by
  unfold check_va_bound_round
  rw [if_pos (Or.inr h)]

theorem check_va_bound_round_values (va : Nat) :
    check_va_bound_round va = 0 ∨ check_va_bound_round va = -E_INVAL := by
  unfold check_va_bound_round
  split
  · exact Or.inr rfl
  · exact Or.inl rfl

theorem check_user_page_perm_values (perm : Nat) :
    check_user_page_perm perm = 0 ∨ check_user_page_perm perm = -E_INVAL := by
  unfold check_user_page_perm
  split
  · exact Or.inr rfl
  · split
    · exact Or.inr rfl
    · exact Or.inl rfl

theorem neg_E_INVAL_lt : -E_INVAL < 0 := by decide

theorem envid2env_zero (s : KState) (checkperm : Bool) :
    envid2env s 0 checkperm = .ok s.curenv := by
  simp [envid2env]

theorem page_insert_values (s : KState) (pgdir pp va perm : Nat) :
    (page_insert s pgdir pp va perm).1 = 0 ∨
      page_insert s pgdir pp va perm = (-E_NO_MEM, s) := by
  unfold page_insert
  split
  · exact Or.inr rfl
  · exact Or.inl rfl

/-! ## The page system calls -/

/-- C1 (the code departs from the claim): the address check accepts `UTOP`
itself, because it tests `va > UTOP`.  Called by any environment on itself,
`sys_page_unmap` at `UTOP` returns 0 and removes the page mapped there, and
`sys_page_alloc` at `UTOP` with perm USER|PRESENT does not return `-E_INVAL`;
the address `UTOP - PGSIZE` passes the check as the claim says. -/
theorem sys_page_calls_accept_UTOP (s : KState) :
    check_va_bound_round UTOP = 0 ∧
    sys_page_unmap s 0 UTOP = (0, page_remove s (s.envs s.curenv).env_pgdir UTOP) ∧
    (sys_page_alloc s 0 UTOP (PTE_P ||| PTE_U)).1 ≠ -E_INVAL ∧
    check_va_bound_round (UTOP - PGSIZE) = 0 := by
  have hU : check_va_bound_round UTOP = 0 := by decide
  have hP : check_user_page_perm (PTE_P ||| PTE_U) = 0 := by decide
  refine ⟨hU, ?_, ?_, by decide⟩
  · simp [sys_page_unmap, envid2env_zero, hU]
  · simp only [sys_page_alloc, envid2env_zero, hU, hP, lt_self_iff_false, if_false]
    cases hpa : page_alloc s with
    | none => simp only []; decide
    | some r =>
      obtain ⟨pp, s1⟩ := r
      simp only []
      rcases page_insert_values s1 (s1.envs s.curenv).env_pgdir pp UTOP (PTE_P ||| PTE_U) with h | h
      · rw [if_neg (by rw [h]; decide)]
        exact (by decide : (0 : Int) ≠ -E_INVAL)
      · rw [h]
        simp [E_NO_MEM, E_INVAL]

/-- C2: a virtual address that is not page-aligned makes `sys_page_alloc`,
`sys_page_map` (the address as `srcva` or as `dstva`) and `sys_page_unmap`
return `-E_INVAL` for every environment id that resolves with permission, and
the kernel state, hence every page table and free list, is left as it was. -/
theorem unaligned_va_is_inval (s : KState) (va other perm envid dstenvid e d : Nat)
    (hva : va % PGSIZE ≠ 0)
    (he : envid2env s envid true = .ok e) (hd : envid2env s dstenvid true = .ok d) :
    sys_page_alloc s envid va perm = (-E_INVAL, s) ∧
    sys_page_map s envid va dstenvid other perm = (-E_INVAL, s) ∧
    sys_page_map s envid other dstenvid va perm = (-E_INVAL, s) ∧
    sys_page_unmap s envid va = (-E_INVAL, s) := by
  have hc := check_va_bound_round_unaligned hva
  have hneg := neg_E_INVAL_lt
  refine ⟨?_, ?_, ?_, ?_⟩
  · simp [sys_page_alloc, he, hc, hneg]
  · simp [sys_page_map, he, hd, hc, hneg]
  · rcases check_va_bound_round_values other with ho | ho
    · simp [sys_page_map, he, hd, hc, ho, hneg]
    · simp [sys_page_map, he, hd, ho, hneg]
  · simp [sys_page_unmap, he, hc, hneg]

/-- Witness of C2 on the concrete state, at the address 0x1001. -/
theorem unaligned_va_is_inval_witness :
    0x1001 % PGSIZE ≠ 0 ∧ envid2env demoState 0 true = .ok 0 ∧
    envid2env demoState 0x1001 true = .ok 1 ∧
    sys_page_alloc demoState 0 0x1001 7 = (-E_INVAL, demoState) ∧
    sys_page_map demoState 0 0x1001 0x1001 0x2000 7 = (-E_INVAL, demoState) ∧
    sys_page_map demoState 0 0x2000 0x1001 0x1001 7 = (-E_INVAL, demoState) ∧
    sys_page_unmap demoState 0 0x1001 = (-E_INVAL, demoState) :=
  ⟨by decide, rfl, rfl,
    unaligned_va_is_inval demoState 0x1001 0x2000 7 0 0x1001 0 1 (by decide) rfl rfl⟩

theorem PTE_SYSCALL_testBit (i : Nat) :
    PTE_SYSCALL.testBit i = true ↔
      PTE_U.testBit i = true ∨ PTE_P.testBit i = true ∨ PTE_W.testBit i = true ∨
        PTE_AVAIL.testBit i = true := by
  unfold PTE_SYSCALL
  rw [Nat.testBit_or, Nat.testBit_or, Nat.testBit_or]
  simp only [Bool.or_eq_true]
  tauto

theorem check_user_page_perm_eq_zero_iff (perm : Nat) (hperm : perm < 2 ^ 32) :
    check_user_page_perm perm = 0 ↔
      (∀ i, PTE_U.testBit i = true → perm.testBit i = true) ∧
      (∀ i, PTE_P.testBit i = true → perm.testBit i = true) ∧
      (∀ i, perm.testBit i = true →
        PTE_U.testBit i = true ∨ PTE_P.testBit i = true ∨ PTE_W.testBit i = true ∨
          PTE_AVAIL.testBit i = true) := by
  have hU : perm &&& PTE_U ≠ 0 ↔ ∀ i, PTE_U.testBit i = true → perm.testBit i = true :=
    land_bit_ne_zero_iff perm 2
  have hP : perm &&& PTE_P ≠ 0 ↔ ∀ i, PTE_P.testBit i = true → perm.testBit i = true :=
    land_bit_ne_zero_iff perm 0
  have hS := land_compl_eq_zero_iff perm PTE_SYSCALL hperm
  simp only [PTE_SYSCALL_testBit] at hS
  rw [← hU, ← hP, ← hS]
  unfold check_user_page_perm
  have hne : (-E_INVAL : Int) ≠ 0 := by decide
  by_cases h1 : perm &&& PTE_U = 0
  · simp [h1, hne]
  · by_cases h2 : perm &&& PTE_P = 0
    · simp [h2, hne]
    · by_cases h3 : perm &&& (0xFFFFFFFF ^^^ PTE_SYSCALL) = 0
      · simp [h1, h2, h3]
      · simp [h1, h2, h3, hne]

/-- C3: `check_user_page_perm` returns 0 exactly when `perm` has PTE_U and PTE_P
set and no bit outside USER, PRESENT, WRITE, AVAIL; in every other case it
returns `-E_INVAL`, and then `sys_page_alloc` and `sys_page_map` return
`-E_INVAL` for all environment ids that resolve, leaving the kernel state, hence
every address space, as it was. -/
theorem check_user_page_perm_spec (perm : Nat) (hperm : perm < 2 ^ 32) :
    (check_user_page_perm perm = 0 ↔
      (∀ i, PTE_U.testBit i = true → perm.testBit i = true) ∧
      (∀ i, PTE_P.testBit i = true → perm.testBit i = true) ∧
      (∀ i, perm.testBit i = true →
        PTE_U.testBit i = true ∨ PTE_P.testBit i = true ∨ PTE_W.testBit i = true ∨
          PTE_AVAIL.testBit i = true)) ∧
    (check_user_page_perm perm ≠ 0 →
      check_user_page_perm perm = -E_INVAL ∧
      ∀ (s : KState) (envid dstenvid va dstva e d : Nat),
        envid2env s envid true = .ok e → envid2env s dstenvid true = .ok d →
        sys_page_alloc s envid va perm = (-E_INVAL, s) ∧
        sys_page_map s envid va dstenvid dstva perm = (-E_INVAL, s)) := by
  refine ⟨check_user_page_perm_eq_zero_iff perm hperm, ?_⟩
  intro hne
  have hv : check_user_page_perm perm = -E_INVAL := by
    rcases check_user_page_perm_values perm with h | h
    · exact absurd h hne
    · exact h
  refine ⟨hv, ?_⟩
  intro s envid dstenvid va dstva e d he hd
  have hneg := neg_E_INVAL_lt
  constructor
  · rcases check_va_bound_round_values va with ha | ha
    · simp [sys_page_alloc, he, ha, hv, hneg]
    · simp [sys_page_alloc, he, ha, hneg]
  · rcases check_va_bound_round_values va with ha | ha
    · rcases check_va_bound_round_values dstva with hb | hb
      · simp [sys_page_map, he, hd, ha, hb, hv, hneg]
      · simp [sys_page_map, he, hd, ha, hb, hneg]
    · simp [sys_page_map, he, hd, ha, hneg]

/-- Witness of C3: perm WRITE alone (no USER, no PRESENT) is refused. -/
theorem check_user_page_perm_spec_witness :
    PTE_W < 2 ^ 32 ∧ check_user_page_perm PTE_W = -E_INVAL ∧
    sys_page_alloc demoState 0 0x5000 PTE_W = (-E_INVAL, demoState) ∧
    sys_page_map demoState 0 0x2000 0x1001 0x5000 PTE_W = (-E_INVAL, demoState) :=
  have h := (check_user_page_perm_spec PTE_W (by decide)).2 (by decide)
  ⟨by decide, h.1, h.2 demoState 0 0x1001 0x5000 0x5000 0 1 rfl rfl |>.1,
    h.2 demoState 0 0x1001 0x2000 0x5000 0 1 rfl rfl |>.2⟩

/-! ## What the memory manager leaves alone -/

theorem page_decref_frame (s : KState) (pp : Nat) :
    (page_decref s pp).envs = s.envs ∧ (page_decref s pp).curenv = s.curenv ∧
    (page_decref s pp).pgdirs = s.pgdirs := by
  unfold page_decref page_free
  split <;> exact ⟨rfl, rfl, rfl⟩

theorem page_remove_frame (s : KState) (pgdir va : Nat) :
    (page_remove s pgdir va).envs = s.envs ∧ (page_remove s pgdir va).curenv = s.curenv := by
  unfold page_remove
  split
  · exact ⟨rfl, rfl⟩
  · exact ⟨(page_decref_frame _ _).1, (page_decref_frame _ _).2.1⟩

theorem page_remove_pgdirs (s : KState) (pgdir va d n : Nat) :
    (page_remove s pgdir va).pgdirs d n =
      if d = pgdir ∧ n = PGNUM va then none else s.pgdirs d n := by
  unfold page_remove
  cases h : page_lookup s pgdir va with
  | none =>
    simp only []
    split
    · rename_i hdn
      rw [hdn.1, hdn.2]
      exact h
    · rfl
  | some pte =>
    simp only []
    rw [(page_decref_frame _ _).2.2]
    simp only []
    by_cases hd : d = pgdir
    · subst hd
      by_cases hn : n = PGNUM va
      · subst hn
        simp
      · simp [hn]
    · simp [hd]

theorem page_insert_frame (s : KState) (pgdir pp va perm : Nat) :
    (page_insert s pgdir pp va perm).2.envs = s.envs ∧
    (page_insert s pgdir pp va perm).2.curenv = s.curenv := by
  unfold page_insert
  split
  · exact ⟨rfl, rfl⟩
  · exact ⟨(page_remove_frame _ _ _).1, (page_remove_frame _ _ _).2⟩

theorem page_insert_pgdirs (s : KState) (pgdir pp va perm d n : Nat)
    (h : (page_insert s pgdir pp va perm).1 = 0) :
    (page_insert s pgdir pp va perm).2.pgdirs d n =
      if d = pgdir ∧ n = PGNUM va then some ⟨pp, perm⟩ else s.pgdirs d n := by
  unfold page_insert at h ⊢
  split at h
  · exact absurd h (by decide : ¬ (-E_NO_MEM : Int) = 0)
  · rename_i hm
    rw [if_neg hm]
    simp only []
    by_cases hd : d = pgdir
    · subst hd
      by_cases hn : n = PGNUM va
      · subst hn
        simp
      · simp [hn, page_remove_pgdirs]
    · simp [hd, page_remove_pgdirs]

theorem envid2env_congr (s t : KState) (envid : Nat) (checkperm : Bool)
    (he : t.envs = s.envs) (hc : t.curenv = s.curenv) :
    envid2env t envid checkperm = envid2env s envid checkperm := by
  unfold envid2env
  rw [he, hc]

theorem check_va_bound_round_eq_zero {va : Nat} (h : check_va_bound_round va = 0) :
    va ≤ UTOP ∧ va % PGSIZE = 0 := by
  unfold check_va_bound_round at h
  split at h
  · exact absurd h (by decide)
  · rename_i hn
    constructor
    · exact Nat.le_of_not_lt (fun hlt => hn (Or.inl hlt))
    · exact Classical.not_not.mp (fun hne => hn (Or.inr hne))

theorem sys_page_map_checked (s : KState) (srcenvid srcva dstenvid dstva perm se de : Nat)
    (hs : envid2env s srcenvid true = .ok se) (hd : envid2env s dstenvid true = .ok de)
    (ha : check_va_bound_round srcva = 0) (hb : check_va_bound_round dstva = 0)
    (hp : check_user_page_perm perm = 0) :
    sys_page_map s srcenvid srcva dstenvid dstva perm =
      match page_lookup s (s.envs se).env_pgdir srcva with
      | none => (-E_INVAL, s)
      | some srcpte =>
        if perm &&& PTE_W ≠ 0 ∧ srcpte.perm &&& PTE_W = 0 then (-E_INVAL, s)
        else if (page_insert s (s.envs de).env_pgdir srcpte.frame dstva perm).1 < 0 then
          page_insert s (s.envs de).env_pgdir srcpte.frame dstva perm
        else (0, (page_insert s (s.envs de).env_pgdir srcpte.frame dstva perm).2) := by
  simp only [sys_page_map, hs, hd, ha, hb, hp, lt_self_iff_false, if_false]

theorem sys_page_map_ok (s : KState) (srcenvid srcva dstenvid dstva perm se de : Nat)
    (hs : envid2env s srcenvid true = .ok se) (hd : envid2env s dstenvid true = .ok de)
    (h : (sys_page_map s srcenvid srcva dstenvid dstva perm).1 = 0) :
    check_va_bound_round srcva = 0 ∧ check_va_bound_round dstva = 0 ∧
    ∃ pte, page_lookup s (s.envs se).env_pgdir srcva = some pte ∧
      (page_insert s (s.envs de).env_pgdir pte.frame dstva perm).1 = 0 ∧
      (sys_page_map s srcenvid srcva dstenvid dstva perm).2 =
        (page_insert s (s.envs de).env_pgdir pte.frame dstva perm).2 := by
  have hneg := neg_E_INVAL_lt
  have hne : ¬ (-E_INVAL : Int) = 0 := by decide
  rcases check_va_bound_round_values srcva with ha | ha
  swap
  · simp [sys_page_map, hs, hd, ha, hneg] at h
    exact absurd h (by decide : ¬ (E_INVAL : Int) = 0)
  rcases check_va_bound_round_values dstva with hb | hb
  swap
  · simp [sys_page_map, hs, hd, ha, hb, hneg] at h
    exact absurd h (by decide : ¬ (E_INVAL : Int) = 0)
  rcases check_user_page_perm_values perm with hp | hp
  swap
  · simp [sys_page_map, hs, hd, ha, hb, hp, hneg] at h
    exact absurd h (by decide : ¬ (E_INVAL : Int) = 0)
  rw [sys_page_map_checked s srcenvid srcva dstenvid dstva perm se de hs hd ha hb hp] at h ⊢
  refine ⟨ha, hb, ?_⟩
  cases hl : page_lookup s (s.envs se).env_pgdir srcva with
  | none =>
    rw [hl] at h
    exact absurd h hne
  | some pte =>
    rw [hl] at h
    simp only [] at h ⊢
    refine ⟨pte, rfl, ?_⟩
    by_cases hw : perm &&& PTE_W ≠ 0 ∧ pte.perm &&& PTE_W = 0
    · rw [if_pos hw] at h
      exact absurd h hne
    · rw [if_neg hw] at h ⊢
      rcases page_insert_values s (s.envs de).env_pgdir pte.frame dstva perm with hi | hi
      · rw [if_neg (by rw [hi]; decide)]
        exact ⟨hi, rfl⟩
      · rw [hi] at h
        simp [E_NO_MEM] at h

/-- C4: `sys_page_map` never grants write access to a read-only page.  For env
ids that resolve, aligned addresses below UTOP and a valid perm with PTE_W set:
if `srcva` is unmapped in the source or its entry lacks PTE_W, the call returns
`-E_INVAL` and the kernel state, hence the destination address space, is as it
was; if the entry has PTE_W and the call returns 0, then `dstva` in the
destination maps the frame that `srcva` maps in the source (before and after
the call) with exactly the requested perm. -/
theorem sys_page_map_write_guard (s : KState)
    (srcenvid dstenvid srcva dstva perm se de : Nat)
    (hs : envid2env s srcenvid true = .ok se) (hd : envid2env s dstenvid true = .ok de)
    (hsrc : srcva < UTOP) (hsa : srcva % PGSIZE = 0)
    (hdst : dstva < UTOP) (hda : dstva % PGSIZE = 0)
    (hperm : check_user_page_perm perm = 0) (hw : perm &&& PTE_W ≠ 0) :
    ((∀ pte, page_lookup s (s.envs se).env_pgdir srcva = some pte → pte.perm &&& PTE_W = 0) →
      sys_page_map s srcenvid srcva dstenvid dstva perm = (-E_INVAL, s)) ∧
    (∀ pte, page_lookup s (s.envs se).env_pgdir srcva = some pte → pte.perm &&& PTE_W ≠ 0 →
      (sys_page_map s srcenvid srcva dstenvid dstva perm).1 = 0 →
      page_lookup (sys_page_map s srcenvid srcva dstenvid dstva perm).2
          (s.envs de).env_pgdir dstva = some ⟨pte.frame, perm⟩ ∧
      ∃ q, page_lookup (sys_page_map s srcenvid srcva dstenvid dstva perm).2
          (s.envs se).env_pgdir srcva = some q ∧ q.frame = pte.frame) := by
  have ha := check_va_bound_round_pass (Nat.le_of_lt hsrc) hsa
  have hb := check_va_bound_round_pass (Nat.le_of_lt hdst) hda
  constructor
  · intro hro
    rw [sys_page_map_checked s srcenvid srcva dstenvid dstva perm se de hs hd ha hb hperm]
    cases hl : page_lookup s (s.envs se).env_pgdir srcva with
    | none => rfl
    | some pte =>
      simp only []
      rw [if_pos ⟨hw, hro pte hl⟩]
  · intro pte hl _ h0
    obtain ⟨_, _, q, hq, hi, hst⟩ :=
      sys_page_map_ok s srcenvid srcva dstenvid dstva perm se de hs hd h0
    rw [hl] at hq
    cases hq
    rw [hst]
    unfold page_lookup at hl ⊢
    rw [page_insert_pgdirs _ _ _ _ _ _ _ hi, page_insert_pgdirs _ _ _ _ _ _ _ hi]
    constructor
    · rw [if_pos ⟨rfl, rfl⟩]
    · by_cases hsame : (s.envs se).env_pgdir = (s.envs de).env_pgdir ∧ PGNUM srcva = PGNUM dstva
      · exact ⟨⟨pte.frame, perm⟩, by rw [if_pos hsame], rfl⟩
      · exact ⟨pte, by rw [if_neg hsame]; exact hl, rfl⟩

/-- Witness of C4 on the concrete state: mapping the read-only page 0x1000 of
the caller into the child with perm USER|PRESENT|WRITE is refused, mapping the
writable page 0x2000 puts frame 8 at 0x5000 in the child with that perm. -/
theorem sys_page_map_write_guard_witness :
    sys_page_map demoState 0 0x1000 0x1001 0x5000 7 = (-E_INVAL, demoState) ∧
    page_lookup (sys_page_map demoState 0 0x2000 0x1001 0x5000 7).2 101 0x5000 = some ⟨8, 7⟩ :=
  ⟨(sys_page_map_write_guard demoState 0 0x1001 0x1000 0x5000 7 0 1 rfl rfl
      (by decide) (by decide) (by decide) (by decide) (by decide) (by decide)).1
      (by decide),
   ((sys_page_map_write_guard demoState 0 0x1001 0x2000 0x5000 7 0 1 rfl rfl
      (by decide) (by decide) (by decide) (by decide) (by decide) (by decide)).2
      ⟨8, 7⟩ (by decide) (by decide) (by decide)).1⟩

theorem PGNUM_ne_of_aligned {a b : Nat} (ha : a % PGSIZE = 0) (hb : b % PGSIZE = 0)
    (hne : a ≠ b) : PGNUM a ≠ PGNUM b := by
  unfold PGNUM
  unfold PGSIZE at ha hb ⊢
  omega

/-- C5, counterexample to the claim as stated: the caller maps its page 0x2000
onto itself (source and destination are the same address space and address)
and then unmaps it; both calls return 0, and the mapping that the source had
after the map (frame 8) is gone after the unmap. -/
theorem page_map_unmap_self_counterexample :
    (sys_page_map demoState 0 0x2000 0 0x2000 7).1 = 0 ∧
    (sys_page_unmap (sys_page_map demoState 0 0x2000 0 0x2000 7).2 0 0x2000).1 = 0 ∧
    page_lookup (sys_page_map demoState 0 0x2000 0 0x2000 7).2 100 0x2000 = some ⟨8, 7⟩ ∧
    page_lookup (sys_page_unmap (sys_page_map demoState 0 0x2000 0 0x2000 7).2 0 0x2000).2
      100 0x2000 = none := by
  decide

/-- C5, amended: when `sys_page_map(src, a, dst, b, p)` succeeds and the
destination is another address space than the source or `b` is another address
than `a`, the following `sys_page_unmap(dst, b)` succeeds and the entry of `a`
in the source (frame and permissions) is after the unmap exactly what it was
after the map. -/
theorem page_map_unmap_keeps_src (s : KState) (src a dst b p se de : Nat)
    (hs : envid2env s src true = .ok se) (hd : envid2env s dst true = .ok de)
    (hmap : (sys_page_map s src a dst b p).1 = 0)
    (hne : (s.envs se).env_pgdir ≠ (s.envs de).env_pgdir ∨ a ≠ b) :
    (sys_page_unmap (sys_page_map s src a dst b p).2 dst b).1 = 0 ∧
    page_lookup (sys_page_unmap (sys_page_map s src a dst b p).2 dst b).2
        (s.envs se).env_pgdir a =
      page_lookup (sys_page_map s src a dst b p).2 (s.envs se).env_pgdir a := by
  obtain ⟨hca, hcb, pte, _, _, hst⟩ := sys_page_map_ok s src a dst b p se de hs hd hmap
  have haa := (check_va_bound_round_eq_zero hca).2
  have hba := (check_va_bound_round_eq_zero hcb).2
  have hfr := page_insert_frame s (s.envs de).env_pgdir pte.frame b p
  rw [← hst] at hfr
  have hd1 : envid2env (sys_page_map s src a dst b p).2 dst true = .ok de := by
    rw [envid2env_congr s _ dst true hfr.1 hfr.2]
    exact hd
  have hun : sys_page_unmap (sys_page_map s src a dst b p).2 dst b =
      (0, page_remove (sys_page_map s src a dst b p).2 (s.envs de).env_pgdir b) := by
    simp [sys_page_unmap, hd1, hcb, hfr.1]
  rw [hun]
  refine ⟨rfl, ?_⟩
  simp only []
  unfold page_lookup
  rw [page_remove_pgdirs]
  rw [if_neg]
  rintro ⟨h1, h2⟩
  rcases hne with h | h
  · exact h h1
  · exact PGNUM_ne_of_aligned haa hba h h2

/-- Witness of C5 amended: the caller maps its page 0x2000 into the child at
0x5000 and unmaps it there; the caller's entry for 0x2000 is untouched. -/
theorem page_map_unmap_keeps_src_witness :
    (sys_page_unmap (sys_page_map demoState 0 0x2000 0x1001 0x5000 7).2 0x1001 0x5000).1 = 0 ∧
    page_lookup (sys_page_unmap (sys_page_map demoState 0 0x2000 0x1001 0x5000 7).2 0x1001
        0x5000).2 100 0x2000 =
      page_lookup (sys_page_map demoState 0 0x2000 0x1001 0x5000 7).2 100 0x2000 :=
  page_map_unmap_keeps_src demoState 0 0x2000 0x1001 0x5000 7 0 1 rfl rfl
    (by decide) (Or.inl (by decide))

/-! ## Environment status and creation -/

/-- C6, counterexample to the claim as stated: the running caller (status
ENV_RUNNING) calls `sys_env_set_status(0, ENV_NOT_RUNNABLE)`; the call returns
0 and changes the caller's status, whose previous value was neither
ENV_RUNNABLE nor ENV_NOT_RUNNABLE. -/
theorem sys_env_set_status_running_counterexample :
    (sys_env_set_status demoState 0 ENV_NOT_RUNNABLE).1 = 0 ∧
    ((sys_env_set_status demoState 0 ENV_NOT_RUNNABLE).2.envs 0).env_status ≠
      (demoState.envs 0).env_status ∧
    (demoState.envs 0).env_status = ENV_RUNNING ∧
    ¬ ((demoState.envs 0).env_status = ENV_RUNNABLE ∨
       (demoState.envs 0).env_status = ENV_NOT_RUNNABLE) := by
  decide

/-- C6, amended: `sys_env_set_status` only sets a status to ENV_RUNNABLE or
ENV_NOT_RUNNABLE.  Whenever the call returns 0, the status argument is one of
these two, the id resolves with permission, the target's record is its old
record with `env_status` replaced by the argument (whatever the previous status
was) and every other record is unchanged; a status argument other than these
two yields `-E_INVAL` with the kernel state unchanged. -/
theorem sys_env_set_status_spec (s : KState) (envid status : Nat) :
    ((sys_env_set_status s envid status).1 = 0 →
      (status = ENV_RUNNABLE ∨ status = ENV_NOT_RUNNABLE) ∧
      ∃ e, envid2env s envid true = .ok e ∧
        (sys_env_set_status s envid status).2.envs e =
          { s.envs e with env_status := status } ∧
        ∀ j, j ≠ e → (sys_env_set_status s envid status).2.envs j = s.envs j) ∧
    (status ≠ ENV_RUNNABLE → status ≠ ENV_NOT_RUNNABLE →
      sys_env_set_status s envid status = (-E_INVAL, s)) := by
  constructor
  · intro h
    unfold sys_env_set_status at h ⊢
    by_cases hst : status ≠ ENV_RUNNABLE ∧ status ≠ ENV_NOT_RUNNABLE
    · rw [if_pos hst] at h
      exact absurd h (by decide : ¬ (-E_INVAL : Int) = 0)
    · rw [if_neg hst]
      refine ⟨by tauto, ?_⟩
      cases he : envid2env s envid true with
      | error r =>
        exfalso
        rw [if_neg hst, he] at h
        have hr : r = -E_BAD_ENV := by
          unfold envid2env at he
          split at he
          · cases he
          · split at he
            · cases he; rfl
            · split at he
              · cases he; rfl
              · cases he
        rw [hr] at h
        exact absurd h (by decide : ¬ (-E_BAD_ENV : Int) = 0)
      | ok e =>
        refine ⟨e, rfl, ?_, ?_⟩
        · simp [modifyEnv]
        · intro j hj
          simp [modifyEnv, hj]
  · intro h1 h2
    unfold sys_env_set_status
    rw [if_pos ⟨h1, h2⟩]

/-- Witness of C6 amended: setting the child RUNNABLE succeeds and does just
that; the status ENV_RUNNING is refused. -/
theorem sys_env_set_status_spec_witness :
    ((sys_env_set_status demoState 0x1001 ENV_RUNNABLE).2.envs 1).env_status = ENV_RUNNABLE ∧
    sys_env_set_status demoState 0x1001 ENV_RUNNING = (-E_INVAL, demoState) :=
  ⟨by decide,
   (sys_env_set_status_spec demoState 0x1001 ENV_RUNNING).2 (by decide) (by decide)⟩

theorem env_alloc_ok (s : KState) (parent_id child : Nat) (s1 : KState)
    (h : env_alloc s parent_id = .ok (child, s1)) :
    child ∈ s.env_free_list ∧ s1.curenv = s.curenv ∧
    ∀ j, j ≠ child → s1.envs j = s.envs j := by
  unfold env_alloc at h
  cases hl : s.env_free_list with
  | nil => rw [hl] at h; cases h
  | cons e rest =>
    rw [hl] at h
    simp only [] at h
    unfold page_alloc at h
    cases hp : s.page_free_list with
    | nil => rw [hp] at h; cases h
    | cons p ps =>
      rw [hp] at h
      simp only [] at h
      injection h with h
      injection h with h1 h2
      subst h1
      subst h2
      refine ⟨List.mem_cons_self _ _, rfl, ?_⟩
      intro j hj
      simp [hj]

theorem env_alloc_error (s : KState) (parent_id : Nat) (err : Int)
    (h : env_alloc s parent_id = .error err) : err < 0 := by
  unfold env_alloc at h
  cases hl : s.env_free_list with
  | nil =>
    rw [hl] at h
    injection h with h
    rw [← h]
    decide
  | cons e rest =>
    rw [hl] at h
    simp only [] at h
    cases hp : page_alloc s with
    | none =>
      rw [hp] at h
      injection h with h
      rw [← h]
      decide
    | some r =>
      rw [hp] at h
      cases h

/-- C7: for a caller that is not on the free list of environments.  When
`env_alloc` succeeds with a child slot, `sys_exofork` returns the child's env
id, leaves the child with the id `env_alloc` gave it, status ENV_NOT_RUNNABLE
and a saved trap frame equal to the caller's in every field except `reg_eax`,
which is 0; the caller's record and every record other than the child's are
unchanged.  When `env_alloc` fails, `sys_exofork` returns that negative error
and the kernel state is unchanged. -/
theorem sys_exofork_spec (s : KState) (hcur : s.curenv ∉ s.env_free_list) :
    (∀ child s1, env_alloc s (s.envs s.curenv).env_id = .ok (child, s1) →
      (sys_exofork s).1 = (((sys_exofork s).2.envs child).env_id : Int) ∧
      ((sys_exofork s).2.envs child).env_id = (s1.envs child).env_id ∧
      ((sys_exofork s).2.envs child).env_status = ENV_NOT_RUNNABLE ∧
      ((sys_exofork s).2.envs child).env_tf =
        { (s.envs s.curenv).env_tf with
          tf_regs := { (s.envs s.curenv).env_tf.tf_regs with reg_eax := 0 } } ∧
      (sys_exofork s).2.envs s.curenv = s.envs s.curenv ∧
      ∀ j, j ≠ child → (sys_exofork s).2.envs j = s.envs j) ∧
    (∀ err, env_alloc s (s.envs s.curenv).env_id = .error err →
      err < 0 ∧ sys_exofork s = (err, s)) := by
  constructor
  · intro child s1 h
    obtain ⟨hmem, hc, hothers⟩ := env_alloc_ok s _ child s1 h
    have hne : s.curenv ≠ child := fun heq => hcur (heq ▸ hmem)
    have hcaller : s1.envs s.curenv = s.envs s.curenv := hothers _ hne
    unfold sys_exofork
    rw [h]
    simp only [modifyEnv, hc, Function.update_same, Function.update_idem,
      Function.update_noteq hne, hcaller]
    refine ⟨trivial, trivial, trivial, trivial, trivial, ?_⟩
    intro j hj
    rw [Function.update_noteq hj]
    exact hothers j hj
  · intro err h
    refine ⟨env_alloc_error s _ err h, ?_⟩
    unfold sys_exofork
    rw [h]

/-- Witness of C7 on the concrete state: the caller in slot 0 forks, the child
comes out of slot 2 with id 0x402, NOT_RUNNABLE, and the caller is unchanged. -/
theorem sys_exofork_spec_witness :
    (sys_exofork demoState).1 = 0x402 ∧
    ((sys_exofork demoState).2.envs 2).env_status = ENV_NOT_RUNNABLE ∧
    ((sys_exofork demoState).2.envs 2).env_tf.tf_regs.reg_eax = 0 ∧
    ((sys_exofork demoState).2.envs 2).env_tf.tf_eip = 0x800020 ∧
    (sys_exofork demoState).2.envs 0 = demoState.envs 0 :=
  have h := (sys_exofork_spec demoState (by decide)).1 2 _ rfl
  ⟨by decide, h.2.2.1, by decide, by decide, h.2.2.2.2.1⟩

/-! ## Inter-environment messages -/

theorem pair_eq_of_fst {α β : Type} (p : α × β) (a : α) (h : p.1 = a) : p = (a, p.2) := by
  rw [← h]

theorem envid2env_error (s : KState) (envid : Nat) (checkperm : Bool) (r : Int)
    (h : envid2env s envid checkperm = .error r) : r = -E_BAD_ENV := by
  unfold envid2env at h
  split at h
  · cases h
  · split at h
    · cases h; rfl
    · split at h
      · cases h; rfl
      · cases h

theorem ipc_deliver_frame (s : KState) (d value perm : Nat) :
    (ipc_deliver s d value perm).curenv = s.curenv ∧
    (ipc_deliver s d value perm).pgdirs = s.pgdirs ∧
    ∀ j, j ≠ d → (ipc_deliver s d value perm).envs j = s.envs j := by
  refine ⟨rfl, rfl, ?_⟩
  intro j hj
  simp [ipc_deliver, modifyEnv, hj]

theorem ipc_deliver_dst (s : KState) (d value perm : Nat) :
    (ipc_deliver s d value perm).envs d =
      { s.envs d with
        env_ipc_perm := perm
        env_ipc_from := (s.envs s.curenv).env_id
        env_ipc_value := value
        env_status := ENV_RUNNABLE
        env_ipc_recving := 0
        env_tf := { (s.envs d).env_tf with
                    tf_regs := { (s.envs d).env_tf.tf_regs with reg_eax := 0 } } } := by
  by_cases h : s.curenv = d
  · simp [ipc_deliver, modifyEnv, h]
  · simp [ipc_deliver, modifyEnv, h]

/-- The three outcomes of `sys_ipc_try_send`: an error with the state
unchanged, a delivery without a page, a delivery after a page was inserted. -/
theorem sys_ipc_try_send_cases (s : KState) (envid value srcva perm : Nat) :
    (∃ r, r < 0 ∧ sys_ipc_try_send s envid value srcva perm = (r, s)) ∨
    ∃ d, envid2env s envid false = .ok d ∧ (s.envs d).env_ipc_recving ≠ 0 ∧
      ((ipc_send_perm s d srcva perm = 0 ∧
          sys_ipc_try_send s envid value srcva perm = (0, ipc_deliver s d value 0)) ∨
       (ipc_send_perm s d srcva perm ≠ 0 ∧
          ∃ pte, page_lookup s (s.envs s.curenv).env_pgdir srcva = some pte ∧
            (page_insert s (s.envs d).env_pgdir pte.frame (s.envs d).env_ipc_dstva
              (ipc_send_perm s d srcva perm ||| PTE_P)).1 = 0 ∧
            sys_ipc_try_send s envid value srcva perm =
              (0, ipc_deliver
                (page_insert s (s.envs d).env_pgdir pte.frame (s.envs d).env_ipc_dstva
                  (ipc_send_perm s d srcva perm ||| PTE_P)).2
                d value (ipc_send_perm s d srcva perm ||| PTE_P)))) := by
  have hneg := neg_E_INVAL_lt
  unfold sys_ipc_try_send
  cases he : envid2env s envid false with
  | error r =>
    left
    refine ⟨r, ?_, rfl⟩
    rw [envid2env_error s envid false r he]
    decide
  | ok d =>
    simp only []
    by_cases hr : (s.envs d).env_ipc_recving = 0
    · left
      rw [if_pos hr]
      exact ⟨_, by decide, rfl⟩
    rw [if_neg hr]
    by_cases hp : ipc_send_perm s d srcva perm ≠ 0
    swap
    · right
      rw [if_neg hp]
      exact ⟨d, rfl, hr, Or.inl ⟨Classical.not_not.mp hp, rfl⟩⟩
    rw [if_pos hp]
    by_cases ha : srcva % PGSIZE ≠ 0
    · left
      rw [if_pos ha]
      exact ⟨_, hneg, rfl⟩
    rw [if_neg ha]
    rcases check_user_page_perm_values (ipc_send_perm s d srcva perm ||| PTE_P) with hc | hc
    swap
    · left
      rw [hc, if_pos hneg]
      exact ⟨_, hneg, rfl⟩
    rw [hc, if_neg (lt_irrefl _)]
    cases hl : page_lookup s (s.envs s.curenv).env_pgdir srcva with
    | none =>
      left
      exact ⟨_, hneg, rfl⟩
    | some pte =>
      simp only []
      by_cases hw : (ipc_send_perm s d srcva perm ||| PTE_P) &&& PTE_W = PTE_W ∧
          pte.perm &&& PTE_W ≠ PTE_W
      · left
        rw [if_pos hw]
        exact ⟨_, hneg, rfl⟩
      rw [if_neg hw]
      rcases page_insert_values s (s.envs d).env_pgdir pte.frame (s.envs d).env_ipc_dstva
          (ipc_send_perm s d srcva perm ||| PTE_P) with hi | hi
      · right
        rw [if_neg (by rw [hi]; decide)]
        exact ⟨d, rfl, hr, Or.inr ⟨hp, pte, rfl, hi, rfl⟩⟩
      · left
        rw [hi]
        refine ⟨-E_NO_MEM, by decide, ?_⟩
        rw [if_pos (by decide : (-E_NO_MEM : Int) < 0)]

/-- After a successful send the receiver still resolves, for every sender, and
is no longer receiving. -/
theorem sys_ipc_try_send_ok_receiver (s t : KState) (envid value srcva perm : Nat)
    (h : sys_ipc_try_send s envid value srcva perm = (0, t)) :
    ∃ d, envid2env s envid false = .ok d ∧ t.curenv = s.curenv ∧
      t.envs d = { s.envs d with
        env_ipc_perm := (t.envs d).env_ipc_perm
        env_ipc_from := (s.envs s.curenv).env_id
        env_ipc_value := value
        env_status := ENV_RUNNABLE
        env_ipc_recving := 0
        env_tf := { (s.envs d).env_tf with
                    tf_regs := { (s.envs d).env_tf.tf_regs with reg_eax := 0 } } } ∧
      ∀ j, j ≠ d → t.envs j = s.envs j := by
  rcases sys_ipc_try_send_cases s envid value srcva perm with ⟨r, hr, he⟩ | ⟨d, hd, _, hc⟩
  · rw [he] at h
    injection h with h1 _
    rw [h1] at hr
    exact absurd hr (lt_irrefl _)
  · refine ⟨d, hd, ?_⟩
    rcases hc with ⟨_, he⟩ | ⟨_, pte, _, _, he⟩
    · rw [he] at h
      injection h with _ h2
      subst h2
      refine ⟨rfl, ?_, (ipc_deliver_frame s d value 0).2.2⟩
      rw [ipc_deliver_dst]
    · rw [he] at h
      injection h with _ h2
      subst h2
      have hfr := page_insert_frame s (s.envs d).env_pgdir pte.frame (s.envs d).env_ipc_dstva
        (ipc_send_perm s d srcva perm ||| PTE_P)
      refine ⟨hfr.2, ?_, ?_⟩
      · rw [ipc_deliver_dst, hfr.1, hfr.2]
      · intro j hj
        rw [(ipc_deliver_frame _ d value _).2.2 j hj, hfr.1]

/-- C8: a send to an existing environment whose `env_ipc_recving` is 0 returns
`-E_IPC_NOT_RECV` and changes nothing.  Consequently, in the state left by a
successful send, a further send to the same receiver, by the same sender or (for
a non-zero id) by any other, with any value, address and perm, returns
`-E_IPC_NOT_RECV` and leaves that state as it is, so every further send does;
this lasts until the receiver runs `sys_ipc_recv` into the scheduler again,
which sets its `env_ipc_recving` back to 1. -/
theorem sys_ipc_try_send_not_recv (s : KState) (envid value srcva perm : Nat) :
    (∀ d, envid2env s envid false = .ok d → (s.envs d).env_ipc_recving = 0 →
      sys_ipc_try_send s envid value srcva perm = (-E_IPC_NOT_RECV, s)) ∧
    (∀ t, sys_ipc_try_send s envid value srcva perm = (0, t) →
      ∃ d, envid2env s envid false = .ok d ∧
        (∀ c value2 srcva2 perm2, envid ≠ 0 ∨ c = s.curenv →
          sys_ipc_try_send { t with curenv := c } envid value2 srcva2 perm2 =
            (-E_IPC_NOT_RECV, { t with curenv := c })) ∧
        (∀ dstva u, sys_ipc_recv { t with curenv := d } dstva = (none, u) →
          (u.envs d).env_ipc_recving = 1)) := by
  constructor
  · intro d hd hr
    unfold sys_ipc_try_send
    rw [hd]
    simp only []
    rw [if_pos hr]
  · intro t h
    obtain ⟨d, hd, hcur, hdst, _⟩ := sys_ipc_try_send_ok_receiver s t envid value srcva perm h
    refine ⟨d, hd, ?_, ?_⟩
    · intro c value2 srcva2 perm2 hc
      have hres : envid2env { t with curenv := c } envid false = .ok d := by
        unfold envid2env at hd ⊢
        by_cases h0 : envid = 0
        · rw [if_pos h0] at hd ⊢
          rcases hc with hc | hc
          · exact absurd h0 hc
          · injection hd with hd
            rw [hc, hd]
        · rw [if_neg h0] at hd ⊢
          split at hd
          · cases hd
          · rename_i hok
            simp only [Bool.false_eq_true, false_and, if_false] at hd ⊢
            injection hd with hd
            rw [hd] at hok ⊢
            rw [if_neg]
            rw [hdst]
            simp only []
            intro hbad
            rcases hbad with hbad | hbad
            · exact absurd hbad (by decide)
            · exact hok (Or.inr hbad)
      unfold sys_ipc_try_send
      rw [hres]
      simp only []
      rw [if_pos (by rw [hdst])]
    · intro dstva u hu
      unfold sys_ipc_recv at hu
      split at hu
      · split at hu
        · cases hu
        · injection hu with _ hu
          rw [← hu]
          simp [modifyEnv]
      · injection hu with _ hu
        rw [← hu]
        simp [modifyEnv]

/-- C9: all-or-nothing.  Whenever `sys_ipc_try_send` returns a negative value,
the kernel state after the call is the state before it: every field of the
destination's record, of the sender's record and of every other record, and
every page table, is unchanged. -/
theorem sys_ipc_try_send_all_or_nothing (s t : KState) (envid value srcva perm : Nat)
    (r : Int) (h : sys_ipc_try_send s envid value srcva perm = (r, t)) (hr : r < 0) :
    t = s := by
  rcases sys_ipc_try_send_cases s envid value srcva perm with ⟨r1, _, he⟩ | ⟨d, _, _, hc⟩
  · rw [he] at h
    injection h with _ h2
    exact h2.symm
  · exfalso
    rcases hc with ⟨_, he⟩ | ⟨_, pte, _, _, he⟩
    · rw [he] at h
      injection h with h1 _
      rw [← h1] at hr
      exact absurd hr (lt_irrefl _)
    · rw [he] at h
      injection h with h1 _
      rw [← h1] at hr
      exact absurd hr (lt_irrefl _)

/-- Witness of C9: sending the page at the unaligned address 0x2001 to the
waiting child fails with `-E_INVAL` and changes nothing. -/
theorem sys_ipc_try_send_all_or_nothing_witness :
    (sys_ipc_try_send demoState 0x1001 42 0x2001 7).1 = -E_INVAL ∧
    (sys_ipc_try_send demoState 0x1001 42 0x2001 7).2 = demoState :=
  ⟨by decide,
   sys_ipc_try_send_all_or_nothing demoState
     (sys_ipc_try_send demoState 0x1001 42 0x2001 7).2 0x1001 42 0x2001 7 (-E_INVAL)
     (pair_eq_of_fst _ _ (by decide)) (by decide)⟩

/-- Witness of C8 on the concrete state: the first send of 42 to the waiting
child succeeds, and a second send to it is refused with `-E_IPC_NOT_RECV`. -/
theorem sys_ipc_try_send_not_recv_witness :
    (sys_ipc_try_send demoState 0x1001 42 UTOP 0).1 = 0 ∧
    (sys_ipc_try_send { (sys_ipc_try_send demoState 0x1001 42 UTOP 0).2 with curenv := 0 }
      0x1001 43 UTOP 0).1 = -E_IPC_NOT_RECV :=
  have h := (sys_ipc_try_send_not_recv demoState 0x1001 42 UTOP 0).2
    (sys_ipc_try_send demoState 0x1001 42 UTOP 0).2 (pair_eq_of_fst _ 0 (by decide))
  ⟨by decide, by
    obtain ⟨_, _, h2, _⟩ := h
    exact congrArg Prod.fst (h2 0 43 UTOP 0 (Or.inl (by decide)))⟩

/-- C10, the failing input: the caller sends its page 0x2000 to the waiting
child with perm PTE_U alone.  The call returns 0 and the page is transferred
(the child maps frame 8 at its `env_ipc_dstva` 0x3000), but the child's
`env_ipc_perm` is PTE_U|PTE_P, not the perm argument. -/
theorem sys_ipc_try_send_perm_counterexample :
    (sys_ipc_try_send demoState 0x1001 42 0x2000 PTE_U).1 = 0 ∧
    page_lookup (sys_ipc_try_send demoState 0x1001 42 0x2000 PTE_U).2 101 0x3000 =
      some ⟨8, PTE_U ||| PTE_P⟩ ∧
    ((sys_ipc_try_send demoState 0x1001 42 0x2000 PTE_U).2.envs 1).env_ipc_perm ≠ PTE_U := by
  decide

/-- C10 (the code departs from the claim): when a page is transferred the
destination's `env_ipc_perm` is `perm | PTE_P`, not `perm` as the claim and the
doc comment of `sys_ipc_try_send` say, because the code executes
`perm |= PTE_P` before it validates and records the permission.  The rest of
the claim holds: whenever `sys_ipc_try_send(envid, value, srcva, perm)` returns
0, the destination record has `env_ipc_from` equal to the sender's env id,
`env_ipc_value` equal to `value`, `env_ipc_recving` 0, `env_status`
ENV_RUNNABLE and saved `reg_eax` 0; a page is transferred when `srcva` and the
destination's `env_ipc_dstva` are below UTOP and `perm` is non-zero (the
destination then maps the sender's frame at `env_ipc_dstva`), and otherwise
`env_ipc_perm` is 0 and no page table has changed.  The record of a sender other
than the destination is unchanged, so its status stays ENV_RUNNING. -/
theorem sys_ipc_try_send_delivery (s t : KState) (envid value srcva perm d : Nat)
    (hd : envid2env s envid false = .ok d)
    (h : sys_ipc_try_send s envid value srcva perm = (0, t)) :
    (t.envs d).env_ipc_from = (s.envs s.curenv).env_id ∧
    (t.envs d).env_ipc_value = value ∧
    (t.envs d).env_ipc_recving = 0 ∧
    (t.envs d).env_status = ENV_RUNNABLE ∧
    (t.envs d).env_tf.tf_regs.reg_eax = 0 ∧
    (srcva < UTOP ∧ (s.envs d).env_ipc_dstva < UTOP ∧ perm ≠ 0 →
      (t.envs d).env_ipc_perm = perm ||| PTE_P ∧
      ∃ pte, page_lookup s (s.envs s.curenv).env_pgdir srcva = some pte ∧
        page_lookup t (s.envs d).env_pgdir (s.envs d).env_ipc_dstva =
          some ⟨pte.frame, perm ||| PTE_P⟩) ∧
    (¬ (srcva < UTOP ∧ (s.envs d).env_ipc_dstva < UTOP ∧ perm ≠ 0) →
      (t.envs d).env_ipc_perm = 0 ∧ t.pgdirs = s.pgdirs) ∧
    (d ≠ s.curenv → t.envs s.curenv = s.envs s.curenv) := by
  obtain ⟨d1, hd1, _, hdst, hothers⟩ :=
    sys_ipc_try_send_ok_receiver s t envid value srcva perm h
  rw [hd] at hd1
  injection hd1 with hd1
  subst hd1
  have hperm : ipc_send_perm s d srcva perm =
      if srcva < UTOP ∧ (s.envs d).env_ipc_dstva < UTOP ∧ perm ≠ 0 then perm else 0 := by
    unfold ipc_send_perm
    by_cases h1 : srcva ≥ UTOP
    · have : ¬ srcva < UTOP := Nat.not_lt.mpr h1
      simp [h1, this]
    · by_cases h2 : (s.envs d).env_ipc_dstva ≥ UTOP
      · have : ¬ (s.envs d).env_ipc_dstva < UTOP := Nat.not_lt.mpr h2
        simp [h1, h2, this]
      · have h1b : srcva < UTOP := Nat.lt_of_not_ge h1
        have h2b : (s.envs d).env_ipc_dstva < UTOP := Nat.lt_of_not_ge h2
        by_cases h3 : perm = 0
        · simp [h1, h2, h3]
        · simp [h1, h2, h1b, h2b, h3]
  refine ⟨by rw [hdst], by rw [hdst], by rw [hdst], by rw [hdst], by rw [hdst], ?_, ?_,
    fun hne => hothers _ (Ne.symm hne)⟩
  · intro hpage
    rw [if_pos hpage] at hperm
    rcases sys_ipc_try_send_cases s envid value srcva perm with
      ⟨r, hr, he⟩ | ⟨d2, hd2, _, hc⟩
    · rw [he] at h
      injection h with h1 _
      rw [h1] at hr
      exact absurd hr (lt_irrefl _)
    · rw [hd] at hd2
      injection hd2 with hd2
      subst hd2
      rcases hc with ⟨hz, _⟩ | ⟨_, pte, hl, hi, he⟩
      · rw [hperm] at hz
        exact absurd hz hpage.2.2
      · rw [he, hperm] at h
        rw [hperm] at hi
        injection h with _ h2
        subst h2
        refine ⟨by rw [ipc_deliver_dst], pte, hl, ?_⟩
        unfold page_lookup
        rw [(ipc_deliver_frame _ _ _ _).2.1, page_insert_pgdirs _ _ _ _ _ _ _ hi,
          if_pos ⟨rfl, rfl⟩]
  · intro hnopage
    rw [if_neg hnopage] at hperm
    rcases sys_ipc_try_send_cases s envid value srcva perm with
      ⟨r, hr, he⟩ | ⟨d2, hd2, _, hc⟩
    · rw [he] at h
      injection h with h1 _
      rw [h1] at hr
      exact absurd hr (lt_irrefl _)
    · rw [hd] at hd2
      injection hd2 with hd2
      subst hd2
      rcases hc with ⟨_, he⟩ | ⟨hnz, _⟩
      · rw [he] at h
        injection h with _ h2
        subst h2
        exact ⟨by rw [ipc_deliver_dst], (ipc_deliver_frame _ _ _ _).2.1⟩
      · exact absurd hperm hnz

/-- Witness of C10: the caller sends 42 and its page 0x2000 to the waiting child
with perm PTE_U alone; the perm recorded is PTE_U|PTE_P. -/
theorem sys_ipc_try_send_delivery_witness :
    ((sys_ipc_try_send demoState 0x1001 42 0x2000 PTE_U).2.envs 1).env_ipc_from = 0x1000 ∧
    ((sys_ipc_try_send demoState 0x1001 42 0x2000 PTE_U).2.envs 1).env_ipc_value = 42 ∧
    ((sys_ipc_try_send demoState 0x1001 42 0x2000 PTE_U).2.envs 1).env_status = ENV_RUNNABLE ∧
    ((sys_ipc_try_send demoState 0x1001 42 0x2000 PTE_U).2.envs 1).env_ipc_perm =
      PTE_U ||| PTE_P ∧
    ((sys_ipc_try_send demoState 0x1001 42 0x2000 PTE_U).2.envs 0).env_status = ENV_RUNNING :=
  have h := sys_ipc_try_send_delivery demoState
    (sys_ipc_try_send demoState 0x1001 42 0x2000 PTE_U).2 0x1001 42 0x2000 PTE_U 1 rfl
    (pair_eq_of_fst _ 0 (by decide))
  ⟨h.1, h.2.1, h.2.2.2.1, (h.2.2.2.2.2.1 (by decide)).1,
   congrArg Env.env_status (h.2.2.2.2.2.2.2 (by decide))⟩

/-! ## Sends without a page, and what a send accepts -/

theorem ipc_send_perm_eq (s : KState) (d srcva perm : Nat) :
    ipc_send_perm s d srcva perm =
      if srcva < UTOP ∧ (s.envs d).env_ipc_dstva < UTOP then perm else 0 := by
  unfold ipc_send_perm
  by_cases h1 : srcva ≥ UTOP
  · have : ¬ srcva < UTOP := Nat.not_lt.mpr h1
    simp [h1, this]
  · by_cases h2 : (s.envs d).env_ipc_dstva ≥ UTOP
    · have : ¬ (s.envs d).env_ipc_dstva < UTOP := Nat.not_lt.mpr h2
      simp [h1, h2, this]
    · have h1b : srcva < UTOP := Nat.lt_of_not_ge h1
      have h2b : (s.envs d).env_ipc_dstva < UTOP := Nat.lt_of_not_ge h2
      simp [h1, h2, h1b, h2b]

theorem sys_ipc_try_send_zero_perm (s : KState) (envid value srcva perm d : Nat)
    (hd : envid2env s envid false = .ok d) (hr : (s.envs d).env_ipc_recving ≠ 0)
    (hz : ipc_send_perm s d srcva perm = 0) :
    sys_ipc_try_send s envid value srcva perm = (0, ipc_deliver s d value 0) := by
  unfold sys_ipc_try_send
  rw [hd]
  simp only []
  rw [if_neg hr, if_neg (not_not.mpr hz)]

/-- C11: for a receiving destination, if `srcva >= UTOP` or the destination's
`env_ipc_dstva >= UTOP`, `sys_ipc_try_send` returns 0 whatever `perm` and the
alignment of `srcva` are, sets the destination's `env_ipc_perm` to 0, and
transfers no page: the page tables, the reference counts and the free list of
frames are what they were. -/
theorem sys_ipc_try_send_no_page (s : KState) (envid value srcva perm d : Nat)
    (hd : envid2env s envid false = .ok d) (hr : (s.envs d).env_ipc_recving ≠ 0)
    (h : srcva ≥ UTOP ∨ (s.envs d).env_ipc_dstva ≥ UTOP) :
    (sys_ipc_try_send s envid value srcva perm).1 = 0 ∧
    ((sys_ipc_try_send s envid value srcva perm).2.envs d).env_ipc_perm = 0 ∧
    (sys_ipc_try_send s envid value srcva perm).2.pgdirs = s.pgdirs ∧
    (sys_ipc_try_send s envid value srcva perm).2.pp_ref = s.pp_ref ∧
    (sys_ipc_try_send s envid value srcva perm).2.page_free_list = s.page_free_list := by
  have hz : ipc_send_perm s d srcva perm = 0 := by
    rw [ipc_send_perm_eq, if_neg]
    rintro ⟨h1, h2⟩
    rcases h with h | h
    · exact absurd h1 (Nat.not_lt.mpr h)
    · exact absurd h2 (Nat.not_lt.mpr h)
  rw [sys_ipc_try_send_zero_perm s envid value srcva perm d hd hr hz]
  refine ⟨rfl, ?_, rfl, rfl, rfl⟩
  simp only []
  rw [ipc_deliver_dst]

/-- Witness of C11: the child waits for a page at 0x3000, the caller sends the
value 42 with the address UTOP and an arbitrary perm. -/
theorem sys_ipc_try_send_no_page_witness :
    (sys_ipc_try_send demoState 0x1001 42 UTOP 0xFFF).1 = 0 ∧
    ((sys_ipc_try_send demoState 0x1001 42 UTOP 0xFFF).2.envs 1).env_ipc_perm = 0 :=
  have h := sys_ipc_try_send_no_page demoState 0x1001 42 UTOP 0xFFF 1 rfl (by decide)
    (Or.inl (Nat.le_refl _))
  ⟨h.1, h.2.1⟩

theorem sys_ipc_try_send_page_perm (s : KState) (envid value srcva perm d : Nat)
    (hd : envid2env s envid false = .ok d) (hr : (s.envs d).env_ipc_recving ≠ 0)
    (hdst : (s.envs d).env_ipc_dstva < UTOP) (hsrc : srcva < UTOP) (hnz : perm ≠ 0)
    (hbad : srcva % PGSIZE ≠ 0 ∨ check_user_page_perm (perm ||| PTE_P) ≠ 0) :
    sys_ipc_try_send s envid value srcva perm = (-E_INVAL, s) := by
  have hp : ipc_send_perm s d srcva perm = perm := by
    rw [ipc_send_perm_eq, if_pos ⟨hsrc, hdst⟩]
  unfold sys_ipc_try_send
  rw [hd]
  simp only []
  rw [if_neg hr, hp, if_pos hnz]
  by_cases ha : srcva % PGSIZE ≠ 0
  · rw [if_pos ha]
  · rw [if_neg ha]
    rcases hbad with hbad | hbad
    · exact absurd hbad ha
    · rcases check_user_page_perm_values (perm ||| PTE_P) with hc | hc
      · exact absurd hc hbad
      · rw [hc, if_pos neg_E_INVAL_lt]

theorem PTE_P_testBit_of_PTE_U {i : Nat} (h : PTE_U.testBit i = true) :
    PTE_P.testBit i = false := by
  have hU : PTE_U = 2 ^ 2 := rfl
  have hP : PTE_P = 2 ^ 0 := rfl
  rw [hU, Nat.testBit_two_pow] at h
  have hi : 2 = i := of_decide_eq_true h
  subst hi
  rw [hP]
  exact Nat.testBit_two_pow_of_ne (by decide)

/-- C12, the failing input: the child waits for a page at
0x3000 and the caller sends its mapped page 0x2000.  With perm PTE_U alone
(PTE_P missing) the call returns 0, and with perm 0 (PTE_U and PTE_P missing)
it returns 0 as well; neither returns `-E_INVAL`. -/
theorem sys_ipc_try_send_perm_accepted_counterexample :
    (demoState.envs 1).env_ipc_recving = 1 ∧ (demoState.envs 1).env_ipc_dstva < UTOP ∧
    0x2000 < UTOP ∧
    (sys_ipc_try_send demoState 0x1001 42 0x2000 PTE_U).1 = 0 ∧
    (sys_ipc_try_send demoState 0x1001 42 0x2000 0).1 = 0 := by
  decide

/-- C12 (the code departs from the claim): with the receiver waiting,
`env_ipc_dstva < UTOP` and `srcva < UTOP`, a perm that lacks PTE_P is not
refused.  The code executes `perm |= PTE_P` before `check_user_page_perm`, so a
non-zero perm gives the result of `perm | PTE_P`, and it skips every test when
the perm is 0: the call then returns 0 and leaves the page tables alone,
although the perm lacks PTE_U and PTE_P.  The rest of the claim holds:
`sys_ipc_try_send` returns `-E_INVAL`, changing nothing, for every non-zero
perm that lacks PTE_U or has a bit outside USER, PRESENT, WRITE, AVAIL. -/
theorem sys_ipc_try_send_bad_perm (s : KState) (envid value srcva perm d : Nat)
    (hd : envid2env s envid false = .ok d) (hr : (s.envs d).env_ipc_recving ≠ 0)
    (hdst : (s.envs d).env_ipc_dstva < UTOP) (hsrc : srcva < UTOP)
    (hperm : perm < 2 ^ 32) :
    (perm ≠ 0 →
      ((¬ ∀ i, PTE_U.testBit i = true → perm.testBit i = true) ∨
       ∃ i, perm.testBit i = true ∧
        ¬ (PTE_U.testBit i = true ∨ PTE_P.testBit i = true ∨ PTE_W.testBit i = true ∨
            PTE_AVAIL.testBit i = true)) →
      sys_ipc_try_send s envid value srcva perm = (-E_INVAL, s)) ∧
    (perm ≠ 0 →
      sys_ipc_try_send s envid value srcva perm =
        sys_ipc_try_send s envid value srcva (perm ||| PTE_P)) ∧
    (perm = 0 →
      (sys_ipc_try_send s envid value srcva perm).1 = 0 ∧
      (sys_ipc_try_send s envid value srcva perm).2.pgdirs = s.pgdirs) := by
  refine ⟨?_, ?_, ?_⟩
  · intro hnz hbad
    apply sys_ipc_try_send_page_perm s envid value srcva perm d hd hr hdst hsrc hnz
    right
    intro hc
    have hlt : perm ||| PTE_P < 2 ^ 32 := Nat.or_lt_two_pow hperm (by decide)
    obtain ⟨hU, _, hS⟩ := (check_user_page_perm_eq_zero_iff (perm ||| PTE_P) hlt).mp hc
    rcases hbad with hbad | ⟨i, hi, hout⟩
    · apply hbad
      intro i hi
      have h1 := hU i hi
      rw [Nat.testBit_or, PTE_P_testBit_of_PTE_U hi, Bool.or_false] at h1
      exact h1
    · apply hout
      apply hS i
      rw [Nat.testBit_or, hi, Bool.true_or]
  · intro hnz
    have hnz2 : perm ||| PTE_P ≠ 0 := by
      intro h0
      apply hnz
      apply Nat.eq_of_testBit_eq
      intro i
      have := congrArg (fun n => Nat.testBit n i) h0
      simp only [Nat.testBit_or, Nat.zero_testBit, Bool.or_eq_false_iff] at this
      rw [this.1, Nat.zero_testBit]
    have hp1 : ipc_send_perm s d srcva perm = perm := by
      rw [ipc_send_perm_eq, if_pos ⟨hsrc, hdst⟩]
    have hp2 : ipc_send_perm s d srcva (perm ||| PTE_P) = perm ||| PTE_P := by
      rw [ipc_send_perm_eq, if_pos ⟨hsrc, hdst⟩]
    have hor : perm ||| PTE_P ||| PTE_P = perm ||| PTE_P := by
      rw [Nat.or_assoc, Nat.or_self]
    unfold sys_ipc_try_send
    rw [hd]
    simp only []
    rw [if_neg hr, if_neg hr, hp1, hp2, if_pos hnz, if_pos hnz2, hor]
  · intro hz
    have hzp : ipc_send_perm s d srcva perm = 0 := by
      rw [ipc_send_perm_eq, hz]
      split <;> rfl
    rw [sys_ipc_try_send_zero_perm s envid value srcva perm d hd hr hzp]
    exact ⟨rfl, rfl⟩

/-- Witness of C12: perm WRITE alone, without USER, is refused; perm 0, without
USER and PRESENT, is accepted. -/
theorem sys_ipc_try_send_bad_perm_witness :
    sys_ipc_try_send demoState 0x1001 42 0x2000 PTE_W = (-E_INVAL, demoState) ∧
    (sys_ipc_try_send demoState 0x1001 42 0x2000 0).1 = 0 :=
  ⟨(sys_ipc_try_send_bad_perm demoState 0x1001 42 0x2000 PTE_W 1 rfl (by decide) (by decide)
      (by decide) (by decide)).1 (by decide)
      (Or.inl (fun h => absurd (h 2 (by decide)) (by decide))),
   ((sys_ipc_try_send_bad_perm demoState 0x1001 42 0x2000 0 1 rfl (by decide) (by decide)
      (by decide) (by decide)).2.2 rfl).1⟩

/-- C13, the failing input: the child waits for a page at
0x3000 and the caller sends with the address 0x2001, which is below UTOP and
not page-aligned, and perm 0; the call returns 0, not `-E_INVAL`. -/
theorem sys_ipc_try_send_unaligned_counterexample :
    (demoState.envs 1).env_ipc_recving = 1 ∧ (demoState.envs 1).env_ipc_dstva < UTOP ∧
    0x2001 < UTOP ∧ 0x2001 % PGSIZE ≠ 0 ∧
    (sys_ipc_try_send demoState 0x1001 42 0x2001 0).1 = 0 := by
  decide

/-- C13 (the code departs from the claim): with the receiver waiting and
`env_ipc_dstva < UTOP`, a `srcva < UTOP` that is not page-aligned is not refused
when the perm is 0: the alignment test sits inside `if (perm)`, so the address
is not examined and the call returns 0.  For every non-zero perm the claim
holds: `sys_ipc_try_send` returns `-E_INVAL`, changing nothing. -/
theorem sys_ipc_try_send_unaligned (s : KState) (envid value srcva perm d : Nat)
    (hd : envid2env s envid false = .ok d) (hr : (s.envs d).env_ipc_recving ≠ 0)
    (hdst : (s.envs d).env_ipc_dstva < UTOP) (hsrc : srcva < UTOP)
    (ha : srcva % PGSIZE ≠ 0) :
    (perm ≠ 0 → sys_ipc_try_send s envid value srcva perm = (-E_INVAL, s)) ∧
    (perm = 0 → (sys_ipc_try_send s envid value srcva perm).1 = 0) := by
  constructor
  · intro hnz
    exact sys_ipc_try_send_page_perm s envid value srcva perm d hd hr hdst hsrc hnz (Or.inl ha)
  · intro hz
    have hzp : ipc_send_perm s d srcva perm = 0 := by
      rw [ipc_send_perm_eq, hz]
      split <;> rfl
    rw [sys_ipc_try_send_zero_perm s envid value srcva perm d hd hr hzp]

/-- Witness of C13: the unaligned address 0x2001 is refused with perm
USER|PRESENT and accepted with perm 0. -/
theorem sys_ipc_try_send_unaligned_witness :
    sys_ipc_try_send demoState 0x1001 42 0x2001 5 = (-E_INVAL, demoState) ∧
    (sys_ipc_try_send demoState 0x1001 42 0x2001 0).1 = 0 :=
  ⟨(sys_ipc_try_send_unaligned demoState 0x1001 42 0x2001 5 1 rfl (by decide) (by decide)
      (by decide) (by decide)).1 (by decide),
   (sys_ipc_try_send_unaligned demoState 0x1001 42 0x2001 0 1 rfl (by decide) (by decide)
      (by decide) (by decide)).2 rfl⟩

/-! ## Receiving -/

/-- C14: `sys_ipc_recv(dstva)` with `dstva >= UTOP`, or with `dstva < UTOP` and
page-aligned, does not return but enters the scheduler (so does the system call
SYS_ipc_recv of the dispatcher), in a state where the caller's record is its old record with `env_ipc_dstva` set (to UTOP in the
first case, to `dstva` in the second), `env_status` ENV_NOT_RUNNABLE and
`env_ipc_recving` 1, every other record being unchanged.  With `dstva < UTOP`
and not page-aligned it returns `-E_INVAL`, and the caller's `env_ipc_recving`
and `env_status` are what they were. -/
theorem sys_ipc_recv_spec (s : KState) (dstva : Nat) :
    (dstva ≥ UTOP ∨ (dstva < UTOP ∧ dstva % PGSIZE = 0) →
      (sys_ipc_recv s dstva).1 = none ∧
      (∀ a2 a3 a4 a5, syscall s SYS_ipc_recv dstva a2 a3 a4 a5 =
        .yield (some s.curenv) (sys_ipc_recv s dstva).2) ∧
      (sys_ipc_recv s dstva).2.curenv = s.curenv ∧
      (sys_ipc_recv s dstva).2.envs s.curenv =
        { s.envs s.curenv with
          env_ipc_dstva := if dstva < UTOP then dstva else UTOP
          env_status := ENV_NOT_RUNNABLE
          env_ipc_recving := 1 } ∧
      ∀ j, j ≠ s.curenv → (sys_ipc_recv s dstva).2.envs j = s.envs j) ∧
    (dstva < UTOP ∧ dstva % PGSIZE ≠ 0 →
      (sys_ipc_recv s dstva).1 = some (-E_INVAL) ∧
      ((sys_ipc_recv s dstva).2.envs s.curenv).env_ipc_recving =
        (s.envs s.curenv).env_ipc_recving ∧
      ((sys_ipc_recv s dstva).2.envs s.curenv).env_status = (s.envs s.curenv).env_status) := by
  have hsys : (sys_ipc_recv s dstva).1 = none → (sys_ipc_recv s dstva).2.curenv = s.curenv →
      ∀ a2 a3 a4 a5, syscall s SYS_ipc_recv dstva a2 a3 a4 a5 =
        .yield (some s.curenv) (sys_ipc_recv s dstva).2 := by
    intro hnone hcur a2 a3 a4 a5
    unfold syscall
    rw [if_neg (by decide), if_neg (by decide), if_neg (by decide), if_neg (by decide),
      if_neg (by decide), if_neg (by decide), if_neg (by decide), if_neg (by decide),
      if_neg (by decide), if_neg (by decide), if_neg (by decide), if_pos rfl]
    cases hrecv : sys_ipc_recv s dstva with
    | mk o s1 =>
      rw [hrecv] at hnone hcur
      simp only [] at hnone hcur
      subst hnone
      simp only []
      rw [hcur]
  constructor
  · intro h
    have hmain : (sys_ipc_recv s dstva).1 = none ∧
        (sys_ipc_recv s dstva).2.curenv = s.curenv ∧
        (sys_ipc_recv s dstva).2.envs s.curenv =
          { s.envs s.curenv with
            env_ipc_dstva := if dstva < UTOP then dstva else UTOP
            env_status := ENV_NOT_RUNNABLE
            env_ipc_recving := 1 } ∧
        ∀ j, j ≠ s.curenv → (sys_ipc_recv s dstva).2.envs j = s.envs j := by
      unfold sys_ipc_recv
      by_cases hlt : dstva < UTOP
      · have ha : dstva % PGSIZE = 0 := by
          rcases h with h | h
          · exact absurd hlt (Nat.not_lt.mpr h)
          · exact h.2
        rw [if_pos hlt, if_pos hlt]
        simp only [ha, ne_eq, not_true_eq_false, if_false]
        refine ⟨trivial, rfl, ?_, ?_⟩
        · simp [modifyEnv]
        · intro j hj
          simp [modifyEnv, hj]
      · rw [if_neg hlt, if_neg hlt]
        refine ⟨rfl, rfl, ?_, ?_⟩
        · simp [modifyEnv]
        · intro j hj
          simp [modifyEnv, hj]
    exact ⟨hmain.1, hsys hmain.1 hmain.2.1, hmain.2⟩
  · intro h
    unfold sys_ipc_recv
    rw [if_pos h.1]
    simp only [h.2, ne_eq, not_false_eq_true, if_true]
    refine ⟨trivial, ?_, ?_⟩ <;> simp [modifyEnv]

/-- Witness of C14 on the concrete state: the caller receives at 0x5000. -/
theorem sys_ipc_recv_spec_witness :
    (sys_ipc_recv demoState 0x5000).1 = none ∧
    ((sys_ipc_recv demoState 0x5000).2.envs 0).env_ipc_dstva = 0x5000 ∧
    ((sys_ipc_recv demoState 0x5000).2.envs 0).env_ipc_recving = 1 ∧
    ((sys_ipc_recv demoState 0x5000).2.envs 0).env_status = ENV_NOT_RUNNABLE :=
  have h := (sys_ipc_recv_spec demoState 0x5000).1 (Or.inr (by decide))
  ⟨h.1, congrArg Env.env_ipc_dstva h.2.2.2.1, congrArg Env.env_ipc_recving h.2.2.2.1,
    congrArg Env.env_status h.2.2.2.1⟩

/-- C15 (the code departs from the claim): when `sys_ipc_recv` returns
`-E_INVAL` (`dstva < UTOP` and not page-aligned), it has already stored the
rejected `dstva` in the caller's `env_ipc_dstva`; the caller's record after the
call is its old record with that field overwritten, so it is unchanged only if
the field held `dstva` before. -/
theorem sys_ipc_recv_error_writes_dstva (s : KState) (dstva : Nat)
    (hlt : dstva < UTOP) (ha : dstva % PGSIZE ≠ 0) :
    (sys_ipc_recv s dstva).1 = some (-E_INVAL) ∧
    (sys_ipc_recv s dstva).2.envs s.curenv =
      { s.envs s.curenv with env_ipc_dstva := dstva } ∧
    ((s.envs s.curenv).env_ipc_dstva ≠ dstva →
      (sys_ipc_recv s dstva).2.envs s.curenv ≠ s.envs s.curenv) := by
  unfold sys_ipc_recv
  rw [if_pos hlt]
  simp only [ha, ne_eq, not_false_eq_true, if_true]
  refine ⟨trivial, ?_, ?_⟩
  · simp [modifyEnv]
  · intro hne heq
    apply hne
    have := congrArg Env.env_ipc_dstva heq
    simp [modifyEnv] at this
    exact this.symm

/-- Witness of C15: the caller, whose `env_ipc_dstva` is 0, calls
`sys_ipc_recv(0x1001)`; the call fails and the field is 0x1001 afterwards. -/
theorem sys_ipc_recv_error_writes_dstva_witness :
    (demoState.envs 0).env_ipc_dstva = 0 ∧
    (sys_ipc_recv demoState 0x1001).1 = some (-E_INVAL) ∧
    ((sys_ipc_recv demoState 0x1001).2.envs 0).env_ipc_dstva = 0x1001 :=
  have h := sys_ipc_recv_error_writes_dstva demoState 0x1001 (by decide) (by decide)
  ⟨rfl, h.1, congrArg Env.env_ipc_dstva h.2.1⟩

/-! ## The scheduler -/

theorem ENVX_lt (envid : Nat) : ENVX envid < NENV := by
  unfold ENVX
  exact Nat.lt_of_le_of_lt Nat.and_le_right (by decide)

theorem sched_yield_loop_some (envs : Nat → Env) (idx : Nat) :
    ∀ n offset e, sched_yield_loop envs idx n offset = some e →
      (envs e).env_status = ENV_RUNNABLE := by
  intro n
  induction n with
  | zero =>
    intro offset e h
    simp [sched_yield_loop] at h
  | succ n ih =>
    intro offset e h
    unfold sched_yield_loop at h
    split at h
    · rename_i hr
      injection h with h
      rw [← h]
      exact hr
    · exact ih _ _ h

theorem sched_yield_loop_none (envs : Nat → Env) (idx : Nat) :
    ∀ n offset, sched_yield_loop envs idx n offset = none →
      ∀ k, offset ≤ k → k < offset + n →
        (envs ((idx + k) % NENV)).env_status ≠ ENV_RUNNABLE := by
  intro n
  induction n with
  | zero =>
    intro offset _ k h1 h2
    omega
  | succ n ih =>
    intro offset h k h1 h2
    unfold sched_yield_loop at h
    split at h
    · cases h
    · rename_i hr
      by_cases hk : k = offset
      · rw [hk]
        exact hr
      · exact ih _ h k (by omega) (by omega)

theorem sched_yield_loop_eq_none (envs : Nat → Env) (idx : Nat)
    (hall : ∀ i, i < NENV → (envs i).env_status ≠ ENV_RUNNABLE) :
    ∀ n offset, sched_yield_loop envs idx n offset = none := by
  intro n
  induction n with
  | zero => intro offset; rfl
  | succ n ih =>
    intro offset
    unfold sched_yield_loop
    rw [if_neg (hall _ (Nat.mod_lt _ (by decide))), ih]

theorem sched_yield_loop_full_none (envs : Nat → Env) (idx : Nat)
    (h : sched_yield_loop envs idx NENV 0 = none) :
    ∀ i, i < NENV → (envs i).env_status ≠ ENV_RUNNABLE := by
  intro i hi
  have hk := sched_yield_loop_none envs idx NENV 0 h ((i + NENV - idx % NENV) % NENV)
    (Nat.zero_le _) (by rw [Nat.zero_add]; exact Nat.mod_lt _ (by decide))
  have hidx : (idx + (i + NENV - idx % NENV) % NENV) % NENV = i := by
    unfold NENV at hi ⊢
    omega
  rw [hidx] at hk
  exact hk

/-- C16 (the code departs from the claim): the search of `sched_yield` starts
at the caller's own slot, offset 0, not at the slot after it.  Whenever the
caller's record (in slot `c`, with an id of that slot) is ENV_RUNNABLE,
`sched_yield` passes the caller itself to `env_run`, whatever the status of slot
`c+1` and of every other slot. -/
theorem sched_yield_starts_at_caller (envs : Nat → Env) (c : Nat)
    (hc : ENVX (envs c).env_id = c) (hr : (envs c).env_status = ENV_RUNNABLE) :
    sched_yield envs (some c) = .env_run c := by
  have hlt : c < NENV := hc ▸ ENVX_lt _
  have hmod : (c + 0) % NENV = c := by rw [Nat.add_zero]; exact Nat.mod_eq_of_lt hlt
  have hloop : sched_yield_loop envs c NENV 0 = some c := by
    change sched_yield_loop envs c (1023 + 1) 0 = some c
    unfold sched_yield_loop
    rw [hmod, if_pos hr]
  unfold sched_yield
  simp only [hc, hloop]

/-- Witness of C16: in the concrete state the caller (slot 0) makes its child
(slot 1) and then itself ENV_RUNNABLE and yields; slot 1, just after the caller,
is ENV_RUNNABLE, and `sched_yield` runs the caller in slot 0. -/
theorem sched_yield_starts_at_caller_witness :
    (sys_env_set_status demoState 0x1001 ENV_RUNNABLE).1 = 0 ∧
    (sys_env_set_status (sys_env_set_status demoState 0x1001 ENV_RUNNABLE).2 0
      ENV_RUNNABLE).1 = 0 ∧
    demoRunnable.curenv = 0 ∧
    (demoRunnable.envs 1).env_status = ENV_RUNNABLE ∧
    sched_yield demoRunnable.envs (some demoRunnable.curenv) = .env_run 0 :=
  ⟨by decide, by decide, by decide, by decide,
    sched_yield_starts_at_caller demoRunnable.envs 0 (by decide) (by decide)⟩

/-- C17: `sched_yield` passes to `env_run` only an environment whose status is
ENV_RUNNABLE, or the caller's own `curenv` with status ENV_RUNNING when no slot
of the table is ENV_RUNNABLE; the environment it runs is therefore never DYING,
NOT_RUNNABLE or FREE, and never one that is RUNNING elsewhere.  It calls
`sched_halt`, running no environment, exactly when no slot is ENV_RUNNABLE and
`curenv` is NULL or not ENV_RUNNING. -/
theorem sched_yield_selects (envs : Nat → Env) (curenv : Option Nat) :
    (∀ e, sched_yield envs curenv = .env_run e →
      ((envs e).env_status = ENV_RUNNABLE ∨
        (curenv = some e ∧ (envs e).env_status = ENV_RUNNING ∧
          ∀ i, i < NENV → (envs i).env_status ≠ ENV_RUNNABLE)) ∧
      (envs e).env_status ≠ ENV_DYING ∧ (envs e).env_status ≠ ENV_NOT_RUNNABLE ∧
      (envs e).env_status ≠ ENV_FREE) ∧
    (sched_yield envs curenv = .sched_halt ↔
      (∀ i, i < NENV → (envs i).env_status ≠ ENV_RUNNABLE) ∧
      ∀ c, curenv = some c → (envs c).env_status ≠ ENV_RUNNING) := by
  have hsel : ∀ e, sched_yield envs curenv = .env_run e →
      ((envs e).env_status = ENV_RUNNABLE ∨
        (curenv = some e ∧ (envs e).env_status = ENV_RUNNING ∧
          ∀ i, i < NENV → (envs i).env_status ≠ ENV_RUNNABLE)) := by
    intro e h
    unfold sched_yield at h
    split at h
    · rename_i e1 hl
      injection h with h
      subst h
      exact Or.inl (sched_yield_loop_some envs _ _ _ _ hl)
    · rename_i hl
      have hall := sched_yield_loop_full_none envs _ hl
      cases curenv with
      | none => simp at h
      | some c =>
        simp only [] at h
        split at h
        · rename_i hrun
          injection h with h
          subst h
          exact Or.inr ⟨rfl, hrun, hall⟩
        · cases h
  constructor
  · intro e h
    refine ⟨hsel e h, ?_⟩
    rcases hsel e h with hr | ⟨_, hr, _⟩
    · rw [hr]; decide
    · rw [hr]; decide
  · constructor
    · intro h
      unfold sched_yield at h
      split at h
      · cases h
      · rename_i hl
        refine ⟨sched_yield_loop_full_none envs _ hl, ?_⟩
        intro c hc
        subst hc
        simp only [] at h
        intro hrun
        rw [if_pos hrun] at h
        cases h
    · rintro ⟨hall, hcur⟩
      unfold sched_yield
      rw [sched_yield_loop_eq_none envs _ hall]
      cases curenv with
      | none => rfl
      | some c =>
        simp only []
        rw [if_neg (hcur c rfl)]

/-- Witness of C17 on the concrete state: no environment is ENV_RUNNABLE and
the caller in slot 0 is ENV_RUNNING, so `sched_yield` runs the caller again. -/
theorem sched_yield_selects_witness :
    sched_yield demoState.envs (some 0) = .env_run 0 ∧
    (demoState.envs 0).env_status ≠ ENV_DYING ∧
    ∀ i, i < NENV → (demoState.envs i).env_status ≠ ENV_RUNNABLE :=
  have hall : ∀ i, i < NENV → (demoState.envs i).env_status ≠ ENV_RUNNABLE := by
    intro i _
    unfold demoState
    simp only []
    split
    · decide
    · split <;> decide
  have hrun : sched_yield demoState.envs (some 0) = .env_run 0 := by
    unfold sched_yield
    rw [sched_yield_loop_eq_none demoState.envs _ hall]
    rfl
  have h := (sched_yield_selects demoState.envs (some 0)).1 0 hrun
  ⟨hrun, h.2.1, hall⟩

/-! ## The dispatcher and the system-call trap -/

/-- C18 (the code departs from the claim): the dispatcher `syscall` has no case
for SYS_cgetc (1), so the call falls to the default case and returns `-E_INVAL`
with the state unchanged, whatever is waiting on the console; `sys_cgetc`
itself, which is never called, would return the waiting character (here 0x61)
and 0 when there is none. -/
theorem syscall_cgetc_not_dispatched (s : KState) (a1 a2 a3 a4 a5 : Nat)
    (input : List Nat) :
    syscall s SYS_cgetc a1 a2 a3 a4 a5 = .ret (-E_INVAL) s ∧
    (sys_cgetc (0x61 :: input)).1 = 0x61 ∧ (sys_cgetc []).1 = 0 := by
  refine ⟨?_, rfl, rfl⟩
  unfold syscall
  rw [if_neg (by decide), if_neg (by decide), if_neg (by decide), if_neg (by decide),
    if_neg (by decide), if_neg (by decide), if_neg (by decide), if_neg (by decide),
    if_neg (by decide), if_neg (by decide), if_neg (by decide), if_neg (by decide)]

theorem page_insert_pgdirs_other (s : KState) (pgdir pp va perm d n : Nat)
    (hn : n ≠ PGNUM va) :
    (page_insert s pgdir pp va perm).2.pgdirs d n = s.pgdirs d n := by
  rcases page_insert_values s pgdir pp va perm with h | h
  · rw [page_insert_pgdirs _ _ _ _ _ _ _ h, if_neg (fun hc => hn hc.2)]
  · rw [h]

/-- What `sys_page_map` leaves alone: the environment table, `curenv`, and
every page-table entry of a page other than the page of `dstva`. -/
theorem sys_page_map_touch (s : KState) (srcenvid srcva dstenvid dstva perm : Nat) :
    (sys_page_map s srcenvid srcva dstenvid dstva perm).2.envs = s.envs ∧
    (sys_page_map s srcenvid srcva dstenvid dstva perm).2.curenv = s.curenv ∧
    ∀ d n, n ≠ PGNUM dstva →
      (sys_page_map s srcenvid srcva dstenvid dstva perm).2.pgdirs d n = s.pgdirs d n := by
  unfold sys_page_map
  split
  · exact ⟨rfl, rfl, fun _ _ _ => rfl⟩
  · split
    · exact ⟨rfl, rfl, fun _ _ _ => rfl⟩
    · split
      · exact ⟨rfl, rfl, fun _ _ _ => rfl⟩
      · split
        · exact ⟨rfl, rfl, fun _ _ _ => rfl⟩
        · split
          · exact ⟨rfl, rfl, fun _ _ _ => rfl⟩
          · split
            · exact ⟨rfl, rfl, fun _ _ _ => rfl⟩
            · split
              · exact ⟨rfl, rfl, fun _ _ _ => rfl⟩
              · simp only []
                split
                · exact ⟨(page_insert_frame _ _ _ _ _).1, (page_insert_frame _ _ _ _ _).2,
                    fun d n hn => page_insert_pgdirs_other _ _ _ _ _ d n hn⟩
                · exact ⟨(page_insert_frame _ _ _ _ _).1, (page_insert_frame _ _ _ _ _).2,
                    fun d n hn => page_insert_pgdirs_other _ _ _ _ _ d n hn⟩

theorem getpte_ne_zero (s : KState) (va : Nat) (h : getpte s va ≠ 0) :
    ∃ e, s.pgdirs (s.envs s.curenv).env_pgdir (PGNUM va) = some e := by
  unfold getpte page_lookup at h
  cases hl : s.pgdirs (s.envs s.curenv).env_pgdir (PGNUM va) with
  | none => rw [hl] at h; exact absurd rfl h
  | some e => exact ⟨e, rfl⟩

theorem sys_page_map_same_or_ok (s : KState) (srcenvid srcva dstenvid dstva perm : Nat) :
    (sys_page_map s srcenvid srcva dstenvid dstva perm).2 = s ∨
    (sys_page_map s srcenvid srcva dstenvid dstva perm).1 = 0 := by
  unfold sys_page_map
  split
  · exact Or.inl rfl
  split
  · exact Or.inl rfl
  split
  · exact Or.inl rfl
  split
  · exact Or.inl rfl
  split
  · exact Or.inl rfl
  split
  · exact Or.inl rfl
  split
  · exact Or.inl rfl
  rename_i pte _ _
  rcases page_insert_values s (s.envs _).env_pgdir pte.frame dstva perm with h0 | h0
  · right
    simp only []
    rw [if_neg (by rw [h0]; exact lt_irrefl _)]
  · left
    rw [h0]
    simp only []
    split <;> rfl

theorem sys_page_map_fail (s : KState) (srcenvid srcva dstenvid dstva perm : Nat)
    (h : (sys_page_map s srcenvid srcva dstenvid dstva perm).1 < 0) :
    (sys_page_map s srcenvid srcva dstenvid dstva perm).2 = s := by
  rcases sys_page_map_same_or_ok s srcenvid srcva dstenvid dstva perm with h0 | h0
  · exact h0
  · rw [h0] at h
    exact absurd h (lt_irrefl _)

theorem sys_page_map_entry (s : KState) (srcenvid srcva dstenvid dstva perm d n : Nat) :
    (sys_page_map s srcenvid srcva dstenvid dstva perm).2.pgdirs d n = s.pgdirs d n ∨
    ∃ pp, (sys_page_map s srcenvid srcva dstenvid dstva perm).2.pgdirs d n = some ⟨pp, perm⟩ := by
  cases hs : envid2env s srcenvid true with
  | error r => left; unfold sys_page_map; rw [hs]
  | ok se =>
    cases hd : envid2env s dstenvid true with
    | error r => left; unfold sys_page_map; rw [hs, hd]
    | ok de =>
      rcases sys_page_map_same_or_ok s srcenvid srcva dstenvid dstva perm with h0 | h0
      · left; rw [h0]
      · obtain ⟨_, _, pte, _, hins, heq⟩ := sys_page_map_ok s srcenvid srcva dstenvid dstva perm se de hs hd h0
        rw [heq, page_insert_pgdirs _ _ _ _ _ _ _ hins]
        by_cases hc : d = (s.envs de).env_pgdir ∧ n = PGNUM dstva
        · right; exact ⟨pte.frame, by rw [if_pos hc]⟩
        · left; rw [if_neg hc]


theorem PTE_PERM_getpte (s : KState) (va : Nat) (e : PTE)
    (h : page_lookup s (s.envs s.curenv).env_pgdir va = some e) (m : Nat) (hm : m < 4096) :
    PTE_PERM (getpte s va) &&& m = e.perm &&& m := by
  unfold getpte PTE_PERM
  rw [h]
  simp only []
  have h1 : ∀ x : Nat, x &&& 0xFFF = x % 4096 := fun x => Nat.and_pow_two_sub_one_eq_mod x 12
  have h2 : (e.frame * PGSIZE + e.perm % PGSIZE) % 4096 = e.perm % 4096 := by
    unfold PGSIZE
    omega
  rw [h1, h2, ← h1, Nat.land_assoc]
  congr 1
  rw [Nat.land_comm, h1]
  exact Nat.mod_eq_of_lt hm

theorem duppage_entry (s : KState) (envid pn d n : Nat) :
    (duppage s envid pn).state.pgdirs d n = s.pgdirs d n ∨
    ∃ pp, (duppage s envid pn).state.pgdirs d n = some ⟨pp, PTE_COW ||| PTE_U ||| PTE_P⟩ ∨
      (duppage s envid pn).state.pgdirs d n = some ⟨pp, PTE_U ||| PTE_P⟩ := by
  unfold duppage
  split
  · exact Or.inl rfl
  split
  · exact Or.inl rfl
  split
  · exact Or.inl rfl
  split
  · simp only []
    generalize hr1 : sys_page_map s (s.envs s.curenv).env_id ((pn * 2 ^ PTXSHIFT) % 2 ^ 32)
      envid ((pn * 2 ^ PTXSHIFT) % 2 ^ 32) (PTE_COW ||| PTE_U ||| PTE_P) = r1
    have e1 := sys_page_map_entry s (s.envs s.curenv).env_id ((pn * 2 ^ PTXSHIFT) % 2 ^ 32)
      envid ((pn * 2 ^ PTXSHIFT) % 2 ^ 32) (PTE_COW ||| PTE_U ||| PTE_P) d n
    rw [hr1] at e1
    have e2 := sys_page_map_entry r1.2 (r1.2.envs r1.2.curenv).env_id
      ((pn * 2 ^ PTXSHIFT) % 2 ^ 32) (r1.2.envs r1.2.curenv).env_id
      ((pn * 2 ^ PTXSHIFT) % 2 ^ 32) (PTE_COW ||| PTE_U ||| PTE_P) d n
    have key : ∀ t : KState, (t.pgdirs d n = r1.2.pgdirs d n ∨
        ∃ pp, t.pgdirs d n = some ⟨pp, PTE_COW ||| PTE_U ||| PTE_P⟩) →
        (t.pgdirs d n = s.pgdirs d n ∨
          ∃ pp, t.pgdirs d n = some ⟨pp, PTE_COW ||| PTE_U ||| PTE_P⟩ ∨
            t.pgdirs d n = some ⟨pp, PTE_U ||| PTE_P⟩) := by
      intro t ht
      rcases ht with ht | ⟨pp, ht⟩
      · rcases e1 with e1 | ⟨pp, e1⟩
        · exact Or.inl (ht.trans e1)
        · exact Or.inr ⟨pp, Or.inl (ht.trans e1)⟩
      · exact Or.inr ⟨pp, Or.inl ht⟩
    split
    · exact key _ (Or.inl rfl)
    · split
      · exact key _ e2
      · exact key _ e2
  · simp only []
    have e1 := sys_page_map_entry s (s.envs s.curenv).env_id ((pn * 2 ^ PTXSHIFT) % 2 ^ 32)
      envid ((pn * 2 ^ PTXSHIFT) % 2 ^ 32) (PTE_U ||| PTE_P) d n
    have key : (sys_page_map s (s.envs s.curenv).env_id ((pn * 2 ^ PTXSHIFT) % 2 ^ 32)
      envid ((pn * 2 ^ PTXSHIFT) % 2 ^ 32) (PTE_U ||| PTE_P)).2.pgdirs d n = s.pgdirs d n ∨
      ∃ pp, (sys_page_map s (s.envs s.curenv).env_id ((pn * 2 ^ PTXSHIFT) % 2 ^ 32)
        envid ((pn * 2 ^ PTXSHIFT) % 2 ^ 32) (PTE_U ||| PTE_P)).2.pgdirs d n =
          some ⟨pp, PTE_COW ||| PTE_U ||| PTE_P⟩ ∨
        (sys_page_map s (s.envs s.curenv).env_id ((pn * 2 ^ PTXSHIFT) % 2 ^ 32)
        envid ((pn * 2 ^ PTXSHIFT) % 2 ^ 32) (PTE_U ||| PTE_P)).2.pgdirs d n =
          some ⟨pp, PTE_U ||| PTE_P⟩ := by
      rcases e1 with e1 | ⟨pp, e1⟩
      · exact Or.inl e1
      · exact Or.inr ⟨pp, Or.inr e1⟩
    split
    · exact key
    · exact key

theorem duppage_cow_branch (s : KState) (envid pn : Nat)
    (hlt : (pn * 2 ^ PTXSHIFT) % 2 ^ 32 < UTOP)
    (hU : PTE_PERM (getpte s ((pn * 2 ^ PTXSHIFT) % 2 ^ 32)) &&& PTE_U ≠ 0)
    (hP : PTE_PERM (getpte s ((pn * 2 ^ PTXSHIFT) % 2 ^ 32)) &&& PTE_P ≠ 0)
    (hW : PTE_PERM (getpte s ((pn * 2 ^ PTXSHIFT) % 2 ^ 32)) &&& PTE_W ≠ 0 ∨
      PTE_PERM (getpte s ((pn * 2 ^ PTXSHIFT) % 2 ^ 32)) &&& PTE_COW ≠ 0) :
    duppage s envid pn =
      if (sys_page_map s (s.envs s.curenv).env_id ((pn * 2 ^ PTXSHIFT) % 2 ^ 32)
          envid ((pn * 2 ^ PTXSHIFT) % 2 ^ 32) (PTE_COW ||| PTE_U ||| PTE_P)).1 < 0 then
        .ret (sys_page_map s (s.envs s.curenv).env_id ((pn * 2 ^ PTXSHIFT) % 2 ^ 32)
          envid ((pn * 2 ^ PTXSHIFT) % 2 ^ 32) (PTE_COW ||| PTE_U ||| PTE_P)).1 s
      else
        .ret
          (if (sys_page_map
              (sys_page_map s (s.envs s.curenv).env_id ((pn * 2 ^ PTXSHIFT) % 2 ^ 32)
                envid ((pn * 2 ^ PTXSHIFT) % 2 ^ 32) (PTE_COW ||| PTE_U ||| PTE_P)).2
              (s.envs s.curenv).env_id ((pn * 2 ^ PTXSHIFT) % 2 ^ 32)
              (s.envs s.curenv).env_id ((pn * 2 ^ PTXSHIFT) % 2 ^ 32)
              (PTE_COW ||| PTE_U ||| PTE_P)).1 < 0 then
            (sys_page_map
              (sys_page_map s (s.envs s.curenv).env_id ((pn * 2 ^ PTXSHIFT) % 2 ^ 32)
                envid ((pn * 2 ^ PTXSHIFT) % 2 ^ 32) (PTE_COW ||| PTE_U ||| PTE_P)).2
              (s.envs s.curenv).env_id ((pn * 2 ^ PTXSHIFT) % 2 ^ 32)
              (s.envs s.curenv).env_id ((pn * 2 ^ PTXSHIFT) % 2 ^ 32)
              (PTE_COW ||| PTE_U ||| PTE_P)).1
           else 0)
          (sys_page_map
              (sys_page_map s (s.envs s.curenv).env_id ((pn * 2 ^ PTXSHIFT) % 2 ^ 32)
                envid ((pn * 2 ^ PTXSHIFT) % 2 ^ 32) (PTE_COW ||| PTE_U ||| PTE_P)).2
              (s.envs s.curenv).env_id ((pn * 2 ^ PTXSHIFT) % 2 ^ 32)
              (s.envs s.curenv).env_id ((pn * 2 ^ PTXSHIFT) % 2 ^ 32)
              (PTE_COW ||| PTE_U ||| PTE_P)).2 := by
  have hT := sys_page_map_touch s (s.envs s.curenv).env_id ((pn * 2 ^ PTXSHIFT) % 2 ^ 32)
    envid ((pn * 2 ^ PTXSHIFT) % 2 ^ 32) (PTE_COW ||| PTE_U ||| PTE_P)
  have hne : getpte s ((pn * 2 ^ PTXSHIFT) % 2 ^ 32) ≠ 0 := by
    intro h0
    apply hU
    rw [h0]
    unfold PTE_PERM
    simp
  unfold duppage
  rw [if_neg (not_le.mpr hlt), if_neg hne, if_neg (not_or.mpr ⟨hU, hP⟩), if_pos hW]
  simp only []
  rw [hT.1, hT.2.1]
  by_cases h1 : (sys_page_map s (s.envs s.curenv).env_id ((pn * 2 ^ PTXSHIFT) % 2 ^ 32)
          envid ((pn * 2 ^ PTXSHIFT) % 2 ^ 32) (PTE_COW ||| PTE_U ||| PTE_P)).1 < 0
  · rw [if_pos h1, if_pos h1, sys_page_map_fail _ _ _ _ _ _ h1]
  · rw [if_neg h1, if_neg h1]
    split <;> rfl


theorem page_decref_pt_nomem (s : KState) (pp : Nat) :
    (page_decref s pp).pt_nomem = s.pt_nomem := by
  unfold page_decref page_free
  split <;> rfl

theorem page_remove_pt_nomem (s : KState) (pgdir va : Nat) :
    (page_remove s pgdir va).pt_nomem = s.pt_nomem := by
  unfold page_remove
  split
  · rfl
  · rw [page_decref_pt_nomem]

theorem page_insert_ok (s : KState) (pgdir pp va perm : Nat)
    (h : s.pt_nomem pgdir (PGNUM va) = false) :
    (page_insert s pgdir pp va perm).1 = 0 ∧
    (page_insert s pgdir pp va perm).2.pt_nomem = s.pt_nomem := by
  unfold page_insert
  rw [if_neg (by rw [h]; decide)]
  refine ⟨rfl, ?_⟩
  show (page_remove _ pgdir va).pt_nomem = s.pt_nomem
  rw [page_remove_pt_nomem]

theorem page_insert_pt_nomem (s : KState) (pgdir pp va perm : Nat) :
    (page_insert s pgdir pp va perm).2.pt_nomem = s.pt_nomem := by
  rcases page_insert_values s pgdir pp va perm with h | h
  · unfold page_insert at h ⊢
    by_cases hm : s.pt_nomem pgdir (PGNUM va) = true
    · rw [if_pos hm]
    · rw [if_neg hm]
      show (page_remove _ pgdir va).pt_nomem = s.pt_nomem
      rw [page_remove_pt_nomem]
  · rw [h]

/-- What a `sys_page_map` without PTE_W in `perm` does once its environments
resolve, its addresses pass the check and the source page is mapped: it fails
only for lack of memory, and on success the destination maps the source frame
with `perm`, every other entry being unchanged. -/
theorem sys_page_map_mapped (s : KState) (srcenvid srcva dstenvid dstva perm se de : Nat)
    (pte : PTE)
    (hs : envid2env s srcenvid true = .ok se) (hd : envid2env s dstenvid true = .ok de)
    (ha : check_va_bound_round srcva = 0) (hb : check_va_bound_round dstva = 0)
    (hp : check_user_page_perm perm = 0)
    (hl : page_lookup s (s.envs se).env_pgdir srcva = some pte)
    (hw : perm &&& PTE_W = 0) :
    (s.pt_nomem (s.envs de).env_pgdir (PGNUM dstva) = false →
      (sys_page_map s srcenvid srcva dstenvid dstva perm).1 = 0) ∧
    (¬ (sys_page_map s srcenvid srcva dstenvid dstva perm).1 < 0 →
      (sys_page_map s srcenvid srcva dstenvid dstva perm).1 = 0 ∧
      (sys_page_map s srcenvid srcva dstenvid dstva perm).2.envs = s.envs ∧
      (sys_page_map s srcenvid srcva dstenvid dstva perm).2.curenv = s.curenv ∧
      (sys_page_map s srcenvid srcva dstenvid dstva perm).2.pt_nomem = s.pt_nomem ∧
      ∀ D n, (sys_page_map s srcenvid srcva dstenvid dstva perm).2.pgdirs D n =
        if D = (s.envs de).env_pgdir ∧ n = PGNUM dstva then some ⟨pte.frame, perm⟩
        else s.pgdirs D n) := by
  have heq := sys_page_map_checked s srcenvid srcva dstenvid dstva perm se de hs hd ha hb hp
  rw [hl] at heq
  simp only [] at heq
  rw [if_neg (fun hc => hc.1 hw)] at heq
  rw [heq]
  constructor
  · intro hm
    have hi := page_insert_ok s (s.envs de).env_pgdir pte.frame dstva perm hm
    rw [if_neg (by rw [hi.1]; exact lt_irrefl _)]
  · intro hnot
    rcases page_insert_values s (s.envs de).env_pgdir pte.frame dstva perm with h0 | h0
    · rw [if_neg (by rw [h0]; exact lt_irrefl _)] at hnot ⊢
      refine ⟨rfl, (page_insert_frame _ _ _ _ _).1, (page_insert_frame _ _ _ _ _).2,
        page_insert_pt_nomem _ _ _ _ _, fun D n => ?_⟩
      exact page_insert_pgdirs _ _ _ _ _ _ _ h0
    · exfalso
      apply hnot
      rw [h0]
      simp only []
      rw [if_pos (by decide : (-E_NO_MEM : Int) < 0)]
      exact (by decide : (-E_NO_MEM : Int) < 0)

theorem duppage_pva_checked (pn : Nat) (hlt : (pn * 2 ^ PTXSHIFT) % 2 ^ 32 < UTOP) :
    check_va_bound_round ((pn * 2 ^ PTXSHIFT) % 2 ^ 32) = 0 := by
  apply check_va_bound_round_pass (le_of_lt hlt)
  unfold PTXSHIFT PGSIZE
  omega

theorem duppage_cow_result (s : KState) (envid pn d : Nat) (e : PTE)
    (hlt : (pn * 2 ^ PTXSHIFT) % 2 ^ 32 < UTOP)
    (he : page_lookup s (s.envs s.curenv).env_pgdir ((pn * 2 ^ PTXSHIFT) % 2 ^ 32) = some e)
    (hself : envid2env s (s.envs s.curenv).env_id true = .ok s.curenv)
    (hd : envid2env s envid true = .ok d) :
    (¬ (sys_page_map s (s.envs s.curenv).env_id ((pn * 2 ^ PTXSHIFT) % 2 ^ 32)
        envid ((pn * 2 ^ PTXSHIFT) % 2 ^ 32) (PTE_COW ||| PTE_U ||| PTE_P)).1 < 0 →
      (∀ D n, (sys_page_map s (s.envs s.curenv).env_id ((pn * 2 ^ PTXSHIFT) % 2 ^ 32)
          envid ((pn * 2 ^ PTXSHIFT) % 2 ^ 32) (PTE_COW ||| PTE_U ||| PTE_P)).2.pgdirs D n =
        if D = (s.envs d).env_pgdir ∧ n = PGNUM ((pn * 2 ^ PTXSHIFT) % 2 ^ 32) then
          some ⟨e.frame, PTE_COW ||| PTE_U ||| PTE_P⟩
        else s.pgdirs D n) ∧
      (¬ (sys_page_map
          (sys_page_map s (s.envs s.curenv).env_id ((pn * 2 ^ PTXSHIFT) % 2 ^ 32)
            envid ((pn * 2 ^ PTXSHIFT) % 2 ^ 32) (PTE_COW ||| PTE_U ||| PTE_P)).2
          (s.envs s.curenv).env_id ((pn * 2 ^ PTXSHIFT) % 2 ^ 32)
          (s.envs s.curenv).env_id ((pn * 2 ^ PTXSHIFT) % 2 ^ 32)
          (PTE_COW ||| PTE_U ||| PTE_P)).1 < 0 →
        ∀ D n, (sys_page_map
          (sys_page_map s (s.envs s.curenv).env_id ((pn * 2 ^ PTXSHIFT) % 2 ^ 32)
            envid ((pn * 2 ^ PTXSHIFT) % 2 ^ 32) (PTE_COW ||| PTE_U ||| PTE_P)).2
          (s.envs s.curenv).env_id ((pn * 2 ^ PTXSHIFT) % 2 ^ 32)
          (s.envs s.curenv).env_id ((pn * 2 ^ PTXSHIFT) % 2 ^ 32)
          (PTE_COW ||| PTE_U ||| PTE_P)).2.pgdirs D n =
        if (D = (s.envs s.curenv).env_pgdir ∨ D = (s.envs d).env_pgdir) ∧
            n = PGNUM ((pn * 2 ^ PTXSHIFT) % 2 ^ 32) then
          some ⟨e.frame, PTE_COW ||| PTE_U ||| PTE_P⟩
        else s.pgdirs D n)) ∧
    (s.pt_nomem (s.envs d).env_pgdir (PGNUM ((pn * 2 ^ PTXSHIFT) % 2 ^ 32)) = false →
      s.pt_nomem (s.envs s.curenv).env_pgdir (PGNUM ((pn * 2 ^ PTXSHIFT) % 2 ^ 32)) = false →
      (sys_page_map s (s.envs s.curenv).env_id ((pn * 2 ^ PTXSHIFT) % 2 ^ 32)
        envid ((pn * 2 ^ PTXSHIFT) % 2 ^ 32) (PTE_COW ||| PTE_U ||| PTE_P)).1 = 0 ∧
      (sys_page_map
          (sys_page_map s (s.envs s.curenv).env_id ((pn * 2 ^ PTXSHIFT) % 2 ^ 32)
            envid ((pn * 2 ^ PTXSHIFT) % 2 ^ 32) (PTE_COW ||| PTE_U ||| PTE_P)).2
          (s.envs s.curenv).env_id ((pn * 2 ^ PTXSHIFT) % 2 ^ 32)
          (s.envs s.curenv).env_id ((pn * 2 ^ PTXSHIFT) % 2 ^ 32)
          (PTE_COW ||| PTE_U ||| PTE_P)).1 = 0) := by
  have ha := duppage_pva_checked pn hlt
  have hp : check_user_page_perm (PTE_COW ||| PTE_U ||| PTE_P) = 0 := by decide
  have hw : (PTE_COW ||| PTE_U ||| PTE_P) &&& PTE_W = 0 := by decide
  have h1 := sys_page_map_mapped s (s.envs s.curenv).env_id ((pn * 2 ^ PTXSHIFT) % 2 ^ 32)
    envid ((pn * 2 ^ PTXSHIFT) % 2 ^ 32) (PTE_COW ||| PTE_U ||| PTE_P) s.curenv d e hself hd
    ha ha hp he hw
  generalize hc : sys_page_map s (s.envs s.curenv).env_id ((pn * 2 ^ PTXSHIFT) % 2 ^ 32)
    envid ((pn * 2 ^ PTXSHIFT) % 2 ^ 32) (PTE_COW ||| PTE_U ||| PTE_P) = child at h1 ⊢
  have second : ¬ child.1 < 0 →
      ∃ e2 : PTE, e2.frame = e.frame ∧
        page_lookup child.2 (child.2.envs s.curenv).env_pgdir
          ((pn * 2 ^ PTXSHIFT) % 2 ^ 32) = some e2 ∧
        envid2env child.2 (s.envs s.curenv).env_id true = .ok s.curenv := by
    intro hn
    obtain ⟨_, henv, hcur, _, hpg⟩ := h1.2 hn
    have hid : envid2env child.2 (s.envs s.curenv).env_id true = .ok s.curenv := by
      rw [envid2env_congr s child.2 _ _ henv hcur]
      exact hself
    unfold page_lookup
    rw [henv, hpg]
    by_cases hD : (s.envs s.curenv).env_pgdir = (s.envs d).env_pgdir ∧
        PGNUM ((pn * 2 ^ PTXSHIFT) % 2 ^ 32) = PGNUM ((pn * 2 ^ PTXSHIFT) % 2 ^ 32)
    · rw [if_pos hD]
      exact ⟨⟨e.frame, PTE_COW ||| PTE_U ||| PTE_P⟩, rfl, rfl, hid⟩
    · rw [if_neg hD]
      exact ⟨e, rfl, he, hid⟩
  refine ⟨fun hn => ?_, fun hm1 hm2 => ?_⟩
  · obtain ⟨_, henv, hcur, _, hpg⟩ := h1.2 hn
    refine ⟨hpg, fun hn2 => ?_⟩
    obtain ⟨e2, hfr, hl2, hid⟩ := second hn
    have h2 := sys_page_map_mapped child.2 (s.envs s.curenv).env_id
      ((pn * 2 ^ PTXSHIFT) % 2 ^ 32) (s.envs s.curenv).env_id ((pn * 2 ^ PTXSHIFT) % 2 ^ 32)
      (PTE_COW ||| PTE_U ||| PTE_P) s.curenv s.curenv e2 hid hid ha ha hp hl2 hw
    obtain ⟨_, _, _, _, hpg2⟩ := h2.2 hn2
    intro D n
    rw [hpg2, hpg, henv, hfr]
    by_cases hn1 : n = PGNUM ((pn * 2 ^ PTXSHIFT) % 2 ^ 32)
    · by_cases hD1 : D = (s.envs s.curenv).env_pgdir
      · rw [if_pos ⟨hD1, hn1⟩, if_pos ⟨Or.inl hD1, hn1⟩]
      · rw [if_neg (fun h => hD1 h.1)]
        by_cases hD2 : D = (s.envs d).env_pgdir
        · rw [if_pos ⟨hD2, hn1⟩, if_pos ⟨Or.inr hD2, hn1⟩]
        · rw [if_neg (fun h => hD2 h.1), if_neg (fun h => h.1.elim hD1 hD2)]
    · rw [if_neg (fun h => hn1 h.2), if_neg (fun h => hn1 h.2), if_neg (fun h => hn1 h.2)]
  · have hc1 := h1.1 hm1
    have hn : ¬ child.1 < 0 := by rw [hc1]; exact lt_irrefl _
    obtain ⟨_, henv, hcur, hnm, _⟩ := h1.2 hn
    obtain ⟨e2, _, hl2, hid⟩ := second hn
    have h2 := sys_page_map_mapped child.2 (s.envs s.curenv).env_id
      ((pn * 2 ^ PTXSHIFT) % 2 ^ 32) (s.envs s.curenv).env_id ((pn * 2 ^ PTXSHIFT) % 2 ^ 32)
      (PTE_COW ||| PTE_U ||| PTE_P) s.curenv s.curenv e2 hid hid ha ha hp hl2 hw
    exact ⟨hc1, h2.1 (by rw [hnm, henv]; exact hm2)⟩

/-- C21: for a present user page below UTOP whose entry (frame `e.frame`) has
PTE_W or PTE_COW, in a caller whose id resolves to itself and with `envid`
resolving to the child `d`.  `duppage` first calls `sys_page_map` into the child
with the permissions exactly `PTE_P|PTE_U|PTE_COW`.  When that call fails
`duppage` returns its error with the whole state, the caller's mapping
included, as it was.  When it succeeds, the child maps the frame with
`PTE_P|PTE_U|PTE_COW` and no other entry has changed yet, the caller's own entry
included when its page table is not the child's; only then, in that state,
`duppage` maps the page onto itself in the caller with the same permissions.
Whenever `duppage` returns without error it returns 0 and both the caller and
the child map the frame with `PTE_P|PTE_U|PTE_COW`, every other entry being
unchanged; it does so whenever there is memory for the two page tables.  Every
page-table entry that `duppage` changes holds a mapping that does not have both
PTE_COW and PTE_W. -/
theorem duppage_child_before_parent (s : KState) (envid pn d : Nat) (e : PTE)
    (hlt : (pn * 2 ^ PTXSHIFT) % 2 ^ 32 < UTOP)
    (he : page_lookup s (s.envs s.curenv).env_pgdir ((pn * 2 ^ PTXSHIFT) % 2 ^ 32) = some e)
    (hP : e.perm &&& PTE_P ≠ 0) (hU : e.perm &&& PTE_U ≠ 0)
    (hW : e.perm &&& PTE_W ≠ 0 ∨ e.perm &&& PTE_COW ≠ 0)
    (hself : envid2env s (s.envs s.curenv).env_id true = .ok s.curenv)
    (hd : envid2env s envid true = .ok d) :
    ((sys_page_map s (s.envs s.curenv).env_id ((pn * 2 ^ PTXSHIFT) % 2 ^ 32)
        envid ((pn * 2 ^ PTXSHIFT) % 2 ^ 32) (PTE_P ||| PTE_U ||| PTE_COW)).1 < 0 →
      duppage s envid pn =
        .ret (sys_page_map s (s.envs s.curenv).env_id ((pn * 2 ^ PTXSHIFT) % 2 ^ 32)
        envid ((pn * 2 ^ PTXSHIFT) % 2 ^ 32) (PTE_P ||| PTE_U ||| PTE_COW)).1 s) ∧
    (¬ (sys_page_map s (s.envs s.curenv).env_id ((pn * 2 ^ PTXSHIFT) % 2 ^ 32)
        envid ((pn * 2 ^ PTXSHIFT) % 2 ^ 32) (PTE_P ||| PTE_U ||| PTE_COW)).1 < 0 →
      (∀ D n, (sys_page_map s (s.envs s.curenv).env_id ((pn * 2 ^ PTXSHIFT) % 2 ^ 32)
        envid ((pn * 2 ^ PTXSHIFT) % 2 ^ 32) (PTE_P ||| PTE_U ||| PTE_COW)).2.pgdirs D n =
        if D = (s.envs d).env_pgdir ∧ n = PGNUM ((pn * 2 ^ PTXSHIFT) % 2 ^ 32) then
          some ⟨e.frame, PTE_P ||| PTE_U ||| PTE_COW⟩
        else s.pgdirs D n) ∧
      duppage s envid pn =
        .ret
          (if (sys_page_map
          (sys_page_map s (s.envs s.curenv).env_id ((pn * 2 ^ PTXSHIFT) % 2 ^ 32)
        envid ((pn * 2 ^ PTXSHIFT) % 2 ^ 32) (PTE_P ||| PTE_U ||| PTE_COW)).2
          (s.envs s.curenv).env_id ((pn * 2 ^ PTXSHIFT) % 2 ^ 32)
          (s.envs s.curenv).env_id ((pn * 2 ^ PTXSHIFT) % 2 ^ 32)
          (PTE_P ||| PTE_U ||| PTE_COW)).1 < 0 then
            (sys_page_map
          (sys_page_map s (s.envs s.curenv).env_id ((pn * 2 ^ PTXSHIFT) % 2 ^ 32)
        envid ((pn * 2 ^ PTXSHIFT) % 2 ^ 32) (PTE_P ||| PTE_U ||| PTE_COW)).2
          (s.envs s.curenv).env_id ((pn * 2 ^ PTXSHIFT) % 2 ^ 32)
          (s.envs s.curenv).env_id ((pn * 2 ^ PTXSHIFT) % 2 ^ 32)
          (PTE_P ||| PTE_U ||| PTE_COW)).1
           else 0)
          (sys_page_map
          (sys_page_map s (s.envs s.curenv).env_id ((pn * 2 ^ PTXSHIFT) % 2 ^ 32)
        envid ((pn * 2 ^ PTXSHIFT) % 2 ^ 32) (PTE_P ||| PTE_U ||| PTE_COW)).2
          (s.envs s.curenv).env_id ((pn * 2 ^ PTXSHIFT) % 2 ^ 32)
          (s.envs s.curenv).env_id ((pn * 2 ^ PTXSHIFT) % 2 ^ 32)
          (PTE_P ||| PTE_U ||| PTE_COW)).2) ∧
    (∀ r t, duppage s envid pn = .ret r t → ¬ r < 0 →
      r = 0 ∧
      ∀ D n, t.pgdirs D n =
        if (D = (s.envs s.curenv).env_pgdir ∨ D = (s.envs d).env_pgdir) ∧
            n = PGNUM ((pn * 2 ^ PTXSHIFT) % 2 ^ 32) then
          some ⟨e.frame, PTE_P ||| PTE_U ||| PTE_COW⟩
        else s.pgdirs D n) ∧
    (s.pt_nomem (s.envs d).env_pgdir (PGNUM ((pn * 2 ^ PTXSHIFT) % 2 ^ 32)) = false →
      s.pt_nomem (s.envs s.curenv).env_pgdir (PGNUM ((pn * 2 ^ PTXSHIFT) % 2 ^ 32)) = false →
      ∃ t, duppage s envid pn = .ret 0 t) ∧
    ∀ D n, (duppage s envid pn).state.pgdirs D n = s.pgdirs D n ∨
      ∃ q, (duppage s envid pn).state.pgdirs D n = some q ∧
        ¬ (q.perm &&& PTE_COW ≠ 0 ∧ q.perm &&& PTE_W ≠ 0) := by
  have hperm : PTE_P ||| PTE_U ||| PTE_COW = PTE_COW ||| PTE_U ||| PTE_P := by decide
  have hU1 := PTE_PERM_getpte s _ e he PTE_U (by decide)
  have hP1 := PTE_PERM_getpte s _ e he PTE_P (by decide)
  have hW1 := PTE_PERM_getpte s _ e he PTE_W (by decide)
  have hC1 := PTE_PERM_getpte s _ e he PTE_COW (by decide)
  have hb := duppage_cow_branch s envid pn hlt (by rw [hU1]; exact hU) (by rw [hP1]; exact hP)
    (by rw [hW1, hC1]; exact hW)
  have hres := duppage_cow_result s envid pn d e hlt he hself hd
  rw [hperm]
  generalize hc : sys_page_map s (s.envs s.curenv).env_id ((pn * 2 ^ PTXSHIFT) % 2 ^ 32)
    envid ((pn * 2 ^ PTXSHIFT) % 2 ^ 32) (PTE_COW ||| PTE_U ||| PTE_P) = child at hb hres ⊢
  generalize hq : sys_page_map child.2 (s.envs s.curenv).env_id ((pn * 2 ^ PTXSHIFT) % 2 ^ 32)
    (s.envs s.curenv).env_id ((pn * 2 ^ PTXSHIFT) % 2 ^ 32) (PTE_COW ||| PTE_U ||| PTE_P) = parent at hb hres ⊢
  refine ⟨fun h1 => ?_, fun h1 => ⟨(hres.1 h1).1, ?_⟩, fun r t hrt hr => ?_, fun hm1 hm2 => ?_,
    fun D n => ?_⟩
  · rw [hb, if_pos h1]
  · rw [hb, if_neg h1]
  · rw [hb] at hrt
    by_cases h1 : child.1 < 0
    · rw [if_pos h1] at hrt
      injection hrt with hr1 _
      rw [hr1] at h1
      exact absurd h1 hr
    · rw [if_neg h1] at hrt
      injection hrt with hr1 hr2
      by_cases h2 : parent.1 < 0
      · rw [if_pos h2] at hr1
        rw [hr1] at h2
        exact absurd h2 hr
      · rw [if_neg h2] at hr1
        refine ⟨hr1.symm, ?_⟩
        rw [← hr2]
        exact (hres.1 h1).2 h2
  · obtain ⟨h1, h2⟩ := hres.2 hm1 hm2
    rw [hb, if_neg (by rw [h1]; exact lt_irrefl _), if_neg (by rw [h2]; exact lt_irrefl _)]
    exact ⟨_, rfl⟩
  · rcases duppage_entry s envid pn D n with h | ⟨pp, h | h⟩
    · exact Or.inl h
    · exact Or.inr ⟨_, h,
        (by decide : ¬ ((PTE_COW ||| PTE_U ||| PTE_P) &&& PTE_COW ≠ 0 ∧
          (PTE_COW ||| PTE_U ||| PTE_P) &&& PTE_W ≠ 0))⟩
    · exact Or.inr ⟨_, h,
        (by decide : ¬ ((PTE_U ||| PTE_P) &&& PTE_COW ≠ 0 ∧ (PTE_U ||| PTE_P) &&& PTE_W ≠ 0))⟩

/-- Witness of C21: the caller of the concrete state duplicates its writable
page 2 (frame 8) into its child 0x1001 (slot 1, page directory 101).  `duppage`
returns 0; afterwards the child and the caller both map frame 8 copy-on-write
at page 2, and the caller's read-only page 1 is as it was. -/
theorem duppage_child_before_parent_witness :
    ∃ t, duppage demoState 0x1001 2 = .ret 0 t ∧
      t.pgdirs 101 2 = some ⟨8, PTE_P ||| PTE_U ||| PTE_COW⟩ ∧
      t.pgdirs 100 2 = some ⟨8, PTE_P ||| PTE_U ||| PTE_COW⟩ ∧
      t.pgdirs 100 1 = some ⟨7, PTE_P ||| PTE_U⟩ := by
  have h := duppage_child_before_parent demoState 0x1001 2 1 ⟨8, PTE_P ||| PTE_U ||| PTE_W⟩
    (by decide) (by decide) (by decide) (by decide) (Or.inl (by decide)) rfl rfl
  obtain ⟨t, ht⟩ := h.2.2.2.1 rfl rfl
  have h3 := (h.2.2.1 0 t ht (lt_irrefl _)).2
  refine ⟨t, ht, ?_, ?_, ?_⟩
  · rw [h3 101 2]
    decide
  · rw [h3 100 2]
    decide
  · rw [h3 100 1]
    decide

/-! ## pgfault -/

theorem pgfault_panic_early (s : KState) (mem : Nat → Nat → Nat) (utf : UTrapframe)
    (h : utf.utf_err &&& FEC_WR = 0 ∨ getpte s utf.utf_fault_va = 0 ∨
      PTE_PERM (getpte s utf.utf_fault_va) &&& PTE_COW = 0) :
    pgfault s mem utf = (⟨.panicked, s, []⟩, mem) := by
  unfold pgfault
  by_cases h1 : utf.utf_err &&& FEC_WR = 0
  · rw [if_pos h1]
  rw [if_neg h1]
  by_cases h2 : getpte s utf.utf_fault_va = 0
  · rw [if_pos h2]
  rw [if_neg h2]
  rcases h with h | h | h
  · exact absurd h h1
  · exact absurd h h2
  · rw [if_pos h]

/-- C22: `pgfault` panics, having made no system call and changed nothing, on
every fault that is not a write (FEC_WR clear in `utf_err`) and on every fault
at an address whose page has no entry in the caller's page table or an entry
without PTE_COW. -/
theorem pgfault_fatal (s : KState) (mem : Nat → Nat → Nat) (utf : UTrapframe)
    (h : utf.utf_err &&& FEC_WR = 0 ∨
      page_lookup s (s.envs s.curenv).env_pgdir utf.utf_fault_va = none ∨
      ∃ e, page_lookup s (s.envs s.curenv).env_pgdir utf.utf_fault_va = some e ∧
        e.perm &&& PTE_COW = 0) :
    (pgfault s mem utf).1.status = .panicked ∧ (pgfault s mem utf).1.calls = [] ∧
    (pgfault s mem utf).1.s = s ∧ (pgfault s mem utf).2 = mem := by
  have key : pgfault s mem utf = (⟨.panicked, s, []⟩, mem) := by
    apply pgfault_panic_early
    rcases h with h | h | ⟨e, he, hc⟩
    · exact Or.inl h
    · right; left
      unfold getpte
      rw [h]
    · right; right
      rw [PTE_PERM_getpte s _ e he PTE_COW (by decide)]
      exact hc
  rw [key]
  exact ⟨rfl, rfl, rfl, rfl⟩

/-- Witness of C22: a read fault (error code 5) of the caller of the concrete
state at its writable page 2. -/
theorem pgfault_fatal_witness :
    (pgfault demoState demoMem { utfWrite with utf_fault_va := 0x2000, utf_err := 5 }).1.status =
      .panicked ∧
    (pgfault demoState demoMem { utfWrite with utf_fault_va := 0x2000, utf_err := 5 }).1.calls =
      [] :=
  have h := pgfault_fatal demoState demoMem { utfWrite with utf_fault_va := 0x2000, utf_err := 5 }
    (Or.inl (by decide))
  ⟨h.1, h.2.1⟩

/-! ## pgfault: the copy -/

theorem PGNUM_ROUNDDOWN (a : Nat) : PGNUM (ROUNDDOWN a 4096) = PGNUM a := by
  unfold PGNUM ROUNDDOWN PGSIZE
  omega

theorem sys_page_alloc_self_run (s : KState) (va perm pp : Nat) (rest : List Nat)
    (hva : check_va_bound_round va = 0) (hperm : check_user_page_perm perm = 0)
    (hfree : s.page_free_list = pp :: rest)
    (hmem : s.pt_nomem (s.envs s.curenv).env_pgdir (PGNUM va) = false) :
    sys_page_alloc s 0 va perm =
      (0, (page_insert { s with page_free_list := rest } (s.envs s.curenv).env_pgdir
        pp va perm).2) := by
  have hi := page_insert_ok { s with page_free_list := rest } (s.envs s.curenv).env_pgdir
    pp va perm hmem
  unfold sys_page_alloc
  rw [envid2env_zero]
  simp only []
  rw [hva, hperm, if_neg (lt_irrefl _), if_neg (lt_irrefl _)]
  unfold page_alloc
  rw [hfree]
  simp only []
  rw [if_neg (by rw [hi.1]; exact lt_irrefl _)]

theorem sys_page_map_self_run (s : KState) (srcva dstva perm : Nat) (pte : PTE)
    (ha : check_va_bound_round srcva = 0) (hb : check_va_bound_round dstva = 0)
    (hperm : check_user_page_perm perm = 0)
    (hl : page_lookup s (s.envs s.curenv).env_pgdir srcva = some pte)
    (hw : pte.perm &&& PTE_W ≠ 0)
    (hmem : s.pt_nomem (s.envs s.curenv).env_pgdir (PGNUM dstva) = false) :
    sys_page_map s 0 srcva 0 dstva perm =
      (0, (page_insert s (s.envs s.curenv).env_pgdir pte.frame dstva perm).2) := by
  have hi := page_insert_ok s (s.envs s.curenv).env_pgdir pte.frame dstva perm hmem
  rw [sys_page_map_checked s 0 srcva 0 dstva perm s.curenv s.curenv (envid2env_zero s true)
    (envid2env_zero s true) ha hb hperm, hl]
  simp only []
  rw [if_neg (fun hc => hw hc.2), if_neg (by rw [hi.1]; exact lt_irrefl _)]

theorem sys_page_unmap_self_run (s : KState) (va : Nat) (ha : check_va_bound_round va = 0) :
    sys_page_unmap s 0 va = (0, page_remove s (s.envs s.curenv).env_pgdir va) := by
  unfold sys_page_unmap
  rw [envid2env_zero]
  simp only []
  rw [ha, if_neg (lt_irrefl _)]


theorem pgfault_run (s : KState) (mem : Nat → Nat → Nat) (utf : UTrapframe) (e : PTE)
    (pp : Nat) (rest : List Nat)
    (hw : utf.utf_err &&& FEC_WR ≠ 0)
    (he : page_lookup s (s.envs s.curenv).env_pgdir utf.utf_fault_va = some e)
    (hc : e.perm &&& PTE_COW ≠ 0)
    (hlt : utf.utf_fault_va < UTOP)
    (hfree : s.page_free_list = pp :: rest)
    (hm1 : s.pt_nomem (s.envs s.curenv).env_pgdir (PGNUM PFTEMP) = false)
    (hm2 : s.pt_nomem (s.envs s.curenv).env_pgdir (PGNUM utf.utf_fault_va) = false) :
    pgfault s mem utf =
      (⟨.returned,
        page_remove
          (page_insert
            (page_insert { s with page_free_list := rest } (s.envs s.curenv).env_pgdir pp PFTEMP
              (PTE_P ||| PTE_U ||| PTE_W)).2
            (s.envs s.curenv).env_pgdir pp (ROUNDDOWN utf.utf_fault_va 4096)
            (PTE_P ||| PTE_U ||| PTE_W)).2
          (s.envs s.curenv).env_pgdir PFTEMP,
        [.sys_page_alloc 0 PFTEMP (PTE_P ||| PTE_U ||| PTE_W),
         .memmove PFTEMP (ROUNDDOWN utf.utf_fault_va 4096) PGSIZE,
         .sys_page_map 0 PFTEMP 0 (ROUNDDOWN utf.utf_fault_va 4096) (PTE_P ||| PTE_U ||| PTE_W),
         .sys_page_unmap 0 PFTEMP]⟩,
       memmove
         (page_insert { s with page_free_list := rest } (s.envs s.curenv).env_pgdir pp PFTEMP
           (PTE_P ||| PTE_U ||| PTE_W)).2
         mem PFTEMP (ROUNDDOWN utf.utf_fault_va 4096) PGSIZE) := by
  have hperm : check_user_page_perm (PTE_P ||| PTE_U ||| PTE_W) = 0 := by decide
  have htemp : check_va_bound_round PFTEMP = 0 := by decide
  have haddr : check_va_bound_round (ROUNDDOWN utf.utf_fault_va 4096) = 0 := by
    apply check_va_bound_round_pass
    · unfold ROUNDDOWN
      exact le_trans (Nat.sub_le _ _) (le_of_lt hlt)
    · unfold ROUNDDOWN PGSIZE
      omega
  have hA := sys_page_alloc_self_run s PFTEMP (PTE_P ||| PTE_U ||| PTE_W) pp rest htemp hperm
    hfree hm1
  have hi1 := page_insert_ok { s with page_free_list := rest } (s.envs s.curenv).env_pgdir
    pp PFTEMP (PTE_P ||| PTE_U ||| PTE_W) hm1
  have hf1 := page_insert_frame { s with page_free_list := rest } (s.envs s.curenv).env_pgdir
    pp PFTEMP (PTE_P ||| PTE_U ||| PTE_W)
  have hdir1 : ((page_insert { s with page_free_list := rest } (s.envs s.curenv).env_pgdir
      pp PFTEMP (PTE_P ||| PTE_U ||| PTE_W)).2.envs
      (page_insert { s with page_free_list := rest } (s.envs s.curenv).env_pgdir
      pp PFTEMP (PTE_P ||| PTE_U ||| PTE_W)).2.curenv).env_pgdir = (s.envs s.curenv).env_pgdir := by
    rw [hf1.1, hf1.2]
  have hl1 : page_lookup (page_insert { s with page_free_list := rest }
      (s.envs s.curenv).env_pgdir pp PFTEMP (PTE_P ||| PTE_U ||| PTE_W)).2
      (s.envs s.curenv).env_pgdir PFTEMP = some ⟨pp, PTE_P ||| PTE_U ||| PTE_W⟩ := by
    unfold page_lookup
    rw [page_insert_pgdirs _ _ _ _ _ _ _ hi1.1, if_pos ⟨rfl, rfl⟩]
  have hB := sys_page_map_self_run (page_insert { s with page_free_list := rest }
      (s.envs s.curenv).env_pgdir pp PFTEMP (PTE_P ||| PTE_U ||| PTE_W)).2 PFTEMP
      (ROUNDDOWN utf.utf_fault_va 4096) (PTE_P ||| PTE_U ||| PTE_W)
      ⟨pp, PTE_P ||| PTE_U ||| PTE_W⟩ htemp haddr hperm (by rw [hdir1]; exact hl1)
      (by decide : (PTE_P ||| PTE_U ||| PTE_W) &&& PTE_W ≠ 0)
      (by rw [hdir1, hi1.2, PGNUM_ROUNDDOWN]; exact hm2)
  rw [hdir1] at hB
  have hf2 := page_insert_frame (page_insert { s with page_free_list := rest }
      (s.envs s.curenv).env_pgdir pp PFTEMP (PTE_P ||| PTE_U ||| PTE_W)).2
      (s.envs s.curenv).env_pgdir pp (ROUNDDOWN utf.utf_fault_va 4096)
      (PTE_P ||| PTE_U ||| PTE_W)
  have hC := sys_page_unmap_self_run (page_insert (page_insert { s with page_free_list := rest }
      (s.envs s.curenv).env_pgdir pp PFTEMP (PTE_P ||| PTE_U ||| PTE_W)).2
      (s.envs s.curenv).env_pgdir pp (ROUNDDOWN utf.utf_fault_va 4096)
      (PTE_P ||| PTE_U ||| PTE_W)).2 PFTEMP htemp
  rw [hf2.1, hf2.2, hdir1] at hC
  have hcow : PTE_PERM (getpte s utf.utf_fault_va) &&& PTE_COW ≠ 0 := by
    rw [PTE_PERM_getpte s _ e he PTE_COW (by decide)]
    exact hc
  have hpte : getpte s utf.utf_fault_va ≠ 0 := by
    intro h0
    apply hcow
    rw [h0]
    unfold PTE_PERM
    simp
  unfold pgfault
  rw [if_neg hw, if_neg hpte, if_neg hcow]
  simp only []
  rw [hA]
  simp only []
  rw [if_neg (lt_irrefl _), hB]
  simp only []
  rw [if_neg (lt_irrefl _), hC]
  simp only []
  rw [if_neg (lt_irrefl _)]


theorem pgfault_copy (s : KState) (mem : Nat → Nat → Nat) (utf : UTrapframe) (e : PTE)
    (pp : Nat) (rest : List Nat)
    (hw : utf.utf_err &&& FEC_WR ≠ 0)
    (he : page_lookup s (s.envs s.curenv).env_pgdir utf.utf_fault_va = some e)
    (hc : e.perm &&& PTE_COW ≠ 0)
    (hlt : utf.utf_fault_va < UTOP)
    (hne : PGNUM utf.utf_fault_va ≠ PGNUM PFTEMP)
    (hfree : s.page_free_list = pp :: rest)
    (hm1 : s.pt_nomem (s.envs s.curenv).env_pgdir (PGNUM PFTEMP) = false)
    (hm2 : s.pt_nomem (s.envs s.curenv).env_pgdir (PGNUM utf.utf_fault_va) = false) :
    (pgfault s mem utf).1.status = .returned ∧
    (pgfault s mem utf).1.calls =
      [.sys_page_alloc 0 PFTEMP (PTE_P ||| PTE_U ||| PTE_W),
       .memmove PFTEMP (ROUNDDOWN utf.utf_fault_va PGSIZE) PGSIZE,
       .sys_page_map 0 PFTEMP 0 (ROUNDDOWN utf.utf_fault_va PGSIZE) (PTE_P ||| PTE_U ||| PTE_W),
       .sys_page_unmap 0 PFTEMP] ∧
    (pgfault s mem utf).1.s.pgdirs (s.envs s.curenv).env_pgdir (PGNUM utf.utf_fault_va) =
      some ⟨pp, PTE_P ||| PTE_U ||| PTE_W⟩ ∧
    (∀ off, off < PGSIZE → (pgfault s mem utf).2 pp off = mem e.frame off) ∧
    (pgfault s mem utf).1.s.pgdirs (s.envs s.curenv).env_pgdir (PGNUM PFTEMP) = none ∧
    ∀ d n, ¬ (d = (s.envs s.curenv).env_pgdir ∧
        (n = PGNUM utf.utf_fault_va ∨ n = PGNUM PFTEMP)) →
      (pgfault s mem utf).1.s.pgdirs d n = s.pgdirs d n := by
  have hi1 := page_insert_ok { s with page_free_list := rest } (s.envs s.curenv).env_pgdir
    pp PFTEMP (PTE_P ||| PTE_U ||| PTE_W) hm1
  have hf1 := page_insert_frame { s with page_free_list := rest } (s.envs s.curenv).env_pgdir
    pp PFTEMP (PTE_P ||| PTE_U ||| PTE_W)
  have hi2 := page_insert_ok (page_insert { s with page_free_list := rest }
      (s.envs s.curenv).env_pgdir pp PFTEMP (PTE_P ||| PTE_U ||| PTE_W)).2
      (s.envs s.curenv).env_pgdir pp (ROUNDDOWN utf.utf_fault_va 4096)
      (PTE_P ||| PTE_U ||| PTE_W) (by rw [hi1.2, PGNUM_ROUNDDOWN]; exact hm2)
  have hp1 := page_insert_pgdirs { s with page_free_list := rest } (s.envs s.curenv).env_pgdir
    pp PFTEMP (PTE_P ||| PTE_U ||| PTE_W)
  have hp2 := page_insert_pgdirs (page_insert { s with page_free_list := rest }
      (s.envs s.curenv).env_pgdir pp PFTEMP (PTE_P ||| PTE_U ||| PTE_W)).2
      (s.envs s.curenv).env_pgdir pp (ROUNDDOWN utf.utf_fault_va 4096)
      (PTE_P ||| PTE_U ||| PTE_W)
  rw [pgfault_run s mem utf e pp rest hw he hc hlt hfree hm1 hm2]
  refine ⟨rfl, rfl, ?_, ?_, ?_, ?_⟩
  · show (page_remove _ _ _).pgdirs _ _ = _
    rw [page_remove_pgdirs, if_neg (fun h => hne h.2), hp2 _ _ hi2.1, PGNUM_ROUNDDOWN,
      if_pos ⟨rfl, rfl⟩]
  · intro off hoff
    show memmove _ mem PFTEMP _ PGSIZE pp off = _
    unfold memmove
    rw [hf1.1, hf1.2]
    unfold page_lookup
    rw [hp1 _ _ hi1.1, hp1 _ _ hi1.1, if_pos ⟨rfl, rfl⟩, PGNUM_ROUNDDOWN,
      if_neg (fun h => hne h.2)]
    unfold page_lookup at he
    have he1 : ({ s with page_free_list := rest } : KState).pgdirs (s.envs s.curenv).env_pgdir
        (PGNUM utf.utf_fault_va) = some e := he
    rw [he1]
    simp only [Function.update_same]
    rw [if_pos hoff]
  · show (page_remove _ _ _).pgdirs _ _ = _
    rw [page_remove_pgdirs, if_pos ⟨rfl, rfl⟩]
  · intro d n hdn
    show (page_remove _ _ _).pgdirs _ _ = _
    rw [page_remove_pgdirs, if_neg (fun h => hdn ⟨h.1, Or.inr h.2⟩), hp2 _ _ hi2.1,
      PGNUM_ROUNDDOWN, if_neg (fun h => hdn ⟨h.1, Or.inl h.2⟩), hp1 _ _ hi1.1,
      if_neg (fun h => hdn ⟨h.1, Or.inr h.2⟩)]


set_option maxRecDepth 4000 in
/-- Counterexample to C23 as stated: the caller maps its scratch page, the page
of PFTEMP, copy-on-write on frame 9 and takes a write fault in it.  `pgfault`
makes its three system calls and returns, and leaves the faulting page without
any mapping: the page allocated at PFTEMP replaced the old one before the copy,
and the final `sys_page_unmap(0, PFTEMP)` removed it. -/
theorem pgfault_scratch_page_counterexample :
    ({ utfWrite with utf_fault_va := 0x7ff010 } : UTrapframe).utf_err &&& FEC_WR ≠ 0 ∧
    page_lookup demoScratchCow (demoScratchCow.envs demoScratchCow.curenv).env_pgdir 0x7ff010 =
      some ⟨9, PTE_P ||| PTE_U ||| PTE_COW⟩ ∧
    (pgfault demoScratchCow demoMem { utfWrite with utf_fault_va := 0x7ff010 }).1.status =
      .returned ∧
    (pgfault demoScratchCow demoMem { utfWrite with utf_fault_va := 0x7ff010 }).1.s.pgdirs
      (demoScratchCow.envs demoScratchCow.curenv).env_pgdir (PGNUM 0x7ff010) = none := by
  decide

theorem pgfault_failures (s : KState) (mem : Nat → Nat → Nat) (utf : UTrapframe) (e : PTE)
    (hw : utf.utf_err &&& FEC_WR ≠ 0)
    (he : page_lookup s (s.envs s.curenv).env_pgdir utf.utf_fault_va = some e)
    (hc : e.perm &&& PTE_COW ≠ 0) :
    ((sys_page_alloc s 0 PFTEMP (PTE_P ||| PTE_U ||| PTE_W)).1 < 0 →
      (pgfault s mem utf).1.status = .panicked ∧
      (pgfault s mem utf).1.calls = [.sys_page_alloc 0 PFTEMP (PTE_P ||| PTE_U ||| PTE_W)]) ∧
    (¬ (sys_page_alloc s 0 PFTEMP (PTE_P ||| PTE_U ||| PTE_W)).1 < 0 →
      (sys_page_map (sys_page_alloc s 0 PFTEMP (PTE_P ||| PTE_U ||| PTE_W)).2 0 PFTEMP 0
        (ROUNDDOWN utf.utf_fault_va PGSIZE) (PTE_P ||| PTE_U ||| PTE_W)).1 < 0 →
      (pgfault s mem utf).1.status = .panicked ∧
      (pgfault s mem utf).1.calls =
        [.sys_page_alloc 0 PFTEMP (PTE_P ||| PTE_U ||| PTE_W),
         .memmove PFTEMP (ROUNDDOWN utf.utf_fault_va PGSIZE) PGSIZE,
         .sys_page_map 0 PFTEMP 0 (ROUNDDOWN utf.utf_fault_va PGSIZE) (PTE_P ||| PTE_U ||| PTE_W)]) ∧
    (¬ (sys_page_alloc s 0 PFTEMP (PTE_P ||| PTE_U ||| PTE_W)).1 < 0 →
      ¬ (sys_page_map (sys_page_alloc s 0 PFTEMP (PTE_P ||| PTE_U ||| PTE_W)).2 0 PFTEMP 0
        (ROUNDDOWN utf.utf_fault_va PGSIZE) (PTE_P ||| PTE_U ||| PTE_W)).1 < 0 →
      (sys_page_unmap (sys_page_map (sys_page_alloc s 0 PFTEMP (PTE_P ||| PTE_U ||| PTE_W)).2 0 PFTEMP 0
        (ROUNDDOWN utf.utf_fault_va PGSIZE) (PTE_P ||| PTE_U ||| PTE_W)).2 0 PFTEMP).1 < 0 →
      (pgfault s mem utf).1.status = .panicked ∧
      (pgfault s mem utf).1.calls =
        [.sys_page_alloc 0 PFTEMP (PTE_P ||| PTE_U ||| PTE_W),
         .memmove PFTEMP (ROUNDDOWN utf.utf_fault_va PGSIZE) PGSIZE,
         .sys_page_map 0 PFTEMP 0 (ROUNDDOWN utf.utf_fault_va PGSIZE) (PTE_P ||| PTE_U ||| PTE_W),
         .sys_page_unmap 0 PFTEMP]) := by
  have hcow : PTE_PERM (getpte s utf.utf_fault_va) &&& PTE_COW ≠ 0 := by
    rw [PTE_PERM_getpte s _ e he PTE_COW (by decide)]
    exact hc
  have hpte : getpte s utf.utf_fault_va ≠ 0 := by
    intro h0
    apply hcow
    rw [h0]
    unfold PTE_PERM
    simp
  have hR : ROUNDDOWN utf.utf_fault_va PGSIZE = ROUNDDOWN utf.utf_fault_va 4096 := rfl
  rw [hR]
  unfold pgfault
  rw [if_neg hw, if_neg hpte, if_neg hcow]
  simp only []
  refine ⟨fun h1 => ?_, fun h1 h2 => ?_, fun h1 h2 h3 => ?_⟩
  · rw [if_pos h1]
    exact ⟨rfl, rfl⟩
  · rw [if_neg h1, if_pos h2]
    exact ⟨rfl, rfl⟩
  · rw [if_neg h1, if_neg h2]
    refine ⟨?_, rfl⟩
    exact if_pos h3

/-- C23 (amended): on a write fault in a copy-on-write page, `pgfault` calls
`sys_page_alloc(0, PFTEMP, P|U|W)`, then, unless that failed, copies PGSIZE
bytes from the faulting page to PFTEMP with `memmove` and calls
`sys_page_map(0, PFTEMP, 0, ROUNDDOWN(addr, PGSIZE), P|U|W)`, then, unless that
failed, calls `sys_page_unmap(0, PFTEMP)`; it panics right after the first of
the three system calls that fails, having made no further call.  When the
address is below UTOP, the page is not the page of PFTEMP, a free frame `pp` is
at the head of the free list and there is memory for the page tables, no call
fails: `pgfault` returns after exactly these calls, the faulting page maps the
fresh frame `pp` with `P|U|W` (PTE_W set, PTE_COW clear), the frame holds the
PGSIZE bytes of the old frame, PFTEMP is unmapped, and every other entry of
every page table is as before. -/
theorem pgfault_copies_page (s : KState) (mem : Nat → Nat → Nat) (utf : UTrapframe) (e : PTE)
    (hw : utf.utf_err &&& FEC_WR ≠ 0)
    (he : page_lookup s (s.envs s.curenv).env_pgdir utf.utf_fault_va = some e)
    (hc : e.perm &&& PTE_COW ≠ 0) :
    ((sys_page_alloc s 0 PFTEMP (PTE_P ||| PTE_U ||| PTE_W)).1 < 0 →
      (pgfault s mem utf).1.status = .panicked ∧
      (pgfault s mem utf).1.calls = [.sys_page_alloc 0 PFTEMP (PTE_P ||| PTE_U ||| PTE_W)]) ∧
    (¬ (sys_page_alloc s 0 PFTEMP (PTE_P ||| PTE_U ||| PTE_W)).1 < 0 →
      (sys_page_map (sys_page_alloc s 0 PFTEMP (PTE_P ||| PTE_U ||| PTE_W)).2 0 PFTEMP 0
        (ROUNDDOWN utf.utf_fault_va PGSIZE) (PTE_P ||| PTE_U ||| PTE_W)).1 < 0 →
      (pgfault s mem utf).1.status = .panicked ∧
      (pgfault s mem utf).1.calls =
        [.sys_page_alloc 0 PFTEMP (PTE_P ||| PTE_U ||| PTE_W),
         .memmove PFTEMP (ROUNDDOWN utf.utf_fault_va PGSIZE) PGSIZE,
         .sys_page_map 0 PFTEMP 0 (ROUNDDOWN utf.utf_fault_va PGSIZE) (PTE_P ||| PTE_U ||| PTE_W)]) ∧
    (¬ (sys_page_alloc s 0 PFTEMP (PTE_P ||| PTE_U ||| PTE_W)).1 < 0 →
      ¬ (sys_page_map (sys_page_alloc s 0 PFTEMP (PTE_P ||| PTE_U ||| PTE_W)).2 0 PFTEMP 0
        (ROUNDDOWN utf.utf_fault_va PGSIZE) (PTE_P ||| PTE_U ||| PTE_W)).1 < 0 →
      (sys_page_unmap (sys_page_map (sys_page_alloc s 0 PFTEMP (PTE_P ||| PTE_U ||| PTE_W)).2 0 PFTEMP 0
        (ROUNDDOWN utf.utf_fault_va PGSIZE) (PTE_P ||| PTE_U ||| PTE_W)).2 0 PFTEMP).1 < 0 →
      (pgfault s mem utf).1.status = .panicked ∧
      (pgfault s mem utf).1.calls =
        [.sys_page_alloc 0 PFTEMP (PTE_P ||| PTE_U ||| PTE_W),
         .memmove PFTEMP (ROUNDDOWN utf.utf_fault_va PGSIZE) PGSIZE,
         .sys_page_map 0 PFTEMP 0 (ROUNDDOWN utf.utf_fault_va PGSIZE) (PTE_P ||| PTE_U ||| PTE_W),
         .sys_page_unmap 0 PFTEMP]) ∧
    (∀ pp rest, utf.utf_fault_va < UTOP → PGNUM utf.utf_fault_va ≠ PGNUM PFTEMP →
      s.page_free_list = pp :: rest →
      s.pt_nomem (s.envs s.curenv).env_pgdir (PGNUM PFTEMP) = false →
      s.pt_nomem (s.envs s.curenv).env_pgdir (PGNUM utf.utf_fault_va) = false →
      (pgfault s mem utf).1.status = .returned ∧
      (pgfault s mem utf).1.calls =
        [.sys_page_alloc 0 PFTEMP (PTE_P ||| PTE_U ||| PTE_W),
         .memmove PFTEMP (ROUNDDOWN utf.utf_fault_va PGSIZE) PGSIZE,
         .sys_page_map 0 PFTEMP 0 (ROUNDDOWN utf.utf_fault_va PGSIZE) (PTE_P ||| PTE_U ||| PTE_W),
         .sys_page_unmap 0 PFTEMP] ∧
      (pgfault s mem utf).1.s.pgdirs (s.envs s.curenv).env_pgdir (PGNUM utf.utf_fault_va) =
        some ⟨pp, PTE_P ||| PTE_U ||| PTE_W⟩ ∧
      (PTE_P ||| PTE_U ||| PTE_W) &&& PTE_W ≠ 0 ∧ (PTE_P ||| PTE_U ||| PTE_W) &&& PTE_COW = 0 ∧
      (∀ off, off < PGSIZE → (pgfault s mem utf).2 pp off = mem e.frame off) ∧
      (pgfault s mem utf).1.s.pgdirs (s.envs s.curenv).env_pgdir (PGNUM PFTEMP) = none ∧
      ∀ d n, ¬ (d = (s.envs s.curenv).env_pgdir ∧
          (n = PGNUM utf.utf_fault_va ∨ n = PGNUM PFTEMP)) →
        (pgfault s mem utf).1.s.pgdirs d n = s.pgdirs d n) := by
  have hf := pgfault_failures s mem utf e hw he hc
  refine ⟨hf.1, hf.2.1, hf.2.2, fun pp rest hlt hne hfree hm1 hm2 => ?_⟩
  have h := pgfault_copy s mem utf e pp rest hw he hc hlt hne hfree hm1 hm2
  exact ⟨h.1, h.2.1, h.2.2.1, by decide, by decide, h.2.2.2.1, h.2.2.2.2.1, h.2.2.2.2.2⟩

/-- Witness of C23 (amended): the caller of `demoCow` writes at 0x3004, in its
copy-on-write page 3 on frame 9; the head of the free list is frame 20, and the
child keeps its mapping of frame 9.  With no free frame left, the same fault
makes `pgfault` panic after its first system call. -/
theorem pgfault_copies_page_witness :
    (pgfault demoCow demoMem utfWrite).1.status = .returned ∧
    (pgfault demoCow demoMem utfWrite).1.s.pgdirs 100 3 =
      some ⟨20, PTE_P ||| PTE_U ||| PTE_W⟩ ∧
    (pgfault demoCow demoMem utfWrite).1.s.pgdirs 101 3 =
      some ⟨9, PTE_P ||| PTE_U ||| PTE_COW⟩ ∧
    (pgfault demoCow demoMem utfWrite).2 20 5 = 14 ∧
    (pgfault { demoCow with page_free_list := [] } demoMem utfWrite).1.status = .panicked ∧
    (pgfault { demoCow with page_free_list := [] } demoMem utfWrite).1.calls =
      [.sys_page_alloc 0 PFTEMP (PTE_P ||| PTE_U ||| PTE_W)] :=
  have h := (pgfault_copies_page demoCow demoMem utfWrite ⟨9, PTE_P ||| PTE_U ||| PTE_COW⟩
    (by decide) (by decide) (by decide)).2.2.2 20 [21] (by decide) (by decide) rfl rfl rfl
  have hf := (pgfault_copies_page { demoCow with page_free_list := [] } demoMem utfWrite
    ⟨9, PTE_P ||| PTE_U ||| PTE_COW⟩ (by decide) (by decide) (by decide)).1 (by decide)
  ⟨h.1, h.2.2.1, h.2.2.2.2.2.2.2 101 3 (by decide), h.2.2.2.2.2.1 5 (by decide), hf.1, hf.2⟩

/-! ## ipc_send and ipc_recv -/

theorem sys_ipc_try_send_error_state (s : KState) (envid value srcva perm : Nat)
    (h : (sys_ipc_try_send s envid value srcva perm).1 < 0) :
    (sys_ipc_try_send s envid value srcva perm).2 = s := by
  rcases sys_ipc_try_send_cases s envid value srcva perm with ⟨r, _, hr⟩ | ⟨d, _, _, h1 | h1⟩
  · rw [hr]
  · rw [h1.2] at h
    exact absurd h (lt_irrefl _)
  · obtain ⟨_, pte, _, _, h2⟩ := h1
    rw [h2] at h
    exact absurd h (lt_irrefl _)

theorem ipc_send_loop_spin (s : KState) (to_env val pg perm : Nat)
    (h : (sys_ipc_try_send s to_env val pg perm).1 = -E_IPC_NOT_RECV) (n : Nat) :
    ipc_send_loop to_env val pg perm n s =
      ⟨.running, s, List.replicate n (.sys_ipc_try_send to_env val pg perm)⟩ := by
  have hneg : (sys_ipc_try_send s to_env val pg perm).1 < 0 := by
    rw [h]
    decide
  have hs := sys_ipc_try_send_error_state s to_env val pg perm hneg
  induction n with
  | zero => rfl
  | succ n ih =>
    unfold ipc_send_loop
    simp only []
    rw [if_pos hneg, if_neg (not_not.mpr h), hs, ih]
    rfl

/-- C24 (the code departs from the claim): the loop of `ipc_send` never calls
`sys_yield`.  When `sys_ipc_try_send` returns `-E_IPC_NOT_RECV`, which leaves
the state as it was, `ipc_send` makes the same system call again at once: after
any number `n` of iterations it is still in its loop, has not panicked, and the
calls it has made are `n` times `sys_ipc_try_send`, with the address 0 and the
perm 0 for a null `pg` and `perm | PTE_P` otherwise. -/
theorem ipc_send_retries_without_yield (s : KState) (to_env val pg perm : Nat)
    (h : (sys_ipc_try_send s to_env val pg (if pg = 0 then 0 else perm ||| PTE_P)).1 =
      -E_IPC_NOT_RECV) (n : Nat) :
    (ipc_send s to_env val pg perm n).status = .running ∧
    (ipc_send s to_env val pg perm n).s = s ∧
    (ipc_send s to_env val pg perm n).calls =
      List.replicate n (.sys_ipc_try_send to_env val pg (if pg = 0 then 0 else perm ||| PTE_P)) ∧
    UCall.sys_yield ∉ (ipc_send s to_env val pg perm n).calls := by
  unfold ipc_send
  rw [ipc_send_loop_spin s to_env val pg _ h n]
  refine ⟨rfl, rfl, rfl, ?_⟩
  intro hmem
  have := List.eq_of_mem_replicate hmem
  exact UCall.noConfusion this

/-- Witness of C24: the caller of the concrete state sends 42 with the page at
0x2000 to itself, which is not receiving; three iterations are three attempts in
a row. -/
theorem ipc_send_retries_without_yield_witness :
    (sys_ipc_try_send demoState 0x1000 42 0x2000 (PTE_U ||| PTE_P)).1 = -E_IPC_NOT_RECV ∧
    (ipc_send demoState 0x1000 42 0x2000 PTE_U 3).calls =
      [.sys_ipc_try_send 0x1000 42 0x2000 (PTE_U ||| PTE_P),
       .sys_ipc_try_send 0x1000 42 0x2000 (PTE_U ||| PTE_P),
       .sys_ipc_try_send 0x1000 42 0x2000 (PTE_U ||| PTE_P)] :=
  ⟨by decide,
   (ipc_send_retries_without_yield demoState 0x1000 42 0x2000 PTE_U (by decide) 3).2.2.1⟩

theorem ipc_recv_null (s : KState) :
    (ipc_recv s 0).calls = [.sys_ipc_recv UTOP] ∧ (ipc_recv s 0).ret = none ∧
    ((ipc_recv s 0).s.envs s.curenv).env_ipc_dstva = UTOP := by
  unfold ipc_recv
  rw [if_pos rfl]
  simp only []
  unfold sys_ipc_recv
  rw [if_neg (lt_irrefl _)]
  refine ⟨rfl, rfl, ?_⟩
  simp [modifyEnv]

theorem ipc_send_null (s : KState) (to_env val perm d n : Nat)
    (hd : envid2env s to_env false = .ok d) (hr : (s.envs d).env_ipc_recving ≠ 0) :
    ipc_send s to_env val 0 perm (n + 1) =
      ⟨.returned, ipc_deliver s d val 0, [.sys_ipc_try_send to_env val 0 0]⟩ := by
  have hz : ipc_send_perm s d 0 0 = 0 := by
    rw [ipc_send_perm_eq]
    split <;> rfl
  have h := sys_ipc_try_send_zero_perm s to_env val 0 0 d hd hr hz
  unfold ipc_send
  rw [if_pos rfl]
  unfold ipc_send_loop
  simp only []
  rw [h]
  simp only []
  rw [if_neg (lt_irrefl _)]

/-- C25, the failing input: with a null `pg`, `ipc_send` passes
`sys_ipc_try_send` the address 0, which is below UTOP, with the perm 0. -/
theorem ipc_send_null_counterexample :
    (ipc_send demoState 0x1001 42 0 PTE_U 1).calls = [.sys_ipc_try_send 0x1001 42 0 0] ∧
    ¬ (0 ≥ UTOP) := by
  decide

/-- C25 (the code departs from the claim): with a null `pg`, `ipc_send` passes
`sys_ipc_try_send` the address 0, not an address at or above UTOP, together
with the perm 0, whatever perm its caller gave; its own doc comment says that
zero is not the right value.  The call nevertheless sends no page, because the
kernel of this repository skips the transfer when the perm is 0: to a receiving
destination the first attempt returns 0, so `ipc_send` returns after this one
call, the destination gets the value with `env_ipc_perm` 0, and no page table
changes.  The half of the claim about `ipc_recv` holds: with a null `pg` it
passes `sys_ipc_recv` the address UTOP, which the kernel records as the
receiver's `env_ipc_dstva`. -/
theorem ipc_null_page (s : KState) (to_env val perm d n : Nat)
    (hd : envid2env s to_env false = .ok d) (hr : (s.envs d).env_ipc_recving ≠ 0) :
    (ipc_send s to_env val 0 perm (n + 1)).calls = [.sys_ipc_try_send to_env val 0 0] ∧
    (ipc_send s to_env val 0 perm (n + 1)).status = .returned ∧
    ((ipc_send s to_env val 0 perm (n + 1)).s.envs d).env_ipc_perm = 0 ∧
    ((ipc_send s to_env val 0 perm (n + 1)).s.envs d).env_ipc_value = val ∧
    (ipc_send s to_env val 0 perm (n + 1)).s.pgdirs = s.pgdirs ∧
    (ipc_recv s 0).calls = [.sys_ipc_recv UTOP] ∧
    ((ipc_recv s 0).s.envs s.curenv).env_ipc_dstva = UTOP := by
  rw [ipc_send_null s to_env val perm d n hd hr]
  refine ⟨rfl, rfl, ?_, ?_, (ipc_deliver_frame s d val 0).2.1, (ipc_recv_null s).1,
    (ipc_recv_null s).2.2⟩
  · show ((ipc_deliver s d val 0).envs d).env_ipc_perm = 0
    rw [ipc_deliver_dst]
  · show ((ipc_deliver s d val 0).envs d).env_ipc_value = val
    rw [ipc_deliver_dst]

/-- Witness of C25: the caller of the concrete state sends 42 with a
null `pg` and the perm PTE_U to its child 0x1001, which is receiving. -/
theorem ipc_null_page_witness :
    (ipc_send demoState 0x1001 42 0 PTE_U 1).status = .returned ∧
    ((ipc_send demoState 0x1001 42 0 PTE_U 1).s.envs 1).env_ipc_perm = 0 ∧
    (ipc_recv demoState 0).calls = [.sys_ipc_recv UTOP] :=
  have h := ipc_null_page demoState 0x1001 42 PTE_U 1 0 rfl (by decide)
  ⟨h.2.1, h.2.2.1, h.2.2.2.2.2.1⟩

/-! ## The page-fault upcall -/

theorem page_fault_exit_eq (s : KState) :
    page_fault_exit s =
      .yield (some s.curenv) (modifyEnv s s.curenv (fun r => { r with env_status := ENV_DYING })) := by
  unfold page_fault_exit env_destroy
  rw [if_pos rfl]
  rfl

theorem page_fault_handler_deliver (s : KState) (tf : TrapframePtr) (fault_va : Nat)
    (hu : (tf.deref s).tf_cs &&& 3 = 3)
    (hup : (s.envs s.curenv).env_pgfault_upcall ≠ 0)
    (hesp : ¬ ((tf.deref s).tf_esp > USTACKTOP ∧ (tf.deref s).tf_esp ≤ UXSTACKTOP - PGSIZE))
    (hchk : user_mem_check s s.curenv (utf_address (tf.deref s).tf_esp) sizeof_UTrapframe
      (PTE_W ||| PTE_U) = true) :
    page_fault_handler s tf fault_va =
      .upcall (utf_address (tf.deref s).tf_esp)
        { utf_fault_va := fault_va
          utf_err := (tf.deref s).tf_err
          utf_regs := (tf.deref s).tf_regs
          utf_eip := (tf.deref s).tf_eip
          utf_eflags := (tf.deref s).tf_eflags
          utf_esp := (tf.deref s).tf_esp }
        (match tf with
         | .on_stack _ => s
         | .in_curenv =>
           modifyEnv s s.curenv (fun e =>
             { e with env_tf := { e.env_tf with
                 tf_eip := (s.envs s.curenv).env_pgfault_upcall,
                 tf_esp := utf_address (tf.deref s).tf_esp } })) := by
  unfold page_fault_handler
  rw [if_neg (not_not.mpr hu), if_neg hup, if_neg hesp]
  simp only []
  unfold user_mem_assert
  rw [if_pos hchk]
  cases tf <;> rfl

theorem page_fault_handler_no_space (s : KState) (tf : TrapframePtr) (fault_va : Nat)
    (hu : (tf.deref s).tf_cs &&& 3 = 3)
    (hup : (s.envs s.curenv).env_pgfault_upcall ≠ 0)
    (hesp : (tf.deref s).tf_esp > USTACKTOP ∧ (tf.deref s).tf_esp ≤ UXSTACKTOP - PGSIZE) :
    page_fault_handler s tf fault_va =
      .yield (some s.curenv) (modifyEnv s s.curenv (fun r => { r with env_status := ENV_DYING })) := by
  unfold page_fault_handler
  rw [if_neg (not_not.mpr hu), if_neg hup, if_pos hesp, page_fault_exit_eq]

theorem page_fault_handler_no_write (s : KState) (tf : TrapframePtr) (fault_va : Nat)
    (hu : (tf.deref s).tf_cs &&& 3 = 3)
    (hup : (s.envs s.curenv).env_pgfault_upcall ≠ 0)
    (hesp : ¬ ((tf.deref s).tf_esp > USTACKTOP ∧ (tf.deref s).tf_esp ≤ UXSTACKTOP - PGSIZE))
    (hchk : user_mem_check s s.curenv (utf_address (tf.deref s).tf_esp) sizeof_UTrapframe
      (PTE_W ||| PTE_U) = false) :
    page_fault_handler s tf fault_va =
      .yield (some s.curenv) (modifyEnv s s.curenv (fun r => { r with env_status := ENV_DYING })) := by
  unfold page_fault_handler
  rw [if_neg (not_not.mpr hu), if_neg hup, if_neg hesp]
  simp only []
  unfold user_mem_assert env_destroy
  rw [if_neg (by rw [hchk]; decide), if_pos rfl]

theorem utf_address_recursive (esp : Nat) (h1 : UXSTACKTOP - PGSIZE ≤ esp) (h2 : esp < UXSTACKTOP) :
    utf_address esp = esp - sizeof_UTrapframe - 4 ∧
    utf_address esp + sizeof_UTrapframe + 4 = esp := by
  unfold utf_address
  rw [if_pos ⟨h2, h1⟩]
  unfold UXSTACKTOP PGSIZE at h1
  unfold UXSTACKTOP at h2
  unfold sizeof_UTrapframe
  omega

theorem utf_address_first (esp : Nat) (h : esp < UXSTACKTOP - PGSIZE ∨ UXSTACKTOP ≤ esp) :
    utf_address esp = UXSTACKTOP - sizeof_UTrapframe := by
  unfold utf_address
  rw [if_neg]
  intro hc
  rcases h with h | h
  · exact absurd hc.2 (not_le.mpr h)
  · exact absurd hc.1 (not_lt.mpr h)


/-- Counterexample to C26 as stated: the caller of `demoFault` faults with its
stack pointer at 0xeebfe800, in the page between the normal stack and the
exception stack, which is not in `[UXSTACKTOP - PGSIZE, UXSTACKTOP)`.  Its
exception stack is mapped and writable by the user at `UXSTACKTOP -
sizeof(UTrapframe)`, yet no UTrapframe is placed: the handler destroys the
environment. -/
theorem page_fault_handler_gap_counterexample :
    ¬ (UXSTACKTOP - PGSIZE ≤ 0xeebfe800 ∧ 0xeebfe800 < UXSTACKTOP) ∧
    user_mem_check
      (modifyEnv demoFault 0 (fun e => { e with env_tf := { tfFault with tf_esp := 0xeebfe800 } }))
      0 (UXSTACKTOP - sizeof_UTrapframe) sizeof_UTrapframe (PTE_W ||| PTE_U) = true ∧
    page_fault_handler
      (modifyEnv demoFault 0 (fun e => { e with env_tf := { tfFault with tf_esp := 0xeebfe800 } }))
      .in_curenv 0x3004 =
    .yield (some 0)
      (modifyEnv
        (modifyEnv demoFault 0 (fun e => { e with env_tf := { tfFault with tf_esp := 0xeebfe800 } }))
        0 (fun r => { r with env_status := ENV_DYING })) :=
  ⟨by decide, by decide,
   page_fault_handler_no_space
     (modifyEnv demoFault 0 (fun e => { e with env_tf := { tfFault with tf_esp := 0xeebfe800 } }))
     .in_curenv 0x3004 (by decide) (by decide) (by decide)⟩

/-- C26 (amended): for a user-mode page fault in an environment that has an
upcall, with trap-time stack pointer `esp`.  If `USTACKTOP < esp <= UXSTACKTOP -
PGSIZE` no UTrapframe is placed: the environment is destroyed (marked ENV_DYING,
the CPU yields).  If `UXSTACKTOP - PGSIZE < esp < UXSTACKTOP` the place of the
UTrapframe is `esp - sizeof(UTrapframe) - 4`, one word below `esp`, and if `esp
<= USTACKTOP` or `esp >= UXSTACKTOP` it is `UXSTACKTOP - sizeof(UTrapframe)`.
In both cases the UTrapframe is written there when the user may write the
`sizeof(UTrapframe)` bytes at that place (pages mapped with PTE_P, PTE_U and
PTE_W), and when the user may not, nothing is placed and the environment is
destroyed. -/
theorem page_fault_handler_places_utf (s : KState) (tf : TrapframePtr) (fault_va : Nat)
    (hu : (tf.deref s).tf_cs &&& 3 = 3)
    (hup : (s.envs s.curenv).env_pgfault_upcall ≠ 0) :
    (USTACKTOP < (tf.deref s).tf_esp ∧ (tf.deref s).tf_esp ≤ UXSTACKTOP - PGSIZE →
      page_fault_handler s tf fault_va =
        .yield (some s.curenv)
          (modifyEnv s s.curenv (fun r => { r with env_status := ENV_DYING }))) ∧
    (UXSTACKTOP - PGSIZE < (tf.deref s).tf_esp ∧ (tf.deref s).tf_esp < UXSTACKTOP →
      (tf.deref s).tf_esp - sizeof_UTrapframe - 4 + sizeof_UTrapframe + 4 = (tf.deref s).tf_esp ∧
      (user_mem_check s s.curenv ((tf.deref s).tf_esp - sizeof_UTrapframe - 4)
          sizeof_UTrapframe (PTE_W ||| PTE_U) = true →
        ∃ frame s1, page_fault_handler s tf fault_va =
          .upcall ((tf.deref s).tf_esp - sizeof_UTrapframe - 4) frame s1) ∧
      (user_mem_check s s.curenv ((tf.deref s).tf_esp - sizeof_UTrapframe - 4)
          sizeof_UTrapframe (PTE_W ||| PTE_U) = false →
        page_fault_handler s tf fault_va =
          .yield (some s.curenv)
            (modifyEnv s s.curenv (fun r => { r with env_status := ENV_DYING })))) ∧
    ((tf.deref s).tf_esp ≤ USTACKTOP ∨ UXSTACKTOP ≤ (tf.deref s).tf_esp →
      (user_mem_check s s.curenv (UXSTACKTOP - sizeof_UTrapframe) sizeof_UTrapframe
          (PTE_W ||| PTE_U) = true →
        ∃ frame s1, page_fault_handler s tf fault_va =
          .upcall (UXSTACKTOP - sizeof_UTrapframe) frame s1) ∧
      (user_mem_check s s.curenv (UXSTACKTOP - sizeof_UTrapframe) sizeof_UTrapframe
          (PTE_W ||| PTE_U) = false →
        page_fault_handler s tf fault_va =
          .yield (some s.curenv)
            (modifyEnv s s.curenv (fun r => { r with env_status := ENV_DYING })))) := by
  refine ⟨fun h => page_fault_handler_no_space s tf fault_va hu hup h, fun h => ?_, fun h => ?_⟩
  · have ha := utf_address_recursive _ (le_of_lt h.1) h.2
    have hesp : ¬ ((tf.deref s).tf_esp > USTACKTOP ∧ (tf.deref s).tf_esp ≤ UXSTACKTOP - PGSIZE) :=
      fun hc => absurd hc.2 (not_le.mpr h.1)
    refine ⟨by rw [← ha.1]; exact ha.2, fun hchk => ?_, fun hchk => ?_⟩
    · rw [← ha.1] at hchk ⊢
      exact ⟨_, _, page_fault_handler_deliver s tf fault_va hu hup hesp hchk⟩
    · rw [← ha.1] at hchk
      exact page_fault_handler_no_write s tf fault_va hu hup hesp hchk
  · have hlt : USTACKTOP < UXSTACKTOP - PGSIZE := by decide
    have ha := utf_address_first (tf.deref s).tf_esp
      (h.elim (fun h1 => Or.inl (lt_of_le_of_lt h1 hlt)) Or.inr)
    have hesp : ¬ ((tf.deref s).tf_esp > USTACKTOP ∧ (tf.deref s).tf_esp ≤ UXSTACKTOP - PGSIZE) := by
      intro hc
      rcases h with h | h
      · exact absurd hc.1 (not_lt.mpr h)
      · have : UXSTACKTOP - PGSIZE < UXSTACKTOP := by decide
        exact absurd (lt_of_le_of_lt hc.2 this) (not_lt.mpr h)
    refine ⟨fun hchk => ?_, fun hchk => ?_⟩
    · rw [← ha] at hchk ⊢
      exact ⟨_, _, page_fault_handler_deliver s tf fault_va hu hup hesp hchk⟩
    · rw [← ha] at hchk
      exact page_fault_handler_no_write s tf fault_va hu hup hesp hchk

/-- Witness of C26 (amended): a recursive fault of the caller of `demoFault`,
with the stack pointer at 0xeebfffc0 on its exception stack; and the same fault
when the exception stack is mapped without PTE_U, which destroys the
environment. -/
theorem page_fault_handler_places_utf_witness :
    (∃ frame s1,
      page_fault_handler
        (modifyEnv demoFault 0
          (fun e => { e with env_tf := { tfFault with tf_esp := 0xeebfffc0 } }))
        .in_curenv 0x3004 =
      .upcall
        ((TrapframePtr.in_curenv.deref (modifyEnv demoFault 0
          (fun e => { e with env_tf := { tfFault with tf_esp := 0xeebfffc0 } }))).tf_esp -
            sizeof_UTrapframe - 4)
        frame s1) ∧
    page_fault_handler
      { (modifyEnv demoFault 0
          (fun e => { e with env_tf := { tfFault with tf_esp := 0xeebfffc0 } })) with
        pgdirs := fun d n =>
          if d = 100 ∧ n = 0xeebff then some ⟨10, PTE_P ||| PTE_W⟩ else none }
      .in_curenv 0x3004 =
    .yield (some 0)
      (modifyEnv
        { (modifyEnv demoFault 0
            (fun e => { e with env_tf := { tfFault with tf_esp := 0xeebfffc0 } })) with
          pgdirs := fun d n =>
            if d = 100 ∧ n = 0xeebff then some ⟨10, PTE_P ||| PTE_W⟩ else none }
        0 (fun r => { r with env_status := ENV_DYING })) :=
  ⟨((page_fault_handler_places_utf
      (modifyEnv demoFault 0 (fun e => { e with env_tf := { tfFault with tf_esp := 0xeebfffc0 } }))
      .in_curenv 0x3004 (by decide) (by decide)).2.1 ⟨by decide, by decide⟩).2.1 (by decide),
   ((page_fault_handler_places_utf
      { (modifyEnv demoFault 0
          (fun e => { e with env_tf := { tfFault with tf_esp := 0xeebfffc0 } })) with
        pgdirs := fun d n =>
          if d = 100 ∧ n = 0xeebff then some ⟨10, PTE_P ||| PTE_W⟩ else none }
      .in_curenv 0x3004 (by decide) (by decide)).2.1 ⟨by decide, by decide⟩).2.2 (by decide)⟩

/-- C27: when `page_fault_handler` delivers a user-mode fault to the upcall, as
it does for an environment with an upcall, a stack pointer outside
`(USTACKTOP, UXSTACKTOP - PGSIZE]` and a place for the UTrapframe that the user
may write (PTE_P, PTE_U and PTE_W), the UTrapframe it writes has `utf_fault_va`
the faulting address, `utf_err` the error code of the trap, and `utf_regs`,
`utf_eip`, `utf_eflags`, `utf_esp` the trap-time registers, eip, eflags and esp.
Afterwards the saved frame of the environment is the trap-time frame with
`tf_eip` replaced by `env_pgfault_upcall` and `tf_esp` by the address of the
UTrapframe, nothing else in the environment's record has changed, and the rest
of the kernel state is as it was. -/
theorem page_fault_handler_delivers (s : KState) (fault_va : Nat)
    (hu : (s.envs s.curenv).env_tf.tf_cs &&& 3 = 3)
    (hup : (s.envs s.curenv).env_pgfault_upcall ≠ 0)
    (hesp : ¬ ((s.envs s.curenv).env_tf.tf_esp > USTACKTOP ∧
      (s.envs s.curenv).env_tf.tf_esp ≤ UXSTACKTOP - PGSIZE))
    (hchk : user_mem_check s s.curenv (utf_address (s.envs s.curenv).env_tf.tf_esp)
      sizeof_UTrapframe (PTE_W ||| PTE_U) = true) :
    ∃ frame s1,
      page_fault_handler s .in_curenv fault_va =
        .upcall (utf_address (s.envs s.curenv).env_tf.tf_esp) frame s1 ∧
      frame.utf_fault_va = fault_va ∧
      frame.utf_err = (s.envs s.curenv).env_tf.tf_err ∧
      frame.utf_regs = (s.envs s.curenv).env_tf.tf_regs ∧
      frame.utf_eip = (s.envs s.curenv).env_tf.tf_eip ∧
      frame.utf_eflags = (s.envs s.curenv).env_tf.tf_eflags ∧
      frame.utf_esp = (s.envs s.curenv).env_tf.tf_esp ∧
      (s1.envs s.curenv).env_tf =
        { (s.envs s.curenv).env_tf with
          tf_eip := (s.envs s.curenv).env_pgfault_upcall
          tf_esp := utf_address (s.envs s.curenv).env_tf.tf_esp } ∧
      s1.envs s.curenv = { s.envs s.curenv with env_tf := (s1.envs s.curenv).env_tf } ∧
      (∀ j, j ≠ s.curenv → s1.envs j = s.envs j) ∧
      s1.curenv = s.curenv ∧ s1.pgdirs = s.pgdirs ∧ s1.pp_ref = s.pp_ref ∧
      s1.page_free_list = s.page_free_list ∧ s1.env_free_list = s.env_free_list := by
  refine ⟨_, _, page_fault_handler_deliver s .in_curenv fault_va hu hup hesp hchk,
    rfl, rfl, rfl, rfl, rfl, rfl, ?_, ?_, ?_, rfl, rfl, rfl, rfl, rfl⟩
  · simp [modifyEnv, TrapframePtr.deref]
  · simp [modifyEnv, TrapframePtr.deref]
  · intro j hj
    simp [modifyEnv, Function.update_noteq hj]

/-- Witness of C27: the caller of `demoFault` faults at 0x3004 on its normal
stack; the UTrapframe goes to 0xeebfffcc, the top of the exception stack less 52
bytes, and the environment will resume in its upcall at 0x800100. -/
theorem page_fault_handler_delivers_witness :
    ∃ frame s1,
      page_fault_handler demoFault .in_curenv 0x3004 = .upcall 0xeebfffcc frame s1 ∧
      frame.utf_fault_va = 0x3004 ∧ frame.utf_esp = 0xeebfd000 ∧
      (s1.envs 0).env_tf.tf_eip = 0x800100 ∧ (s1.envs 0).env_tf.tf_esp = 0xeebfffcc :=
  (page_fault_handler_delivers demoFault 0x3004 (by decide) (by decide) (by decide)
    (by decide)).elim fun frame hf => hf.elim fun s1 h =>
      ⟨frame, s1, h.1, h.2.1, h.2.2.2.2.2.2.1, congrArg Trapframe.tf_eip h.2.2.2.2.2.2.2.1,
        congrArg Trapframe.tf_esp h.2.2.2.2.2.2.2.1⟩

/-! ## trap and trap_dispatch -/

theorem env_destroy_curenv (s : KState) :
    TrapResult.ofK (env_destroy s s.curenv) =
      .yield (some s.curenv) (modifyEnv s s.curenv (fun r => { r with env_status := ENV_DYING })) := by
  unfold env_destroy
  rw [if_pos rfl]
  rfl

theorem trap_dispatch_divide (s : KState) (tf : TrapframePtr) (cr2 : Nat)
    (mem : Nat → Option Nat) (debuginfo_eip : Nat → Int) (fuel : Nat)
    (h : (tf.deref s).tf_trapno = T_DIVIDE) :
    trap_dispatch s tf cr2 mem debuginfo_eip fuel =
      .yield (some s.curenv) (modifyEnv s s.curenv (fun r => { r with env_status := ENV_DYING })) := by
  unfold trap_dispatch
  rw [if_pos h, env_destroy_curenv]

theorem trap_dispatch_default (s : KState) (tf : TrapframePtr) (cr2 : Nat)
    (mem : Nat → Option Nat) (debuginfo_eip : Nat → Int) (fuel : Nat)
    (h1 : (tf.deref s).tf_trapno ≠ T_DIVIDE) (h2 : (tf.deref s).tf_trapno ≠ T_DEBUG)
    (h3 : (tf.deref s).tf_trapno ≠ T_BRKPT) (h4 : (tf.deref s).tf_trapno ≠ T_PGFLT)
    (h5 : (tf.deref s).tf_trapno ≠ T_SYSCALL)
    (h6 : (tf.deref s).tf_trapno ≠ IRQ_OFFSET + IRQ_TIMER) :
    trap_dispatch s tf cr2 mem debuginfo_eip fuel =
      if (tf.deref s).tf_cs = GD_KT then .panic s
      else .yield (some s.curenv)
        (modifyEnv s s.curenv (fun r => { r with env_status := ENV_DYING })) := by
  unfold trap_dispatch
  rw [if_neg h1, if_neg h2, if_neg h3, if_neg h4, if_neg h5, if_neg h6, env_destroy_curenv]

/-- C28 (the code departs from the claim): a divide error taken in kernel mode
does not panic.  `trap_dispatch` calls `env_destroy(curenv)` for T_DIVIDE
whatever the mode, so the current environment is marked ENV_DYING and the CPU
yields.  For every other vector that is not debug, breakpoint, page fault,
system call or timer, T_ILLOP and T_GPFLT among them, a trap taken in kernel
mode (`tf_cs == GD_KT`) ends in a panic with the state unchanged, as the claim
says. -/
theorem trap_kernel_divide_destroys (s : KState) (tf : Trapframe) (cr2 : Nat)
    (mem : Nat → Option Nat) (debuginfo_eip : Nat → Int) (fuel : Nat)
    (hk : tf.tf_cs = GD_KT) :
    (tf.tf_trapno = T_DIVIDE →
      trap_dispatch s (.on_stack tf) cr2 mem debuginfo_eip fuel =
        .yield (some s.curenv)
          (modifyEnv s s.curenv (fun r => { r with env_status := ENV_DYING })) ∧
      trap s tf cr2 mem debuginfo_eip fuel =
        .yield (some s.curenv)
          (modifyEnv s s.curenv (fun r => { r with env_status := ENV_DYING }))) ∧
    (tf.tf_trapno ≠ T_DIVIDE → tf.tf_trapno ≠ T_DEBUG → tf.tf_trapno ≠ T_BRKPT →
      tf.tf_trapno ≠ T_PGFLT → tf.tf_trapno ≠ T_SYSCALL →
      tf.tf_trapno ≠ IRQ_OFFSET + IRQ_TIMER →
      trap_dispatch s (.on_stack tf) cr2 mem debuginfo_eip fuel = .panic s ∧
      trap s tf cr2 mem debuginfo_eip fuel = .panic s) ∧
    (tf.tf_trapno = T_ILLOP ∨ tf.tf_trapno = T_GPFLT →
      trap s tf cr2 mem debuginfo_eip fuel = .panic s) := by
  have hdef : tf.tf_trapno ≠ T_DIVIDE → tf.tf_trapno ≠ T_DEBUG → tf.tf_trapno ≠ T_BRKPT →
      tf.tf_trapno ≠ T_PGFLT → tf.tf_trapno ≠ T_SYSCALL →
      tf.tf_trapno ≠ IRQ_OFFSET + IRQ_TIMER →
      trap_dispatch s (.on_stack tf) cr2 mem debuginfo_eip fuel = .panic s ∧
      trap s tf cr2 mem debuginfo_eip fuel = .panic s := by
    intro h1 h2 h3 h4 h5 h6
    have hd : trap_dispatch s (.on_stack tf) cr2 mem debuginfo_eip fuel = .panic s := by
      rw [trap_dispatch_default s (.on_stack tf) cr2 mem debuginfo_eip fuel h1 h2 h3 h4 h5 h6]
      exact if_pos hk
    refine ⟨hd, ?_⟩
    unfold trap
    rw [if_neg (by rw [hk]; decide), hd]
  refine ⟨fun h => ?_, hdef, fun h => ?_⟩
  · have hd := trap_dispatch_divide s (.on_stack tf) cr2 mem debuginfo_eip fuel h
    refine ⟨hd, ?_⟩
    unfold trap
    rw [if_neg (by rw [hk]; decide), hd]
  · rcases h with h | h
    · exact (hdef (by rw [h]; decide) (by rw [h]; decide) (by rw [h]; decide)
        (by rw [h]; decide) (by rw [h]; decide) (by rw [h]; decide)).2
    · exact (hdef (by rw [h]; decide) (by rw [h]; decide) (by rw [h]; decide)
        (by rw [h]; decide) (by rw [h]; decide) (by rw [h]; decide)).2

/-- Witness of C28: a divide error in kernel mode while the caller of the
concrete state is the current environment: the caller becomes ENV_DYING. -/
theorem trap_kernel_divide_destroys_witness :
    trap demoState { tf0 with tf_trapno := T_DIVIDE, tf_cs := GD_KT } 0 (fun _ => none)
        (fun _ => 0) 0 =
      .yield (some 0) (modifyEnv demoState 0 (fun r => { r with env_status := ENV_DYING })) ∧
    ((modifyEnv demoState 0 (fun r => { r with env_status := ENV_DYING })).envs 0).env_status =
      ENV_DYING :=
  ⟨((trap_kernel_divide_destroys demoState { tf0 with tf_trapno := T_DIVIDE, tf_cs := GD_KT } 0
      (fun _ => none) (fun _ => 0) 0 rfl).1 rfl).2, by decide⟩

/-- C29 (the code departs from the claim): `trap_dispatch` does not call
`irq_dispatch`, the call being commented out, so a spurious interrupt (vector
IRQ_OFFSET + IRQ_SPURIOUS) taken in user mode reaches the end of `trap_dispatch`
and destroys the current environment: its status becomes ENV_DYING and `trap`
yields instead of resuming it.  `irq_dispatch` itself would return with the
state unchanged. -/
theorem trap_spurious_destroys (s : KState) (tf : Trapframe) (cr2 : Nat)
    (mem : Nat → Option Nat) (debuginfo_eip : Nat → Int) (fuel : Nat)
    (hu : tf.tf_cs &&& 3 = 3) (hno : tf.tf_trapno = IRQ_OFFSET + IRQ_SPURIOUS)
    (hs : (s.envs s.curenv).env_status ≠ ENV_DYING) :
    trap_dispatch (modifyEnv s s.curenv (fun e => { e with env_tf := tf })) .in_curenv cr2 mem
        debuginfo_eip fuel =
      .yield (some s.curenv)
        (modifyEnv (modifyEnv s s.curenv (fun e => { e with env_tf := tf })) s.curenv
          (fun r => { r with env_status := ENV_DYING })) ∧
    trap s tf cr2 mem debuginfo_eip fuel =
      .yield (some s.curenv)
        (modifyEnv (modifyEnv s s.curenv (fun e => { e with env_tf := tf })) s.curenv
          (fun r => { r with env_status := ENV_DYING })) ∧
    irq_dispatch (modifyEnv s s.curenv (fun e => { e with env_tf := tf })) .in_curenv
      IRQ_SPURIOUS = .ret (modifyEnv s s.curenv (fun e => { e with env_tf := tf })) := by
  have htf : (TrapframePtr.in_curenv.deref
      (modifyEnv s s.curenv (fun e => { e with env_tf := tf }))) = tf := by
    simp [TrapframePtr.deref, modifyEnv]
  have hcs : tf.tf_cs ≠ GD_KT := by
    intro hc
    rw [hc] at hu
    exact absurd hu (by decide)
  have hd : trap_dispatch (modifyEnv s s.curenv (fun e => { e with env_tf := tf }))
      .in_curenv cr2 mem debuginfo_eip fuel =
      .yield (some s.curenv)
        (modifyEnv (modifyEnv s s.curenv (fun e => { e with env_tf := tf })) s.curenv
          (fun r => { r with env_status := ENV_DYING })) := by
    rw [trap_dispatch_default _ _ _ mem debuginfo_eip fuel (by rw [htf, hno]; decide) (by rw [htf, hno]; decide)
      (by rw [htf, hno]; decide) (by rw [htf, hno]; decide) (by rw [htf, hno]; decide)
      (by rw [htf, hno]; decide), htf, if_neg hcs]
    rfl
  refine ⟨hd, ?_, ?_⟩
  · unfold trap
    rw [if_pos hu, if_neg hs, hd]
  · unfold irq_dispatch
    rw [if_neg (by decide), if_pos rfl]

/-- Witness of C29: a spurious interrupt, vector 39, while the caller of the
concrete state runs in user mode. -/
theorem trap_spurious_destroys_witness :
    trap demoState { tfFault with tf_trapno := 39 } 0 (fun _ => none) (fun _ => 0) 0 =
      .yield (some 0)
        (modifyEnv (modifyEnv demoState 0 (fun e => { e with env_tf := { tfFault with tf_trapno := 39 } }))
          0 (fun r => { r with env_status := ENV_DYING })) :=
  (trap_spurious_destroys demoState { tfFault with tf_trapno := 39 } 0 (fun _ => none)
    (fun _ => 0) 0 (by decide) (by decide) (by decide)).2.1

theorem trap_dispatch_brkpt (s : KState) (tf : TrapframePtr) (cr2 : Nat)
    (mem : Nat → Option Nat) (debuginfo_eip : Nat → Int) (fuel : Nat)
    (h : (tf.deref s).tf_trapno = T_BRKPT ∨ (tf.deref s).tf_trapno = T_DEBUG) :
    trap_dispatch s tf cr2 mem debuginfo_eip fuel =
      print_backtrace s mem debuginfo_eip fuel (tf.deref s).tf_regs.reg_ebp := by
  unfold trap_dispatch debug_breakpoint_handler
  rcases h with h | h
  · rw [if_neg (by rw [h]; decide), if_neg (by rw [h]; decide), if_pos h]
  · rw [if_neg (by rw [h]; decide), if_pos h]

theorem print_backtrace_fault (s : KState) (mem : Nat → Option Nat) (debuginfo_eip : Nat → Int)
    (fuel ebp : Nat) (h : kernel_read s mem ((ebp + 4) % 2 ^ 32) = none) :
    print_backtrace s mem debuginfo_eip fuel ebp = .panic s := by
  unfold print_backtrace
  rw [h]

theorem print_backtrace_ends (s : KState) (mem : Nat → Option Nat) (debuginfo_eip : Nat → Int)
    (fuel ebp eip : Nat) (h : kernel_read s mem ((ebp + 4) % 2 ^ 32) = some eip)
    (hd : debuginfo_eip eip ≠ 0) :
    print_backtrace s mem debuginfo_eip (fuel + 1) ebp = .ret s := by
  unfold print_backtrace
  rw [h]
  unfold print_backtrace_loop
  rw [if_pos hd]

/-- C30: on every entry to `trap` from user mode (`tf_cs & 3 == 3`).  If
`curenv` is ENV_DYING it is freed and the scheduler is entered with `curenv`
NULL, whatever the trap was: nothing is dispatched.  Otherwise the frame on the
stack is copied into `curenv->env_tf`, the dispatch runs in that state on the
frame in the record, and when it returns `trap` resumes `curenv` with `env_run`
if its status is ENV_RUNNING and enters the scheduler if it is not; a dispatch
that does not return (a panic, a yield, an upcall, a backtrace that does not
end) ends the trap as it is.  The final test enters the scheduler also when
`curenv` is NULL. -/
theorem trap_user_entry (s : KState) (tf : Trapframe) (cr2 : Nat)
    (mem : Nat → Option Nat) (debuginfo_eip : Nat → Int) (fuel : Nat)
    (hu : tf.tf_cs &&& 3 = 3) :
    ((s.envs s.curenv).env_status = ENV_DYING →
      trap s tf cr2 mem debuginfo_eip fuel = .yield none (env_free s s.curenv) ∧
      ((env_free s s.curenv).envs s.curenv).env_status = ENV_FREE) ∧
    ((s.envs s.curenv).env_status ≠ ENV_DYING →
      TrapframePtr.in_curenv.deref (modifyEnv s s.curenv (fun e => { e with env_tf := tf })) = tf ∧
      (∀ s2, trap_dispatch (modifyEnv s s.curenv (fun e => { e with env_tf := tf }))
          .in_curenv cr2 mem debuginfo_eip fuel = .ret s2 →
        ((s2.envs s2.curenv).env_status = ENV_RUNNING →
          trap s tf cr2 mem debuginfo_eip fuel = .env_run s2.curenv s2) ∧
        ((s2.envs s2.curenv).env_status ≠ ENV_RUNNING →
          trap s tf cr2 mem debuginfo_eip fuel = .yield (some s2.curenv) s2)) ∧
      ((∀ s2, trap_dispatch (modifyEnv s s.curenv (fun e => { e with env_tf := tf }))
          .in_curenv cr2 mem debuginfo_eip fuel ≠ .ret s2) →
        trap s tf cr2 mem debuginfo_eip fuel =
          trap_dispatch (modifyEnv s s.curenv (fun e => { e with env_tf := tf }))
            .in_curenv cr2 mem debuginfo_eip fuel)) ∧
    (∀ t e, trap_return none t = .yield none t ∧
      ((t.envs e).env_status = ENV_RUNNING → trap_return (some e) t = .env_run e t) ∧
      ((t.envs e).env_status ≠ ENV_RUNNING → trap_return (some e) t = .yield (some e) t)) := by
  refine ⟨fun hd => ⟨?_, ?_⟩, fun hd => ⟨?_, fun s2 h2 => ⟨fun hr => ?_, fun hr => ?_⟩, fun hn => ?_⟩,
    fun t e => ⟨rfl, fun hr => ?_, fun hr => ?_⟩⟩
  · unfold trap
    rw [if_pos hu, if_pos hd]
  · simp [env_free, modifyEnv]
  · simp [TrapframePtr.deref, modifyEnv]
  · unfold trap
    rw [if_pos hu, if_neg hd, h2]
    simp only [trap_return]
    rw [if_pos hr]
  · unfold trap
    rw [if_pos hu, if_neg hd, h2]
    simp only [trap_return]
    rw [if_neg hr]
  · unfold trap
    rw [if_pos hu, if_neg hd]
    cases hr : trap_dispatch (modifyEnv s s.curenv (fun e => { e with env_tf := tf }))
      .in_curenv cr2 mem debuginfo_eip fuel with
    | ret s2 => exact absurd hr (hn s2)
    | panic _ => rfl
    | yield _ _ => rfl
    | env_run _ _ => rfl
    | upcall _ _ _ => rfl
    | running _ => rfl
  · simp only [trap_return]
    rw [if_pos hr]
  · simp only [trap_return]
    rw [if_neg hr]

/-- Witness of C30, on the caller of the concrete state in user mode.  A system
call SYS_getenvid returns, and the caller, still ENV_RUNNING, is resumed.  A
breakpoint with the frame pointer 0x2000, in the caller's mapped page 2, where
`debuginfo_eip` ends the backtrace at once, returns as well and the caller is
resumed with the trap-time frame in its record.  A breakpoint with the frame
pointer 3, in the unmapped page 0, makes the backtrace fault: the kernel
panics. -/
theorem trap_user_entry_witness :
    (∃ s2, trap demoState
        { tfFault with tf_trapno := T_SYSCALL, tf_regs := ⟨1, 2, 3, 4, 5, 6, 7, SYS_getenvid⟩ }
        0 (fun _ => none) (fun _ => 0) 0 = .env_run 0 s2 ∧
      (s2.envs 0).env_tf.tf_regs.reg_eax = 0x1000) ∧
    trap demoState { tfFault with tf_trapno := T_BRKPT, tf_regs := ⟨1, 2, 0x2000, 4, 5, 6, 7, 8⟩ }
        0 (fun _ => some 0) (fun _ => -1) 1 =
      .env_run 0
        (modifyEnv demoState 0 (fun e => { e with
          env_tf := { tfFault with tf_trapno := T_BRKPT,
                                   tf_regs := ⟨1, 2, 0x2000, 4, 5, 6, 7, 8⟩ } })) ∧
    trap demoState { tfFault with tf_trapno := T_BRKPT } 0 (fun _ => some 0) (fun _ => -1) 1 =
      .panic (modifyEnv demoState 0 (fun e => { e with
        env_tf := { tfFault with tf_trapno := T_BRKPT } })) := by
  refine ⟨?_, ?_, ?_⟩
  · have h := ((trap_user_entry demoState
      { tfFault with tf_trapno := T_SYSCALL, tf_regs := ⟨1, 2, 3, 4, 5, 6, 7, SYS_getenvid⟩ }
      0 (fun _ => none) (fun _ => 0) 0 (by decide)).2.1 (by decide)).2.1
    exact ⟨_, (h (modifyEnv
        (modifyEnv demoState 0 (fun e => { e with env_tf :=
          { tfFault with tf_trapno := T_SYSCALL,
                         tf_regs := ⟨1, 2, 3, 4, 5, 6, 7, SYS_getenvid⟩ } }))
        0 (fun e => { e with env_tf := e.env_tf.set_eax 0x1000 })) rfl).1 (by decide),
      by decide⟩
  · have h := ((trap_user_entry demoState
      { tfFault with tf_trapno := T_BRKPT, tf_regs := ⟨1, 2, 0x2000, 4, 5, 6, 7, 8⟩ }
      0 (fun _ => some 0) (fun _ => -1) 1 (by decide)).2.1 (by decide)).2.1
    refine (h (modifyEnv demoState 0 (fun e => { e with
      env_tf := { tfFault with tf_trapno := T_BRKPT,
                               tf_regs := ⟨1, 2, 0x2000, 4, 5, 6, 7, 8⟩ } })) ?_).1 (by decide)
    rw [trap_dispatch_brkpt _ _ _ _ _ _ (Or.inl (by decide))]
    exact print_backtrace_ends _ _ _ 0 _ 0 (by decide) (by decide)
  · have hp : trap_dispatch
        (modifyEnv demoState demoState.curenv (fun e => { e with
          env_tf := { tfFault with tf_trapno := T_BRKPT } }))
        .in_curenv 0 (fun _ => some 0) (fun _ => -1) 1 =
        .panic (modifyEnv demoState 0 (fun e => { e with
          env_tf := { tfFault with tf_trapno := T_BRKPT } })) := by
      rw [trap_dispatch_brkpt _ _ _ _ _ _ (Or.inl (by decide))]
      exact print_backtrace_fault _ _ _ _ _ (by decide)
    have h := ((trap_user_entry demoState { tfFault with tf_trapno := T_BRKPT }
      0 (fun _ => some 0) (fun _ => -1) 1 (by decide)).2.1 (by decide)).2.2
      (fun s2 h2 => by rw [hp] at h2; cases h2)
    exact h.trans hp

end JOS
